import Mathlib

/-!
# ISX031 sensor driver (`drivers/media/i2c/isx031.c`)

A shallow embedding of the register transport, the retrying accessors, the
register-list applier, the drive-mode resolver, the sensor state machine and
the session entry points of the driver, followed by theorems about them.

Machine integers are `Nat`/`Int` with explicit reductions where the C code
truncates.  The I2C adapter and the host facilities (runtime power, reset
line, control handler) are an explicit environment: a state type `σ` with
step functions.  Every call into the environment is appended to a log, so
that ordering properties of the wire sequence can be stated.
`msleep`/`usleep_range` only let time pass and have no counterpart here.
-/

namespace Isx031

/-! ## Constants (lines 28-54 of the driver, and the kernel errno values) -/

def ISX031_OTP_TYPE_NAME_L : Nat := 0x7E8A
def ISX031_OTP_TYPE_NAME_H : Nat := 0x7E8B
def ISX031_OTP_TYPE_NAME_H_FIELD : Nat := 0x0F
def ISX031_OTP_MODULE_ID_L : Nat := 0x031

def ISX031_REG_MODE_SET_F : Nat := 0x8A01
def ISX031_MODE_STANDBY : Int := 0x00
def ISX031_MODE_STREAMING : Int := 0x80

def ISX031_REG_SENSOR_STATE : Nat := 0x6005
def ISX031_STATE_STREAMING : Nat := 0x05
def ISX031_STATE_STARTUP : Nat := 0x02

def ISX031_REG_MODE_SET_F_LOCK : Nat := 0xBEF0
def ISX031_MODE_UNLOCK : Nat := 0x53

def ISX031_REG_MODE_SELECT : Nat := 0x8A00
def ISX031_MODE_4LANES_60FPS : Int := 0x01
def ISX031_MODE_4LANES_30FPS : Int := 0x17
def ISX031_MODE_2LANES_30FPS : Int := 0x18

def ISX031_READ_REG_RETRY_TIMEOUT : Nat := 50
def ISX031_WRITE_REG_RETRY_TIMEOUT : Nat := 100
def ISX031_PM_RETRY_TIMEOUT : Nat := 10

def ISX031_REG_LEN_DELAY : Nat := 0
def ISX031_REG_LEN_08BIT : Nat := 1
def ISX031_REG_LEN_16BIT : Nat := 2

/-- Kernel errno `EIO`. -/
def EIO_errno : Int := 5
/-- Kernel errno `EINVAL`. -/
def EINVAL : Int := 22
/-- Kernel errno `ENODEV`. -/
def ENODEV : Int := 19
/-- Kernel errno `ETIMEDOUT`. -/
def ETIMEDOUT : Int := 110
/-- Kernel errno `EPROBE_DEFER`. -/
def EPROBE_DEFER : Int := 517

/-- Kernel constant `MEDIA_BUS_FMT_UYVY8_1X16`. -/
def MEDIA_BUS_FMT_UYVY8_1X16 : Nat := 0x200f
/-- Kernel constant `MIPI_CSI2_DT_YUV422_8B`. -/
def MIPI_CSI2_DT_YUV422_8B : Nat := 0x1e
/-- Kernel constant `V4L2_SUBDEV_FORMAT_TRY`. -/
def V4L2_SUBDEV_FORMAT_TRY : Nat := 0
/-- Kernel constant `V4L2_SUBDEV_FORMAT_ACTIVE`. -/
def V4L2_SUBDEV_FORMAT_ACTIVE : Nat := 1

/-! ## Static tables -/

/-- One entry of a register list (`struct isx031_reg`). -/
structure isx031_reg where
  mode : Nat
  address : Nat
  val : Nat
deriving DecidableEq, Repr

/-- One entry of the drive-mode table (`struct isx031_drive_mode`). -/
structure isx031_drive_mode where
  lanes : Int
  fps : Int
  mode : Int
deriving DecidableEq, Repr

/-- The drive-mode table.  The last entry is the `{}` terminator of the C
array, which `ARRAY_SIZE` counts. -/
def isx031_drive_modes : List isx031_drive_mode :=
  [ ⟨4, 60, ISX031_MODE_4LANES_60FPS⟩,
    ⟨4, 30, ISX031_MODE_4LANES_30FPS⟩,
    ⟨2, 30, ISX031_MODE_2LANES_30FPS⟩,
    ⟨0, 0, 0⟩ ]

/-- The `{}` terminator of a register array: all fields zero, so its mode is
`ISX031_REG_LEN_DELAY` with a delay of 0 ms.  `num_of_regs` is the
`ARRAY_SIZE` of the array and therefore counts it. -/
def reg_terminator : isx031_reg := ⟨0, 0, 0⟩

def isx031_init_reg : List isx031_reg :=
  [ ⟨1, 0xFFFF, 0x00⟩, ⟨1, 0x0171, 0x00⟩, ⟨1, 0x0172, 0x00⟩, reg_terminator ]

def isx031_framesync_reg : List isx031_reg :=
  [ ⟨1, 0xBF14, 0x01⟩, ⟨1, 0x8AFF, 0x0c⟩, ⟨1, 0x0153, 0x00⟩,
    ⟨1, 0x8AF0, 0x01⟩, ⟨1, 0x0144, 0x00⟩, ⟨1, 0x8AF1, 0x00⟩, reg_terminator ]

def isx031_1920_1536_30fps_reg : List isx031_reg :=
  [ ⟨1, 0x8AA8, 0x01⟩, ⟨1, 0x8AAA, 0x80⟩, ⟨1, 0x8AAB, 0x07⟩, ⟨1, 0x8AAC, 0x00⟩,
    ⟨1, 0x8AAD, 0x00⟩, ⟨1, 0x8AAE, 0x00⟩, ⟨1, 0x8AAF, 0x06⟩, ⟨1, 0x8AB0, 0x00⟩,
    ⟨1, 0x8AB1, 0x00⟩, ⟨1, 0x8ADA, 0x03⟩, ⟨1, 0xBF04, 0x01⟩, ⟨1, 0xBF06, 0x80⟩,
    ⟨1, 0xBF07, 0x07⟩, ⟨1, 0xBF08, 0x00⟩, ⟨1, 0xBF09, 0x00⟩, ⟨1, 0xBF0A, 0x00⟩,
    ⟨1, 0xBF0B, 0x06⟩, ⟨1, 0xBF0C, 0x00⟩, ⟨1, 0xBF0D, 0x00⟩, reg_terminator ]

def isx031_1920_1080_30fps_reg : List isx031_reg :=
  [ ⟨1, 0x8AA8, 0x01⟩, ⟨1, 0x8AAA, 0x80⟩, ⟨1, 0x8AAB, 0x07⟩, ⟨1, 0x8AAC, 0x00⟩,
    ⟨1, 0x8AAD, 0x00⟩, ⟨1, 0x8AAE, 0x38⟩, ⟨1, 0x8AAF, 0x04⟩, ⟨1, 0x8AB0, 0xE4⟩,
    ⟨1, 0x8AB1, 0x00⟩, ⟨1, 0x8ADA, 0x03⟩, ⟨1, 0xBF04, 0x01⟩, ⟨1, 0xBF06, 0x80⟩,
    ⟨1, 0xBF07, 0x07⟩, ⟨1, 0xBF08, 0x00⟩, ⟨1, 0xBF09, 0x00⟩, ⟨1, 0xBF0A, 0x38⟩,
    ⟨1, 0xBF0B, 0x04⟩, ⟨1, 0xBF0C, 0xE4⟩, ⟨1, 0xBF0D, 0x00⟩, reg_terminator ]

def isx031_1280_720_30fps_reg : List isx031_reg :=
  [ ⟨1, 0x8AA8, 0x01⟩, ⟨1, 0x8AAA, 0x00⟩, ⟨1, 0x8AAB, 0x05⟩, ⟨1, 0x8AAC, 0x40⟩,
    ⟨1, 0x8AAD, 0x01⟩, ⟨1, 0x8AAE, 0xD0⟩, ⟨1, 0x8AAF, 0x02⟩, ⟨1, 0x8AB0, 0x98⟩,
    ⟨1, 0x8AB1, 0x01⟩, ⟨1, 0x8ADA, 0x03⟩, ⟨1, 0xBF04, 0x01⟩, ⟨1, 0xBF06, 0x00⟩,
    ⟨1, 0xBF07, 0x05⟩, ⟨1, 0xBF08, 0x40⟩, ⟨1, 0xBF09, 0x01⟩, ⟨1, 0xBF0A, 0xD0⟩,
    ⟨1, 0xBF0B, 0x02⟩, ⟨1, 0xBF0C, 0x98⟩, ⟨1, 0xBF0D, 0x01⟩, reg_terminator ]

/-- A resolution mode (`struct isx031_mode`); `reg_list` is the register
array with its `num_of_regs` entries. -/
structure isx031_mode where
  width : Nat
  height : Nat
  code : Nat
  datatype : Nat
  fps : Nat
  reg_list : List isx031_reg
deriving DecidableEq, Repr

/-- The catalog of resolution modes. -/
def supported_modes : List isx031_mode :=
  [ ⟨1920, 1536, MEDIA_BUS_FMT_UYVY8_1X16, MIPI_CSI2_DT_YUV422_8B, 30,
      isx031_1920_1536_30fps_reg⟩,
    ⟨1920, 1080, MEDIA_BUS_FMT_UYVY8_1X16, MIPI_CSI2_DT_YUV422_8B, 30,
      isx031_1920_1080_30fps_reg⟩,
    ⟨1280, 720, MEDIA_BUS_FMT_UYVY8_1X16, MIPI_CSI2_DT_YUV422_8B, 30,
      isx031_1280_720_30fps_reg⟩ ]

/-- Dereference of a pointer `&supported_modes[i]`. -/
def mode_at (i : Fin 3) : isx031_mode :=
  supported_modes.getD i.val ⟨0, 0, 0, 0, 0, []⟩

/-! ## Environment: the I2C adapter and the host facilities -/

/-- Calls into the host other than I2C transfers.  The two GPIO calls act on
the reset line. -/
inductive HostCall where
  | pm_runtime_resume_and_get
  | pm_runtime_put
  | v4l2_ctrl_handler_setup
  | gpiod_set_value_cansleep (value : Nat)
  | gpiod_get_value_cansleep
  | isx031_ctrls_init
  | media_entity_pads_init
  | v4l2_async_register_subdev_sensor
deriving DecidableEq, Repr

/-- One logged call into the environment.  `xfer` is an `i2c_transfer` of an
address write followed by a read of `len` bytes, `send` is an
`i2c_master_send` of `buf`; both carry the value the adapter returned. -/
inductive Event where
  | xfer (addr_buf : List Nat) (len : Nat) (ret : Int) (data : List Nat)
  | send (buf : List Nat) (ret : Int)
  | host (call : HostCall) (ret : Int)
deriving DecidableEq, Repr

/-- The environment over a hardware state `σ`.  `i2c_transfer` gets the
address bytes and the number of bytes to read and answers with its return
value and the bytes the device delivered; `i2c_master_send` gets the bytes to
send and answers with its return value; `host` answers any other call. -/
structure Env (σ : Type) where
  i2c_transfer : σ → List Nat → Nat → Int × List Nat × σ
  i2c_master_send : σ → List Nat → Int × σ
  host : σ → HostCall → Int × σ

/-- The hardware state together with the log of calls made so far. -/
structure World (σ : Type) where
  hw : σ
  log : List Event

/-- Perform `i2c_transfer` and log it. -/
def do_transfer {σ : Type} (env : Env σ) (addr_buf : List Nat) (len : Nat)
    (w : World σ) : Int × List Nat × World σ :=
  let r := env.i2c_transfer w.hw addr_buf len
  (r.1, r.2.1, ⟨r.2.2, w.log ++ [Event.xfer addr_buf len r.1 r.2.1]⟩)

/-- Perform `i2c_master_send` and log it. -/
def do_send {σ : Type} (env : Env σ) (buf : List Nat) (w : World σ) :
    Int × World σ :=
  let r := env.i2c_master_send w.hw buf
  (r.1, ⟨r.2, w.log ++ [Event.send buf r.1]⟩)

/-- Perform a host call and log it. -/
def do_host {σ : Type} (env : Env σ) (c : HostCall) (w : World σ) :
    Int × World σ :=
  let r := env.host w.hw c
  (r.1, ⟨r.2, w.log ++ [Event.host c r.1]⟩)

/-! ## Register transport -/

/-- The kernel helper `put_unaligned_be16`: the two bytes of a 16-bit value,
most significant first. -/
def put_unaligned_be16 (v : Nat) : List Nat :=
  [(v / 256) % 256, v % 256]

/-- The kernel helper `put_unaligned_be32`: the four bytes of a 32-bit value,
most significant first. -/
def put_unaligned_be32 (v : Nat) : List Nat :=
  [(v / 16777216) % 256, (v / 65536) % 256, (v / 256) % 256, v % 256]

/-- The kernel helper `get_unaligned_be32` on a four-byte buffer. -/
def get_unaligned_be32 (b : List Nat) : Nat :=
  b.getD 0 0 * 16777216 + b.getD 1 0 * 65536 + b.getD 2 0 * 256 + b.getD 3 0

/-- The buffer `data_buf` after a read of `len` bytes into
`&data_buf[4 - len]`: zero-initialised, then the delivered bytes. -/
def fill_data_buf (len : Nat) (data : List Nat) : List Nat :=
  List.replicate (4 - len) 0 ++
    (List.range len).map (fun i => data.getD i 0 % 256)

/-- The driver function `isx031_read_reg`: returns the status and the new content of `*val`
(unchanged on failure). -/
def isx031_read_reg {σ : Type} (env : Env σ) (reg len : Nat) (val : Nat)
    (w : World σ) : Int × Nat × World σ :=
  if len > 4 then (-EINVAL, val, w)
  else
    let r := do_transfer env (put_unaligned_be16 reg) len w
    if r.1 ≠ 2 then (- EIO_errno, val, r.2.2)
    else (0, get_unaligned_be32 (fill_data_buf len r.2.1), r.2.2)

/-- The first `len + 2` bytes of `buf` in `isx031_write_reg`: the address,
then `val << (8 * (4 - len))` taken in 32 bits, both big-endian. -/
def write_reg_buf (reg len val : Nat) : List Nat :=
  (put_unaligned_be16 reg ++
    put_unaligned_be32 ((val * 2 ^ (8 * (4 - len))) % 4294967296)).take (len + 2)

/-- The driver function `isx031_write_reg`.  The shift `val << (8 * (4 - len))` is taken in 32
bits (for `len = 0` the C shift count is 32, where this model yields 0). -/
def isx031_write_reg {σ : Type} (env : Env σ) (reg len : Nat) (val : Nat)
    (w : World σ) : Int × World σ :=
  if len > 4 then (-EINVAL, w)
  else
    let r := do_send env (write_reg_buf reg len val) w
    if r.1 ≠ ((len + 2 : Nat) : Int) then (- EIO_errno, r.2) else (0, r.2)

/-! ## Retrying accessors -/

/-- The loop of `isx031_read_reg_otp`: `n` iterations remain, `ret` is the
status of the last attempt. -/
def read_reg_otp_loop {σ : Type} (env : Env σ) (reg : Nat) :
    Nat → Int → Nat → World σ → Int × Nat × World σ
  | 0, ret, val, w => (ret, val, w)
  | n + 1, _, val, w =>
    let r := isx031_read_reg env reg ISX031_REG_LEN_08BIT val w
    if r.1 = 0 then (0, r.2.1, r.2.2)
    else read_reg_otp_loop env reg n r.1 r.2.1 r.2.2

/-- The driver function `isx031_read_reg_otp` (`ret` is uninitialised in C before the first of
the 50 iterations assigns it). -/
def isx031_read_reg_otp {σ : Type} (env : Env σ) (reg : Nat) (val : Nat)
    (w : World σ) : Int × Nat × World σ :=
  read_reg_otp_loop env reg ISX031_READ_REG_RETRY_TIMEOUT 0 val w

/-- The driver function `isx031_read_reg_state`: the same loop on the sensor state register. -/
def isx031_read_reg_state {σ : Type} (env : Env σ) (val : Nat)
    (w : World σ) : Int × Nat × World σ :=
  read_reg_otp_loop env ISX031_REG_SENSOR_STATE ISX031_READ_REG_RETRY_TIMEOUT 0 val w

/-- The loop of `isx031_write_reg_retry`. -/
def write_reg_retry_loop {σ : Type} (env : Env σ) (reg len val : Nat) :
    Nat → Int → World σ → Int × World σ
  | 0, ret, w => (ret, w)
  | n + 1, _, w =>
    let r := isx031_write_reg env reg len val w
    if r.1 = 0 then (0, r.2)
    else write_reg_retry_loop env reg len val n r.1 r.2

/-- The driver function `isx031_write_reg_retry`. -/
def isx031_write_reg_retry {σ : Type} (env : Env σ) (reg len val : Nat)
    (w : World σ) : Int × World σ :=
  write_reg_retry_loop env reg len val ISX031_WRITE_REG_RETRY_TIMEOUT 0 w

/-! ## Register list applier -/

/-- The driver function `isx031_write_reg_list`: the loop over the `num_of_regs` entries. -/
def isx031_write_reg_list {σ : Type} (env : Env σ) :
    List isx031_reg → Bool → World σ → Int × World σ
  | [], _, w => (0, w)
  | reg :: rest, is_retry, w =>
    if reg.mode = ISX031_REG_LEN_DELAY then
      isx031_write_reg_list env rest is_retry w
    else
      let r := if is_retry then
          isx031_write_reg_retry env reg.address ISX031_REG_LEN_08BIT reg.val w
        else
          isx031_write_reg env reg.address ISX031_REG_LEN_08BIT reg.val w
      if r.1 ≠ 0 then (r.1, r.2)
      else isx031_write_reg_list env rest is_retry r.2

/-! ## Drive-mode resolver -/

/-- The loop of `isx031_find_drive_mode` over the table entries. -/
def find_drive_mode_loop : List isx031_drive_mode → Int → Int → Int
  | [], _, _ => -EINVAL
  | e :: rest, lanes, fps =>
    if e.lanes = lanes ∧ e.fps = fps then e.mode
    else find_drive_mode_loop rest lanes fps

/-- The driver function `isx031_find_drive_mode`. -/
def isx031_find_drive_mode (lanes fps : Int) : Int :=
  find_drive_mode_loop isx031_drive_modes lanes fps

/-! ## Session state -/

/-- The fields of `struct isx031_platform_data` the driver reads. -/
structure isx031_platform_data where
  irq_pin_flags : Nat
  lanes : Nat
deriving DecidableEq, Repr

/-- The driver state (`struct isx031`).  `cur_mode` and `pre_mode` are
pointers into `supported_modes`, kept as indices; `pre_mode` may be `NULL`.
`reset_gpio` tells whether the optional reset line is present. -/
structure isx031 where
  platform_data : Option isx031_platform_data
  reset_gpio : Bool
  cur_mode : Fin 3
  pre_mode : Option (Fin 3)
  lanes : Nat
  streaming : Bool
deriving DecidableEq, Repr

/-! ## Sensor state machine -/

/-- The driver function `isx031_set_drive_mode`. -/
def isx031_set_drive_mode {σ : Type} (env : Env σ) (s : isx031)
    (w : World σ) : Int × World σ :=
  let mode := isx031_find_drive_mode (s.lanes : Int) ((mode_at s.cur_mode).fps : Int)
  if mode < 0 then (mode, w)
  else isx031_write_reg env ISX031_REG_MODE_SELECT 1 mode.toNat w

/-- The body of `isx031_mode_transit` once `mode` has been chosen. -/
def mode_transit_body {σ : Type} (env : Env σ) (s : isx031) (mode : Int)
    (w : World σ) : Int × World σ :=
  let r1 := isx031_read_reg_state env 0 w
  if r1.1 ≠ 0 then (r1.1, r1.2.2)
  else
    let r2 := isx031_set_drive_mode env s r1.2.2
    if r2.1 ≠ 0 then (r2.1, r2.2)
    else
      let r3 := isx031_write_reg env ISX031_REG_MODE_SET_F_LOCK 1 ISX031_MODE_UNLOCK r2.2
      if r3.1 ≠ 0 then (r3.1, r3.2)
      else
        let r4 := isx031_write_reg env ISX031_REG_MODE_SET_F 1 mode.toNat r3.2
        if r4.1 ≠ 0 then (r4.1, r4.2)
        else
          let r5 := isx031_read_reg_state env r1.2.1 r4.2
          if r5.1 ≠ 0 then (r5.1, r5.2.2)
          else (0, r5.2.2)

/-- The driver function `isx031_mode_transit`. -/
def isx031_mode_transit {σ : Type} (env : Env σ) (s : isx031) (state : Nat)
    (w : World σ) : Int × World σ :=
  if state = ISX031_STATE_STARTUP then
    mode_transit_body env s ISX031_MODE_STANDBY w
  else if state = ISX031_STATE_STREAMING then
    mode_transit_body env s ISX031_MODE_STREAMING w
  else (-EINVAL, w)

/-- The driver function `isx031_initialize_module`. -/
def isx031_initialize_module {σ : Type} (env : Env σ) (s : isx031)
    (w : World σ) : Int × World σ :=
  let r1 := isx031_read_reg_state env 0 w
  if r1.1 ≠ 0 then (r1.1, r1.2.2)
  else
    let r2 := if r1.2.1 = ISX031_STATE_STREAMING then
        isx031_mode_transit env s ISX031_STATE_STARTUP r1.2.2
      else (0, r1.2.2)
    if r2.1 ≠ 0 then (r2.1, r2.2)
    else
      let r3 := isx031_write_reg_list env isx031_init_reg true r2.2
      if r3.1 ≠ 0 then (r3.1, r3.2)
      else
        match s.platform_data with
        | some pd =>
          if pd.irq_pin_flags = 0 then
            isx031_write_reg_list env isx031_framesync_reg false r3.2
          else (0, r3.2)
        | none => (0, r3.2)

/-- The driver function `isx031_identify_module`; `module_id` is a `u16`. -/
def isx031_identify_module {σ : Type} (env : Env σ) (w : World σ) :
    Int × World σ :=
  let r1 := isx031_read_reg_otp env ISX031_OTP_TYPE_NAME_L 0 w
  if r1.1 ≠ 0 then (r1.1, r1.2.2)
  else
    let r2 := isx031_read_reg_otp env ISX031_OTP_TYPE_NAME_H 0 r1.2.2
    if r2.1 ≠ 0 then (r2.1, r2.2.2)
    else
      let module_id :=
        ((((r2.2.1 &&& ISX031_OTP_TYPE_NAME_H_FIELD) <<< 8) ||| r1.2.1)) % 65536
      if module_id ≠ ISX031_OTP_MODULE_ID_L then (-ENODEV, r2.2.2)
      else (0, r2.2.2)

/-! ## Session controller -/

/-- The driver function `isx031_start_streaming`. -/
def isx031_start_streaming {σ : Type} (env : Env σ) (s : isx031)
    (w : World σ) : Int × isx031 × World σ :=
  let r1 : Int × isx031 × World σ :=
    if some s.cur_mode ≠ s.pre_mode then
      let r := isx031_write_reg_list env (mode_at s.cur_mode).reg_list true w
      if r.1 ≠ 0 then (r.1, s, r.2)
      else (0, { s with pre_mode := some s.cur_mode }, r.2)
    else (0, s, w)
  if r1.1 ≠ 0 then r1
  else
    let r2 := do_host env HostCall.v4l2_ctrl_handler_setup r1.2.2
    if r2.1 ≠ 0 then (r2.1, r1.2.1, r2.2)
    else
      let r3 := isx031_mode_transit env r1.2.1 ISX031_STATE_STREAMING r2.2
      if r3.1 ≠ 0 then (r3.1, r1.2.1, r3.2)
      else (0, r1.2.1, r3.2)

/-- The driver function `isx031_stop_streaming`: the status of the transition is only logged. -/
def isx031_stop_streaming {σ : Type} (env : Env σ) (s : isx031)
    (w : World σ) : World σ :=
  (isx031_mode_transit env s ISX031_STATE_STARTUP w).2

/-- The driver function `isx031_set_stream`; `enable` is the C `int`, compared with the `bool`
field `streaming`. -/
def isx031_set_stream {σ : Type} (env : Env σ) (s : isx031) (enable : Int)
    (w : World σ) : Int × isx031 × World σ :=
  if (if s.streaming then (1 : Int) else 0) = enable then (0, s, w)
  else if enable ≠ 0 then
    let r1 := do_host env HostCall.pm_runtime_resume_and_get w
    if r1.1 < 0 then (r1.1, s, r1.2)
    else
      let r2 := isx031_start_streaming env s r1.2
      if r2.1 ≠ 0 then
        let w3 := isx031_stop_streaming env r2.2.1 r2.2.2
        let r4 := do_host env HostCall.pm_runtime_put w3
        (r2.1, r2.2.1, r4.2)
      else (0, { r2.2.1 with streaming := true }, r2.2.2)
  else
    let w1 := isx031_stop_streaming env s w
    let r2 := do_host env HostCall.pm_runtime_put w1
    (0, { s with streaming := false }, r2.2)

/-- The driver function `isx031_enable_streams`. -/
def isx031_enable_streams {σ : Type} (env : Env σ) (s : isx031)
    (w : World σ) : Int × isx031 × World σ :=
  isx031_set_stream env s 1 w

/-- The driver function `isx031_disable_streams`. -/
def isx031_disable_streams {σ : Type} (env : Env σ) (s : isx031)
    (w : World σ) : Int × isx031 × World σ :=
  isx031_set_stream env s 0 w

/-- The driver function `isx031_suspend`. -/
def isx031_suspend {σ : Type} (env : Env σ) (s : isx031) (w : World σ) :
    Int × isx031 × World σ :=
  let w1 := if s.streaming then isx031_stop_streaming env s w else w
  let w2 := if s.reset_gpio then
      (do_host env (HostCall.gpiod_set_value_cansleep 1) w1).2
    else w1
  (0, s, w2)

/-- The power-on loop of `isx031_resume`: `n` iterations remain. -/
def resume_power_loop {σ : Type} (env : Env σ) :
    Nat → Int → World σ → Int × World σ
  | 0, ret, w => (ret, w)
  | n + 1, _, w =>
    let r1 := do_host env (HostCall.gpiod_set_value_cansleep 0) w
    let r2 := do_host env HostCall.gpiod_get_value_cansleep r1.2
    if r2.1 = 0 then (0, r2.2)
    else resume_power_loop env n r2.1 r2.2

/-- The part of `isx031_resume` after the power-on wait. -/
def resume_after_power {σ : Type} (env : Env σ) (s : isx031) (w : World σ) :
    Int × isx031 × World σ :=
  let r1 := isx031_identify_module env w
  if r1.1 ≠ 0 then (r1.1, s, r1.2)
  else
    let r2 := isx031_initialize_module env s r1.2
    if r2.1 ≠ 0 then (r2.1, s, r2.2)
    else
      let r3 := isx031_write_reg_list env (mode_at s.cur_mode).reg_list true r2.2
      if r3.1 ≠ 0 then (r3.1, s, r3.2)
      else if s.streaming then
        let r4 := isx031_start_streaming env s r3.2
        if r4.1 ≠ 0 then
          let s5 := { r4.2.1 with streaming := false }
          (r4.1, s5, isx031_stop_streaming env s5 r4.2.2)
        else (0, r4.2.1, r4.2.2)
      else (0, s, r3.2)

/-- The driver function `isx031_resume`. -/
def isx031_resume {σ : Type} (env : Env σ) (s : isx031) (w : World σ) :
    Int × isx031 × World σ :=
  if s.reset_gpio then
    let p := resume_power_loop env ISX031_PM_RETRY_TIMEOUT 0 w
    if p.1 ≠ 0 then (-ETIMEDOUT, s, p.2)
    else resume_after_power env s p.2
  else resume_after_power env s w

/-- The fields of `struct v4l2_subdev_format` that `isx031_set_format`
reads and writes. -/
structure v4l2_subdev_format where
  which : Nat
  code : Nat
  width : Nat
  height : Nat
deriving DecidableEq, Repr

/-- The search loop of `isx031_set_format` over the catalog indices. -/
def set_format_find (code width height : Nat) : List (Fin 3) → Option (Fin 3)
  | [] => none
  | i :: rest =>
    if (mode_at i).code = code ∧ (mode_at i).width = width ∧
        (mode_at i).height = height then some i
    else set_format_find code width height rest

/-- The driver function `isx031_update_pad_format` (the `field` member is not kept). -/
def isx031_update_pad_format (mode : isx031_mode) (fmt : v4l2_subdev_format) :
    v4l2_subdev_format :=
  { fmt with width := mode.width, height := mode.height, code := mode.code }

/-- The driver function `isx031_set_format`: returns the status, the updated format and the
session.  A try format is stored in the framework state, not in the
session. -/
def isx031_set_format (s : isx031) (fmt : v4l2_subdev_format) :
    Int × v4l2_subdev_format × isx031 :=
  let mode : Fin 3 :=
    match set_format_find fmt.code fmt.width fmt.height [0, 1, 2] with
    | some i => i
    | none => 0
  let fmt1 := isx031_update_pad_format (mode_at mode) fmt
  if fmt.which = V4L2_SUBDEV_FORMAT_TRY then (0, fmt1, s)
  else (0, fmt1, { s with cur_mode := mode })

/-- The driver function `isx031_get_num_lane`, on the outcome of the firmware-node lookup:
`none` when no endpoint exists, otherwise the status of the parse and the
number of data lanes it found.  Returns the status and the lane count to
store. -/
def isx031_get_num_lane (endpoint : Option (Int × Nat)) (lanes : Nat) :
    Int × Nat :=
  match endpoint with
  | none => (-EPROBE_DEFER, lanes)
  | some (ret, n) =>
    if ret ≠ 0 then (ret, lanes)
    else if n ≠ 2 ∧ n ≠ 4 then (-EINVAL, lanes)
    else (ret, n % 256)

/-- What `isx031_probe` finds on the platform: the platform data, the reset
line (`none` for an error pointer, otherwise whether it is present) and the
firmware-node endpoint. -/
structure probe_input where
  platform_data : Option isx031_platform_data
  reset_gpio : Option Bool
  endpoint : Option (Int × Nat)

/-- The part of `isx031_probe` from the lane count on. -/
def probe_from_lanes {σ : Type} (env : Env σ) (s : isx031) (w : World σ) :
    Int × Option isx031 × World σ :=
  let r1 := isx031_identify_module env w
  if r1.1 ≠ 0 then (r1.1, none, r1.2)
  else
    let s1 := { s with pre_mode := none, cur_mode := (0 : Fin 3) }
    let r2 := isx031_initialize_module env s1 r1.2
    if r2.1 ≠ 0 then (r2.1, none, r2.2)
    else
      let r3 := isx031_write_reg_list env (mode_at s1.cur_mode).reg_list true r2.2
      if r3.1 ≠ 0 then (r3.1, none, r3.2)
      else
        let s2 := { s1 with pre_mode := some s1.cur_mode }
        let r4 := do_host env HostCall.v4l2_async_register_subdev_sensor r3.2
        if r4.1 ≠ 0 then (r4.1, none, r4.2)
        else (0, some s2, r4.2)

/-- The driver function `isx031_probe` (device attach): the status and, on success, the session.
The allocation of the zeroed `struct isx031` is taken to succeed. -/
def isx031_probe {σ : Type} (env : Env σ) (inp : probe_input) (w : World σ) :
    Int × Option isx031 × World σ :=
  match inp.reset_gpio with
  | none => (-EPROBE_DEFER, none, w)
  | some gpio =>
    let s0 : isx031 := ⟨inp.platform_data, gpio, 0, none, 0, false⟩
    let r1 := do_host env HostCall.isx031_ctrls_init w
    if r1.1 ≠ 0 then (r1.1, none, r1.2)
    else
      let r2 := do_host env HostCall.media_entity_pads_init r1.2
      if r2.1 ≠ 0 then (r2.1, none, r2.2)
      else
        let pd_lanes := match inp.platform_data with
          | some pd => pd.lanes
          | none => 0
        if pd_lanes ≠ 0 then
          probe_from_lanes env { s0 with lanes := pd_lanes % 256 } r2.2
        else
          let l := isx031_get_num_lane inp.endpoint s0.lanes
          if l.1 ≠ 0 then (l.1, none, r2.2)
          else probe_from_lanes env { s0 with lanes := l.2 } r2.2

/-! ## A mock sensor: register storage behind the bus

The mock keeps, per register address, the value bytes last sent to it, and
answers a read of an address with the bytes stored there.  Every transfer
succeeds, as does every host call; the reset line reads 0. -/

/-- Stored value bytes per register address, most recent first. -/
abbrev MockStore := List (Nat × List Nat)

/-- The bytes stored at an address (none if never written). -/
def mock_lookup (st : MockStore) (addr : Nat) : List Nat :=
  match st.find? (fun e => e.1 = addr) with
  | some e => e.2
  | none => []

/-- The register address in the first two bytes of a buffer. -/
def buf_addr (buf : List Nat) : Nat :=
  buf.getD 0 0 * 256 + buf.getD 1 0

/-- The echoing mock environment. -/
def mock_env : Env MockStore where
  i2c_transfer := fun st addr_buf len =>
    (2, (mock_lookup st (buf_addr addr_buf)).take len, st)
  i2c_master_send := fun st buf =>
    ((buf.length : Int), (buf_addr buf, buf.drop 2) :: st)
  host := fun st _ => (0, st)

/-- The value of a one-byte register in the mock store. -/
def mock_reg (st : MockStore) (addr : Nat) : Nat :=
  (mock_lookup st addr).getD 0 0

/-! ## Reading the log -/

/-- The event is an `i2c_transfer` that reads `len` bytes of register `reg`. -/
def Event.reads (reg len : Nat) : Event → Bool
  | .xfer a l _ _ => a == put_unaligned_be16 reg && l == len
  | _ => false

/-- The event is an `i2c_master_send` addressed to register `reg`. -/
def Event.writes (reg : Nat) : Event → Bool
  | .send buf _ => buf.take 2 == put_unaligned_be16 reg
  | _ => false

/-- The event logged by a one-byte write of `val` to `reg` on which the
adapter returned `r` (3 when all three bytes went out). -/
def wr_event (reg val : Nat) (r : Int) : Event :=
  Event.send (write_reg_buf reg 1 val) r

/-- The successful write of the unlock value to the mode-lock register. -/
def unlock_ok : Event :=
  wr_event ISX031_REG_MODE_SET_F_LOCK ISX031_MODE_UNLOCK 3

/-- The event logged by a completed one-byte read of `reg` that delivered
the bytes `d`. -/
def rd_event (reg : Nat) (d : List Nat) : Event :=
  Event.xfer (put_unaligned_be16 reg) 1 2 d

/-- The events of an application of a register list on which every write
goes through at its first attempt: one write per entry that is not a
delay, in list order. -/
def list_events (l : List isx031_reg) : List Event :=
  (l.filter (fun r => r.mode != ISX031_REG_LEN_DELAY)).map
    (fun r => wr_event r.address r.val 3)

/-- The number of sends addressed to register `addr` in a log. -/
def write_count (addr : Nat) (ops : List Event) : Nat :=
  ops.countP (fun e => e.writes addr)

/-- The address is none of the three registers a mode transition writes. -/
def not_transit_reg (addr : Nat) : Prop :=
  put_unaligned_be16 addr ≠ put_unaligned_be16 ISX031_REG_MODE_SELECT ∧
  put_unaligned_be16 addr ≠ put_unaligned_be16 ISX031_REG_MODE_SET_F_LOCK ∧
  put_unaligned_be16 addr ≠ put_unaligned_be16 ISX031_REG_MODE_SET_F

instance (addr : Nat) : Decidable (not_transit_reg addr) := by
  unfold not_transit_reg; infer_instance

/-- Checker over a log: every send to the mode-set register comes directly
after the successful unlock write; `b` tells whether the event before the
list was that unlock write. -/
def mode_set_guarded : Bool → List Event → Bool
  | _, [] => true
  | b, e :: rest =>
    (!(e.writes ISX031_REG_MODE_SET_F) || b) && mode_set_guarded (e == unlock_ok) rest

/-- The bus never completes a transfer. -/
def bus_always_fails {σ : Type} (env : Env σ) : Prop :=
  (∀ st a n, (env.i2c_transfer st a n).1 ≠ 2) ∧
  (∀ st buf, (env.i2c_master_send st buf).1 ≠ (buf.length : Int))

/-- The bus completes every transfer. -/
def bus_always_succeeds {σ : Type} (env : Env σ) : Prop :=
  (∀ st a n, (env.i2c_transfer st a n).1 = 2) ∧
  (∀ st buf, (env.i2c_master_send st buf).1 = (buf.length : Int))

/-- An environment on which every transfer fails with `-EREMOTEIO` and every
host call succeeds. -/
def dead_env : Env Unit where
  i2c_transfer := fun st _ _ => (-121, [], st)
  i2c_master_send := fun st _ => (-121, st)
  host := fun st _ => (0, st)

/-! ## Sessions on the mock sensor -/

/-- One call of the host framework into the session controller. -/
inductive Call where
  | set_format (fmt : v4l2_subdev_format)
  | set_streaming (enable : Int)
  | suspend
  | resume
deriving DecidableEq, Repr

/-- Perform one call: its status, the session and the world after it. -/
def run_call {σ : Type} (env : Env σ) (c : Call) (p : isx031 × World σ) :
    Int × isx031 × World σ :=
  match c with
  | Call.set_format fmt =>
    let r := isx031_set_format p.1 fmt
    (r.1, r.2.2, p.2)
  | Call.set_streaming enable => isx031_set_stream env p.1 enable p.2
  | Call.suspend => isx031_suspend env p.1 p.2
  | Call.resume => isx031_resume env p.1 p.2

/-- Perform a sequence of calls in order, whatever status each returns: the
statuses, the final session and the final world. -/
def run_calls {σ : Type} (env : Env σ) :
    List Call → isx031 × World σ → List Int × isx031 × World σ
  | [], p => ([], p.1, p.2)
  | c :: cs, p =>
    let r := run_call env c p
    let rest := run_calls env cs (r.2.1, r.2.2)
    (r.1 :: rest.1, rest.2.1, rest.2.2)

/-- Device attach followed by a sequence of calls: the statuses of the calls,
the final session and the final world; `none` when the probe fails. -/
def attach_and_run {σ : Type} (env : Env σ) (inp : probe_input) (cs : List Call)
    (w : World σ) : Option (List Int × isx031 × World σ) :=
  match isx031_probe env inp w with
  | (_, some s, w1) => some (run_calls env cs (s, w1))
  | (_, none, _) => none

/-- The mock sensor's registers hold what the register list of the current
mode writes: every entry that is a write finds its value in its register. -/
def mode_regs_applied (s : isx031) (st : MockStore) : Bool :=
  (mode_at s.cur_mode).reg_list.all
    (fun r => r.mode == ISX031_REG_LEN_DELAY || mock_reg st r.address == r.val % 256)

/-- A mock sensor of the right identity that reports the startup state. -/
def mock_store_startup : MockStore :=
  [(0x7E8A, [0x31]), (0x7E8B, [0x00]), (0x6005, [0x02])]

/-- A mock sensor of the right identity that reports the streaming state. -/
def mock_store_streaming : MockStore :=
  [(0x7E8A, [0x31]), (0x7E8B, [0x00]), (0x6005, [0x05])]

/-- The mock sensor in the startup state, with an empty log. -/
def mock_world_startup : World MockStore := ⟨mock_store_startup, []⟩

/-- The mock sensor in the streaming state, with an empty log. -/
def mock_world_streaming : World MockStore := ⟨mock_store_streaming, []⟩

/-- An active-format request for 1920x1080. -/
def fmt_1920_1080 : v4l2_subdev_format :=
  ⟨V4L2_SUBDEV_FORMAT_ACTIVE, MEDIA_BUS_FMT_UYVY8_1X16, 1920, 1080⟩

/-- An active-format request for 1920x1536. -/
def fmt_1920_1536 : v4l2_subdev_format :=
  ⟨V4L2_SUBDEV_FORMAT_ACTIVE, MEDIA_BUS_FMT_UYVY8_1X16, 1920, 1536⟩

/-- A platform with a reset line, no platform data and four data lanes. -/
def mock_platform : probe_input := ⟨none, some true, some (0, 4)⟩

/-- A session on four lanes in the default mode, no mode applied yet, not
streaming. -/
def mock_session : isx031 := ⟨none, true, 0, none, 4, false⟩

/-- The outcome of a first stream start of `mock_session` on the mock
sensor. -/
def mock_first_start : Int × isx031 × World MockStore :=
  isx031_set_stream mock_env mock_session 1 mock_world_startup


/-! ## Further environments and log vocabulary -/

/-- A mock sensor whose reset line follows a script: the hardware state is
the register store and the readings the line will still deliver; each
`gpiod_get_value_cansleep` takes the next reading (0 once the script is
used up).  Every transfer and every other host call succeeds. -/
def gpio_script_env : Env (MockStore × List Int) where
  i2c_transfer := fun st addr_buf len =>
    (2, (mock_lookup st.1 (buf_addr addr_buf)).take len, st)
  i2c_master_send := fun st buf =>
    ((buf.length : Int), ((buf_addr buf, buf.drop 2) :: st.1, st.2))
  host := fun st c =>
    match c with
    | HostCall.gpiod_get_value_cansleep => (st.2.headD 0, (st.1, st.2.tail))
    | _ => (0, st)

/-- The mock sensor on which one kind of host call fails with `err`; every
transfer and every other host call succeeds. -/
def host_fail_env (bad : HostCall) (err : Int) : Env MockStore where
  i2c_transfer := mock_env.i2c_transfer
  i2c_master_send := mock_env.i2c_master_send
  host := fun st c => if c = bad then (err, st) else (0, st)

/-- As `host_fail_env`, but every read transfer fails with `-EREMOTEIO`
(sends still succeed). -/
def deaf_host_fail_env (bad : HostCall) (err : Int) : Env MockStore where
  i2c_transfer := fun st _ _ => (-121, [], st)
  i2c_master_send := mock_env.i2c_master_send
  host := fun st c => if c = bad then (err, st) else (0, st)

/-- The event is a call into the host other than an I2C transfer. -/
def Event.is_host : Event → Bool
  | .host _ _ => true
  | _ => false

/-- The events of one poll of the reset line in the power-on loop of
`isx031_resume`: the line is driven to 0, then read; `p.1` is what the host
returned on the drive, `p.2` the level read. -/
def poll_events (p : Int × Int) : List Event :=
  [Event.host (HostCall.gpiod_set_value_cansleep 0) p.1,
   Event.host HostCall.gpiod_get_value_cansleep p.2]

/-- The low `len` bytes of `val`, most significant of them first. -/
def low_bytes_be (len val : Nat) : List Nat :=
  (List.range len).map (fun i => (val / 256 ^ (len - 1 - i)) % 256)

/-- The events of one application of a register list and its result.
Delay entries log nothing.  A write entry logs one send of its three bytes
per attempt: at most `limit` attempts, all but the last failed (the adapter
returned something other than 3).  If the last attempt went through, the
run goes on with the rest of the list; if all `limit` attempts failed the
run ends there with `-EIO`. -/
inductive ListRun (limit : Nat) : List isx031_reg → List Event → Int → Prop where
  | done : ListRun limit [] [] 0
  | delay (r : isx031_reg) (rest : List isx031_reg) (ops : List Event) (ret : Int) :
      r.mode = ISX031_REG_LEN_DELAY → ListRun limit rest ops ret →
      ListRun limit (r :: rest) ops ret
  | write_ok (r : isx031_reg) (rest : List isx031_reg) (fails : List Int)
      (ops : List Event) (ret : Int) :
      r.mode ≠ ISX031_REG_LEN_DELAY → (∀ x ∈ fails, x ≠ 3) → fails.length < limit →
      ListRun limit rest ops ret →
      ListRun limit (r :: rest)
        (fails.map (wr_event r.address r.val) ++ wr_event r.address r.val 3 :: ops) ret
  | write_fail (r : isx031_reg) (rest : List isx031_reg) (fails : List Int) :
      r.mode ≠ ISX031_REG_LEN_DELAY → (∀ x ∈ fails, x ≠ 3) → fails.length = limit →
      ListRun limit (r :: rest) (fails.map (wr_event r.address r.val)) (- EIO_errno)

/-- The number of attempts `isx031_write_reg_list` allows per write. -/
def attempt_limit (is_retry : Bool) : Nat :=
  if is_retry then ISX031_WRITE_REG_RETRY_TIMEOUT else 1

/-- The event is a send on which the adapter reported all bytes sent. -/
def Event.send_ok : Event → Bool
  | .send buf r => r == (buf.length : Int)
  | _ => false

/-! ### The steps of enabling the stream, each on the world the one before left -/

/-- Runtime-power acquire, the first step of `isx031_set_stream` with a
non-zero `enable` on a session that is not streaming. -/
def enable_power {σ : Type} (env : Env σ) (w : World σ) : Int × World σ :=
  do_host env HostCall.pm_runtime_resume_and_get w

/-- The application of the current mode's register list in
`isx031_start_streaming`, skipped when `pre_mode` equals `cur_mode`: the
status, the session and the world after it. -/
def enable_list {σ : Type} (env : Env σ) (s : isx031) (w : World σ) :
    Int × isx031 × World σ :=
  if some s.cur_mode ≠ s.pre_mode then
    let r := isx031_write_reg_list env (mode_at s.cur_mode).reg_list true
      (enable_power env w).2
    if r.1 ≠ 0 then (r.1, s, r.2)
    else (0, { s with pre_mode := some s.cur_mode }, r.2)
  else (0, s, (enable_power env w).2)

/-- The push of the control defaults in `isx031_start_streaming`. -/
def enable_ctrl {σ : Type} (env : Env σ) (s : isx031) (w : World σ) : Int × World σ :=
  do_host env HostCall.v4l2_ctrl_handler_setup (enable_list env s w).2.2

/-- The transition to streaming in `isx031_start_streaming`. -/
def enable_transit {σ : Type} (env : Env σ) (s : isx031) (w : World σ) :
    Int × World σ :=
  isx031_mode_transit env (enable_list env s w).2.1 ISX031_STATE_STREAMING
    (enable_ctrl env s w).2

/-! ### The stages of `isx031_resume`, each on the world the one before left -/

/-- The power-on wait (nothing when there is no reset line). -/
def resume_power {σ : Type} (env : Env σ) (s : isx031) (w : World σ) : Int × World σ :=
  if s.reset_gpio then resume_power_loop env ISX031_PM_RETRY_TIMEOUT 0 w else (0, w)

/-- The identification stage. -/
def resume_identify {σ : Type} (env : Env σ) (s : isx031) (w : World σ) :
    Int × World σ :=
  isx031_identify_module env (resume_power env s w).2

/-- The initialization stage. -/
def resume_init {σ : Type} (env : Env σ) (s : isx031) (w : World σ) :
    Int × World σ :=
  isx031_initialize_module env s (resume_identify env s w).2

/-- The application of the current mode's register list, with retry. -/
def resume_list {σ : Type} (env : Env σ) (s : isx031) (w : World σ) : Int × World σ :=
  isx031_write_reg_list env (mode_at s.cur_mode).reg_list true
    (resume_init env s w).2

/-- The re-start of streaming at the end of `isx031_resume`. -/
def resume_restart {σ : Type} (env : Env σ) (s : isx031) (w : World σ) :
    Int × isx031 × World σ :=
  isx031_start_streaming env s (resume_list env s w).2

/-- Ten readings of an asserted reset line. -/
def reset_line_stuck : List Int := [1, 1, 1, 1, 1, 1, 1, 1, 1, 1]

/-- Nine readings of an asserted reset line, then a deasserted one. -/
def reset_line_late : List Int := [1, 1, 1, 1, 1, 1, 1, 1, 1, 0]

/-- A streaming session on four lanes whose mode has been applied. -/
def mock_session_streaming : isx031 := ⟨none, true, 0, some 0, 4, true⟩

/-! ### The steps of `isx031_mode_transit`, each on the world the one before left -/

/-- The mode-set value `isx031_mode_transit` chooses for a target state. -/
def transit_mode (state : Nat) : Int :=
  if state = ISX031_STATE_STARTUP then ISX031_MODE_STANDBY else ISX031_MODE_STREAMING

/-- The initial read of the sensor state. -/
def transit_read {σ : Type} (env : Env σ) (w : World σ) : Int × Nat × World σ :=
  isx031_read_reg_state env 0 w

/-- The drive-mode step (`isx031_set_drive_mode`). -/
def transit_select {σ : Type} (env : Env σ) (s : isx031) (w : World σ) : Int × World σ :=
  isx031_set_drive_mode env s (transit_read env w).2.2

/-- The write of the unlock value to the mode-lock register. -/
def transit_lock {σ : Type} (env : Env σ) (s : isx031) (w : World σ) : Int × World σ :=
  isx031_write_reg env ISX031_REG_MODE_SET_F_LOCK 1 ISX031_MODE_UNLOCK
    (transit_select env s w).2

/-- The write of the mode-set register. -/
def transit_set {σ : Type} (env : Env σ) (s : isx031) (mode : Int) (w : World σ) :
    Int × World σ :=
  isx031_write_reg env ISX031_REG_MODE_SET_F 1 mode.toNat (transit_lock env s w).2

/-- The final read of the sensor state. -/
def transit_confirm {σ : Type} (env : Env σ) (s : isx031) (mode : Int) (w : World σ) :
    Int × Nat × World σ :=
  isx031_read_reg_state env (transit_read env w).2.1 (transit_set env s mode w).2

/-- The part of `isx031_start_streaming` after the register list: the push of
the control defaults and the transition to streaming. -/
def start_after_list {σ : Type} (env : Env σ) (s : isx031) (w : World σ) :
    Int × isx031 × World σ :=
  let r2 := do_host env HostCall.v4l2_ctrl_handler_setup w
  if r2.1 ≠ 0 then (r2.1, s, r2.2)
  else
    let r3 := isx031_mode_transit env s ISX031_STATE_STREAMING r2.2
    if r3.1 ≠ 0 then (r3.1, s, r3.2)
    else (0, s, r3.2)

/-- The event is an `i2c_transfer` that did not complete: the adapter
returned something other than 2. -/
def Event.xfer_failed : Event → Bool
  | .xfer _ _ r _ => r != 2
  | _ => false

/-- The events of one run of a read-retry loop of `limit` iterations on
register `reg` and its result: failed one-byte reads of `reg`, then either a
completed read (result 0, fewer than `limit` failures before it) or nothing
more after `limit` failures (result `-EIO`). -/
inductive ReadRun (limit reg : Nat) : List Event → Int → Prop where
  | ok (fails : List Event) (e : Event) :
      (∀ x ∈ fails, x.reads reg 1 = true ∧ x.xfer_failed = true) →
      fails.length < limit → e.reads reg 1 = true → e.xfer_failed = false →
      ReadRun limit reg (fails ++ [e]) 0
  | exhausted (fails : List Event) :
      (∀ x ∈ fails, x.reads reg 1 = true ∧ x.xfer_failed = true) →
      fails.length = limit → ReadRun limit reg fails (- EIO_errno)

/-- An environment on which reads complete (from the register store) and
every send fails with `-EREMOTEIO`; host calls succeed. -/
def mute_env : Env MockStore where
  i2c_transfer := mock_env.i2c_transfer
  i2c_master_send := fun st _ => (-121, st)
  host := fun st _ => (0, st)

/-- A mock sensor that reports `v` in its state register. -/
def mock_world_state (v : Nat) : World MockStore := ⟨[(0x6005, [v])], []⟩

/-- A session on one data lane, as platform data with `lanes = 1` gives it. -/
def one_lane_session : isx031 := ⟨some ⟨0, 1⟩, true, 0, none, 1, false⟩

/-! ### The values a register list programs -/

/-- The value a register list writes to `addr`: that of its last write
entry for that address, if it has one. -/
def list_value (l : List isx031_reg) (addr : Nat) : Option Nat :=
  ((l.filter (fun r => r.mode != ISX031_REG_LEN_DELAY && r.address == addr)).getLast?).map
    (fun r => r.val)

/-- The number of write entries of a register list for `addr`. -/
def list_writes_to (l : List isx031_reg) (addr : Nat) : Nat :=
  l.countP (fun r => r.mode != ISX031_REG_LEN_DELAY && r.address == addr)

/-- The 16-bit value a register list programs into a register pair, low
byte at `lo`, high byte at `hi`. -/
def list_value16 (l : List isx031_reg) (lo hi : Nat) : Option Nat :=
  match list_value l lo, list_value l hi with
  | some a, some b => some (b * 256 + a)
  | _, _ => none

/-- The 16-bit value the mock sensor holds in a register pair. -/
def mock_reg16 (st : MockStore) (lo hi : Nat) : Nat :=
  mock_reg st hi * 256 + mock_reg st lo

/-! ## Lemmas on the register transport and the retry loops -/

theorem write_reg_buf_length (reg len val : Nat) (h : len ≤ 4) :
    (write_reg_buf reg len val).length = len + 2 := by
  simp [write_reg_buf, put_unaligned_be16, put_unaligned_be32]
  omega

theorem write_reg_buf_one (reg val : Nat) :
    write_reg_buf reg 1 val = [(reg / 256) % 256, reg % 256, val % 256] := by
  simp [write_reg_buf, put_unaligned_be16, put_unaligned_be32]
  omega

theorem write_reg_buf_take (reg len val : Nat) :
    (write_reg_buf reg len val).take 2 = put_unaligned_be16 reg := by
  simp [write_reg_buf, put_unaligned_be16, put_unaligned_be32, List.take_take]

theorem write_reg_eq {σ : Type} (env : Env σ) (reg len val : Nat) (w : World σ)
    (h : len ≤ 4) :
    isx031_write_reg env reg len val w =
      (if (env.i2c_master_send w.hw (write_reg_buf reg len val)).1 = ((len + 2 : Nat) : Int)
        then 0 else - EIO_errno,
       ⟨(env.i2c_master_send w.hw (write_reg_buf reg len val)).2,
        w.log ++ [Event.send (write_reg_buf reg len val)
          (env.i2c_master_send w.hw (write_reg_buf reg len val)).1]⟩) := by
  have h' : ¬ len > 4 := by omega
  simp only [isx031_write_reg, h', if_false, do_send]
  split <;> simp_all

theorem read_reg_log {σ : Type} (env : Env σ) (reg val : Nat) (w : World σ) :
    ∃ e, (isx031_read_reg env reg 1 val w).2.2.log = w.log ++ [e] ∧
      e.reads reg 1 = true ∧
      ((isx031_read_reg env reg 1 val w).1 = 0 ∨
        (isx031_read_reg env reg 1 val w).1 = - EIO_errno) ∧
      ((isx031_read_reg env reg 1 val w).1 = 0 ↔
        (env.i2c_transfer w.hw (put_unaligned_be16 reg) 1).1 = 2) := by
  refine ⟨Event.xfer (put_unaligned_be16 reg) 1
    (env.i2c_transfer w.hw (put_unaligned_be16 reg) 1).1
    (env.i2c_transfer w.hw (put_unaligned_be16 reg) 1).2.1, ?_, ?_, ?_, ?_⟩
  · simp only [isx031_read_reg, do_transfer]
    split
    · omega
    · split <;> rfl
  · simp [Event.reads]
  · simp only [isx031_read_reg, do_transfer]
    split
    · omega
    · split <;> simp
  · simp only [isx031_read_reg, do_transfer]
    split
    · omega
    · split <;> simp_all [EIO_errno]

theorem read_loop_log {σ : Type} (env : Env σ) (reg : Nat) (n : Nat) :
    ∀ (ret : Int) (val : Nat) (w : World σ), ∃ ops,
      (read_reg_otp_loop env reg n ret val w).2.2.log = w.log ++ ops ∧
      ops.length ≤ n ∧ (∀ e ∈ ops, e.reads reg 1 = true) := by
  induction n with
  | zero => intro ret val w; exact ⟨[], by simp [read_reg_otp_loop]⟩
  | succ n ih =>
    intro ret val w
    obtain ⟨e, he, hr, -, -⟩ := read_reg_log env reg val w
    simp only [read_reg_otp_loop, ISX031_REG_LEN_08BIT]
    split
    · exact ⟨[e], he, by simp, by simpa using hr⟩
    · obtain ⟨ops, h1, h2, h3⟩ := ih (isx031_read_reg env reg 1 val w).1
        (isx031_read_reg env reg 1 val w).2.1 (isx031_read_reg env reg 1 val w).2.2
      refine ⟨e :: ops, ?_, by simp; omega, ?_⟩
      · rw [h1, he]; simp
      · intro x hx
        rcases List.mem_cons.mp hx with rfl | hx
        · exact hr
        · exact h3 x hx

theorem read_loop_fail {σ : Type} (env : Env σ) (hf : bus_always_fails env) (reg : Nat)
    (n : Nat) :
    ∀ (ret : Int) (val : Nat) (w : World σ), ∃ ops,
      (read_reg_otp_loop env reg n ret val w).2.2.log = w.log ++ ops ∧
      ops.length = n ∧ (∀ e ∈ ops, e.reads reg 1 = true) ∧
      (0 < n → (read_reg_otp_loop env reg n ret val w).1 = - EIO_errno) := by
  induction n with
  | zero => intro ret val w; exact ⟨[], by simp [read_reg_otp_loop]⟩
  | succ n ih =>
    intro ret val w
    obtain ⟨e, he, hr, hor, hiff⟩ := read_reg_log env reg val w
    have hne : (isx031_read_reg env reg 1 val w).1 ≠ 0 := fun h0 =>
      hf.1 _ _ _ (hiff.mp h0)
    have hio : (isx031_read_reg env reg 1 val w).1 = - EIO_errno := by
      rcases hor with h | h
      · exact absurd h hne
      · exact h
    simp only [read_reg_otp_loop, ISX031_REG_LEN_08BIT, hne, if_false]
    obtain ⟨ops, h1, h2, h3, h4⟩ := ih (isx031_read_reg env reg 1 val w).1
        (isx031_read_reg env reg 1 val w).2.1 (isx031_read_reg env reg 1 val w).2.2
    refine ⟨e :: ops, ?_, by simp [h2], ?_, ?_⟩
    · rw [h1, he]; simp
    · intro x hx
      rcases List.mem_cons.mp hx with rfl | hx
      · exact hr
      · exact h3 x hx
    · intro _
      rcases Nat.eq_zero_or_pos n with h0 | hpos
      · subst h0; simpa [read_reg_otp_loop] using hio
      · exact h4 hpos

theorem write_retry_fail {σ : Type} (env : Env σ) (hf : bus_always_fails env)
    (reg len val : Nat) (hlen : len ≤ 4) (n : Nat) :
    ∀ (ret : Int) (w : World σ), ∃ ops,
      (write_reg_retry_loop env reg len val n ret w).2.log = w.log ++ ops ∧
      ops.length = n ∧ (∀ e ∈ ops, e.writes reg = true) ∧
      (0 < n → (write_reg_retry_loop env reg len val n ret w).1 = - EIO_errno) := by
  induction n with
  | zero => intro ret w; exact ⟨[], by simp [write_reg_retry_loop]⟩
  | succ n ih =>
    intro ret w
    have hlenb := write_reg_buf_length reg len val hlen
    have hbad := hf.2 w.hw (write_reg_buf reg len val)
    rw [hlenb] at hbad
    have heq := write_reg_eq env reg len val w hlen
    simp only [hbad, if_false] at heq
    have hne : (isx031_write_reg env reg len val w).1 ≠ 0 := by
      rw [heq]; simp [EIO_errno]
    simp only [write_reg_retry_loop, hne, if_false]
    obtain ⟨ops, h1, h2, h3, h4⟩ := ih (isx031_write_reg env reg len val w).1
      (isx031_write_reg env reg len val w).2
    refine ⟨Event.send (write_reg_buf reg len val)
      (env.i2c_master_send w.hw (write_reg_buf reg len val)).1 :: ops,
      ?_, by simp [h2], ?_, ?_⟩
    · rw [h1, heq]; simp
    · intro x hx
      rcases List.mem_cons.mp hx with rfl | hx
      · simp [Event.writes, write_reg_buf_take]
      · exact h3 x hx
    · intro _
      rcases Nat.eq_zero_or_pos n with h0 | hpos
      · subst h0; simp [write_reg_retry_loop, heq]
      · exact h4 hpos

theorem read_reg_byte {σ : Type} (env : Env σ) (reg val : Nat) (w : World σ)
    (hv : val < 256) : (isx031_read_reg env reg 1 val w).2.1 < 256 := by
  simp only [isx031_read_reg, do_transfer]
  split
  · exact hv
  · split
    · exact hv
    · simp [get_unaligned_be32, fill_data_buf, List.range, List.range.loop]
      omega

theorem read_loop_byte {σ : Type} (env : Env σ) (reg : Nat) (n : Nat) :
    ∀ (ret : Int) (val : Nat) (w : World σ), val < 256 →
      (read_reg_otp_loop env reg n ret val w).2.1 < 256 := by
  induction n with
  | zero => intro ret val w hv; simpa [read_reg_otp_loop] using hv
  | succ n ih =>
    intro ret val w hv
    simp only [read_reg_otp_loop]
    have hb := read_reg_byte env reg val w hv
    split
    · exact hb
    · exact ih _ _ _ hb

theorem module_id_eq (low high : Nat) (hl : low < 256) :
    (((high &&& 15) <<< 8) ||| low) = (high % 16) * 256 + low := by
  have h1 : high &&& 15 = high % 16 := Nat.and_pow_two_sub_one_eq_mod high 4
  have h2 : 2 ^ 8 * (high % 16) + low = 2 ^ 8 * (high % 16) ||| low :=
    Nat.mul_add_lt_is_or (by simpa using hl) (high % 16)
  rw [h1, Nat.shiftLeft_eq, Nat.mul_comm, ← h2]

/-- The result of `isx031_identify_module` when both identity reads
succeed. -/
theorem identify_module_eq {σ : Type} (env : Env σ) (w w1 w2 : World σ) (low high : Nat)
    (h1 : isx031_read_reg_otp env ISX031_OTP_TYPE_NAME_L 0 w = (0, low, w1))
    (h2 : isx031_read_reg_otp env ISX031_OTP_TYPE_NAME_H 0 w1 = (0, high, w2)) :
    low < 256 ∧ isx031_identify_module env w =
      (if (high % 16) * 256 + low = 0x031 then 0 else -ENODEV, w2) := by
  have hl : low < 256 := by
    have := read_loop_byte env ISX031_OTP_TYPE_NAME_L 50 0 0 w (by norm_num)
    simp only [isx031_read_reg_otp, ISX031_READ_REG_RETRY_TIMEOUT] at h1
    rw [h1] at this; exact this
  refine ⟨hl, ?_⟩
  have hm := module_id_eq low high hl
  have hlt : (high % 16 * 256 + low) % 65536 = high % 16 * 256 + low := by omega
  simp only [isx031_identify_module, h1, h2, ISX031_OTP_TYPE_NAME_H_FIELD,
    ISX031_OTP_MODULE_ID_L, hm, hlt]
  by_cases hc : high % 16 * 256 + low = 49
  · simp [hc]
  · simp [hc]

theorem dead_env_fails : bus_always_fails dead_env :=
  ⟨fun _ _ _ => by simp [dead_env], fun _ _ => by simp [dead_env]⟩

/-! ## Mode transition: unlock before mode-set (C1) -/

theorem mode_set_guarded_sound (ops : List Event) :
    ∀ (b : Bool), mode_set_guarded b ops = true →
      ∀ pre e post, ops = pre ++ e :: post → e.writes ISX031_REG_MODE_SET_F = true →
        (pre = [] ∧ b = true) ∨ ∃ pre', pre = pre' ++ [unlock_ok] := by
  induction ops with
  | nil => intro b _ pre e post h; simp at h
  | cons x xs ih =>
    intro b hg pre e post h hw
    simp only [mode_set_guarded, Bool.and_eq_true, Bool.or_eq_true,
      Bool.not_eq_true'] at hg
    cases pre with
    | nil =>
      simp only [List.nil_append, List.cons.injEq] at h
      obtain ⟨rfl, -⟩ := h
      left
      refine ⟨rfl, ?_⟩
      rcases hg.1 with h1 | h1
      · rw [hw] at h1; cases h1
      · exact h1
    | cons p pre2 =>
      simp only [List.cons_append, List.cons.injEq] at h
      obtain ⟨rfl, hxs⟩ := h
      right
      rcases ih _ hg.2 pre2 e post hxs hw with ⟨rfl, hb⟩ | ⟨pre', rfl⟩
      · refine ⟨[], ?_⟩
        have : x = unlock_ok := by simpa using hb
        simp [this]
      · exact ⟨x :: pre', by simp⟩

theorem reads_not_writes (reg len reg' : Nat) (e : Event) (h : e.reads reg len = true) :
    e.writes reg' = false ∧ (e == unlock_ok) = false := by
  cases e with
  | xfer a l r d => simp [Event.writes, unlock_ok, wr_event]
  | send b r => simp [Event.reads] at h
  | host c r => simp [Event.reads] at h

theorem mode_set_guarded_reads (reg len : Nat) (rd : List Event)
    (h : ∀ e ∈ rd, e.reads reg len = true) :
    ∀ (b : Bool) (rest : List Event),
      mode_set_guarded b (rd ++ rest) =
        mode_set_guarded (if rd = [] then b else false) rest := by
  induction rd with
  | nil => intro b rest; simp
  | cons x xs ih =>
    intro b rest
    obtain ⟨h1, h2⟩ := reads_not_writes reg len ISX031_REG_MODE_SET_F x
      (h x (List.mem_cons_self _ _))
    have ih' := ih (fun e he => h e (List.mem_cons_of_mem _ he)) false rest
    simp only [List.cons_append, mode_set_guarded, h1, h2, ih']
    simp at ih' ⊢
    exact ih'

theorem write_reg_one {σ : Type} (env : Env σ) (reg val : Nat) (w : World σ) :
    isx031_write_reg env reg 1 val w =
      (if (env.i2c_master_send w.hw (write_reg_buf reg 1 val)).1 = 3 then 0
        else - EIO_errno,
       ⟨(env.i2c_master_send w.hw (write_reg_buf reg 1 val)).2,
        w.log ++ [wr_event reg val
          (env.i2c_master_send w.hw (write_reg_buf reg 1 val)).1]⟩) := by
  rw [write_reg_eq env reg 1 val w (by norm_num)]
  rfl

theorem write_reg_one_shape {σ : Type} (env : Env σ) (reg val : Nat) (w : World σ) :
    ∃ r, (isx031_write_reg env reg 1 val w).2.log = w.log ++ [wr_event reg val r] ∧
      ((isx031_write_reg env reg 1 val w).1 = 0 → r = 3) := by
  rw [write_reg_one]
  refine ⟨_, rfl, ?_⟩
  intro h
  by_contra hc
  simp [hc, EIO_errno] at h

theorem set_drive_mode_shape {σ : Type} (env : Env σ) (s : isx031) (w : World σ) :
    ((isx031_set_drive_mode env s w).1 ≠ 0 ∧ (isx031_set_drive_mode env s w).2.log = w.log) ∨
    ∃ c r, (isx031_set_drive_mode env s w).2.log =
        w.log ++ [wr_event ISX031_REG_MODE_SELECT c r] ∧
      ((isx031_set_drive_mode env s w).1 = 0 → r = 3) := by
  unfold isx031_set_drive_mode
  by_cases hm : isx031_find_drive_mode (s.lanes : Int) ((mode_at s.cur_mode).fps : Int) < 0
  · left
    simp only [hm, if_true]
    exact ⟨by omega, trivial⟩
  · right
    simp only [hm, if_false]
    obtain ⟨r, h1, h2⟩ := write_reg_one_shape env ISX031_REG_MODE_SELECT
      (isx031_find_drive_mode (s.lanes : Int) ((mode_at s.cur_mode).fps : Int)).toNat w
    exact ⟨_, r, h1, h2⟩

theorem mode_transit_body_shape {σ : Type} (env : Env σ) (s : isx031) (mode : Int)
    (w : World σ) :
    ∃ rd1 rest, (mode_transit_body env s mode w).2.log = w.log ++ rd1 ++ rest ∧
      (∀ e ∈ rd1, e.reads ISX031_REG_SENSOR_STATE 1 = true) ∧
      (rest = [] ∨
       (∃ c r, rest = [wr_event ISX031_REG_MODE_SELECT c r]) ∨
       (∃ c r, rest = [wr_event ISX031_REG_MODE_SELECT c 3,
          wr_event ISX031_REG_MODE_SET_F_LOCK ISX031_MODE_UNLOCK r]) ∨
       (∃ c r rd2, rest = [wr_event ISX031_REG_MODE_SELECT c 3, unlock_ok,
          wr_event ISX031_REG_MODE_SET_F mode.toNat r] ++ rd2 ∧
          ∀ e ∈ rd2, e.reads ISX031_REG_SENSOR_STATE 1 = true)) := by
  obtain ⟨rd1, hrd1, -, hall1⟩ :=
    read_loop_log env ISX031_REG_SENSOR_STATE ISX031_READ_REG_RETRY_TIMEOUT 0 0 w
  refine ⟨rd1, ?_⟩
  unfold mode_transit_body
  simp only [isx031_read_reg_state]
  generalize read_reg_otp_loop env ISX031_REG_SENSOR_STATE
    ISX031_READ_REG_RETRY_TIMEOUT 0 0 w = R1 at hrd1 ⊢
  by_cases h1 : R1.1 = 0
  swap
  · exact ⟨[], by simpa [h1] using hrd1, hall1, Or.inl rfl⟩
  simp only [h1, ne_eq, not_true_eq_false, if_false]
  have hsd := set_drive_mode_shape env s R1.2.2
  generalize isx031_set_drive_mode env s R1.2.2 = R2 at hsd ⊢
  by_cases h2 : R2.1 = 0
  swap
  · simp only [h2, not_false_eq_true, if_true]
    rcases hsd with ⟨-, hl⟩ | ⟨c, r, hl, -⟩
    · exact ⟨[], by simp [hl, hrd1], hall1, Or.inl rfl⟩
    · exact ⟨_, by rw [hl, hrd1], hall1, Or.inr (Or.inl ⟨c, r, rfl⟩)⟩
  simp only [h2, not_true_eq_false, if_false]
  obtain ⟨c, hsel⟩ : ∃ c, R2.2.log = w.log ++ rd1 ++ [wr_event ISX031_REG_MODE_SELECT c 3] := by
    rcases hsd with ⟨hne, -⟩ | ⟨c, r, hl, hr⟩
    · exact absurd h2 hne
    · exact ⟨c, by rw [hl, hrd1, hr h2]⟩
  obtain ⟨r3, hl3, hr3⟩ := write_reg_one_shape env ISX031_REG_MODE_SET_F_LOCK
    ISX031_MODE_UNLOCK R2.2
  generalize isx031_write_reg env ISX031_REG_MODE_SET_F_LOCK 1 ISX031_MODE_UNLOCK R2.2 = R3
    at hl3 hr3 ⊢
  by_cases h3 : R3.1 = 0
  swap
  · simp only [h3, not_false_eq_true, if_true]
    exact ⟨_, by rw [hl3, hsel, List.append_assoc]; rfl, hall1,
      Or.inr (Or.inr (Or.inl ⟨c, r3, rfl⟩))⟩
  simp only [h3, not_true_eq_false, if_false]
  have hr3' := hr3 h3
  subst hr3'
  obtain ⟨r4, hl4, -⟩ := write_reg_one_shape env ISX031_REG_MODE_SET_F mode.toNat R3.2
  generalize isx031_write_reg env ISX031_REG_MODE_SET_F 1 mode.toNat R3.2 = R4 at hl4 ⊢
  have hlog4 : R4.2.log = w.log ++ rd1 ++ [wr_event ISX031_REG_MODE_SELECT c 3, unlock_ok,
      wr_event ISX031_REG_MODE_SET_F mode.toNat r4] := by
    rw [hl4, hl3, hsel]; simp [unlock_ok]
  by_cases h4 : R4.1 = 0
  swap
  · simp only [h4, not_false_eq_true, if_true]
    exact ⟨_, hlog4, hall1, Or.inr (Or.inr (Or.inr ⟨c, r4, [], by simp, by simp⟩))⟩
  simp only [h4, not_true_eq_false, if_false]
  obtain ⟨rd2, hrd2, -, hall2⟩ :=
    read_loop_log env ISX031_REG_SENSOR_STATE ISX031_READ_REG_RETRY_TIMEOUT 0 R1.2.1 R4.2
  have hfin : (read_reg_otp_loop env ISX031_REG_SENSOR_STATE ISX031_READ_REG_RETRY_TIMEOUT 0
      R1.2.1 R4.2).2.2.log = w.log ++ rd1 ++ ([wr_event ISX031_REG_MODE_SELECT c 3, unlock_ok,
      wr_event ISX031_REG_MODE_SET_F mode.toNat r4] ++ rd2) := by
    rw [hrd2, hlog4]; simp
  refine ⟨_, ?_, hall1, Or.inr (Or.inr (Or.inr ⟨c, r4, rd2, rfl, hall2⟩))⟩
  split <;> exact hfin

theorem mode_set_guarded_shape (mode : Nat) (rd1 rest : List Event)
    (hall1 : ∀ e ∈ rd1, e.reads ISX031_REG_SENSOR_STATE 1 = true)
    (hrest : rest = [] ∨
       (∃ c r, rest = [wr_event ISX031_REG_MODE_SELECT c r]) ∨
       (∃ c r, rest = [wr_event ISX031_REG_MODE_SELECT c 3,
          wr_event ISX031_REG_MODE_SET_F_LOCK ISX031_MODE_UNLOCK r]) ∨
       (∃ c r rd2, rest = [wr_event ISX031_REG_MODE_SELECT c 3, unlock_ok,
          wr_event ISX031_REG_MODE_SET_F mode r] ++ rd2 ∧
          ∀ e ∈ rd2, e.reads ISX031_REG_SENSOR_STATE 1 = true)) :
    mode_set_guarded false (rd1 ++ rest) = true := by
  rw [mode_set_guarded_reads _ _ rd1 hall1]
  have hsel : ∀ c r, (wr_event ISX031_REG_MODE_SELECT c r).writes ISX031_REG_MODE_SET_F
      = false := by
    intro c r
    simp [wr_event, Event.writes, write_reg_buf_take, put_unaligned_be16,
      ISX031_REG_MODE_SELECT, ISX031_REG_MODE_SET_F]
  have hlock : ∀ r, (wr_event ISX031_REG_MODE_SET_F_LOCK ISX031_MODE_UNLOCK r).writes
      ISX031_REG_MODE_SET_F = false := by
    intro r
    simp [wr_event, Event.writes, write_reg_buf_take, put_unaligned_be16,
      ISX031_REG_MODE_SET_F_LOCK, ISX031_REG_MODE_SET_F]
  have hu : unlock_ok.writes ISX031_REG_MODE_SET_F = false := hlock 3
  rcases hrest with rfl | ⟨c, r, rfl⟩ | ⟨c, r, rfl⟩ | ⟨c, r, rd2, rfl, hall2⟩
  · simp [mode_set_guarded]
  · simp [mode_set_guarded, hsel]
  · simp [mode_set_guarded, hsel, hlock]
  · have h2 := mode_set_guarded_reads _ _ rd2 hall2
      (wr_event ISX031_REG_MODE_SET_F mode r == unlock_ok) []
    rw [List.append_nil] at h2
    simp [mode_set_guarded, hsel, hu, h2]

/-- C1: for every session, every target state and every behaviour of the
bus, in the events that `isx031_mode_transit` appends to the log every send
to the mode-set register 0x8A01 comes directly after the successful (3 bytes
sent) one-byte write of 0x53 to the mode-lock register 0xBEF0. -/
theorem C1_mode_set_only_after_unlock {σ : Type} (env : Env σ) (s : isx031)
    (state : Nat) (w : World σ) :
    ∃ ops, (isx031_mode_transit env s state w).2.log = w.log ++ ops ∧
      ∀ pre e post, ops = pre ++ e :: post → e.writes ISX031_REG_MODE_SET_F = true →
        ∃ pre', pre = pre' ++ [unlock_ok] := by
  have key : ∀ mode : Int, ∃ ops, (mode_transit_body env s mode w).2.log = w.log ++ ops ∧
      ∀ pre e post, ops = pre ++ e :: post → e.writes ISX031_REG_MODE_SET_F = true →
        ∃ pre', pre = pre' ++ [unlock_ok] := by
    intro mode
    obtain ⟨rd1, rest, hlog, hall1, hrest⟩ := mode_transit_body_shape env s mode w
    refine ⟨rd1 ++ rest, by rw [hlog, List.append_assoc], ?_⟩
    intro pre e post hops hw
    have hg := mode_set_guarded_shape mode.toNat rd1 rest hall1 hrest
    rcases mode_set_guarded_sound _ false hg pre e post hops hw with ⟨-, hb⟩ | h
    · cases hb
    · exact h
  unfold isx031_mode_transit
  split
  · exact key _
  · split
    · exact key _
    · exact ⟨[], by simp, by intro pre e post h; simp at h⟩

/-! ## Lemmas on the events of the list applier and of a transition -/

theorem read_reg_ok {σ : Type} (env : Env σ) (hs : bus_always_succeeds env)
    (reg val : Nat) (w : World σ) :
    ∃ d, (isx031_read_reg env reg 1 val w).1 = 0 ∧
      (isx031_read_reg env reg 1 val w).2.2.log = w.log ++ [rd_event reg d] := by
  have h2 := hs.1 w.hw (put_unaligned_be16 reg) 1
  refine ⟨(env.i2c_transfer w.hw (put_unaligned_be16 reg) 1).2.1, ?_, ?_⟩
  · simp [isx031_read_reg, do_transfer, h2]
  · simp [isx031_read_reg, do_transfer, h2, rd_event]

theorem read_loop_ok {σ : Type} (env : Env σ) (hs : bus_always_succeeds env)
    (reg n : Nat) (ret : Int) (val : Nat) (w : World σ) :
    ∃ d, (read_reg_otp_loop env reg (n + 1) ret val w).1 = 0 ∧
      (read_reg_otp_loop env reg (n + 1) ret val w).2.2.log = w.log ++ [rd_event reg d] := by
  obtain ⟨d, h1, h2⟩ := read_reg_ok env hs reg val w
  refine ⟨d, ?_, ?_⟩
  · simp [read_reg_otp_loop, ISX031_REG_LEN_08BIT, h1]
  · simp [read_reg_otp_loop, ISX031_REG_LEN_08BIT, h1, h2]

theorem write_reg_ok {σ : Type} (env : Env σ) (hs : bus_always_succeeds env)
    (reg val : Nat) (w : World σ) :
    (isx031_write_reg env reg 1 val w).1 = 0 ∧
      (isx031_write_reg env reg 1 val w).2.log = w.log ++ [wr_event reg val 3] := by
  have h := hs.2 w.hw (write_reg_buf reg 1 val)
  rw [write_reg_buf_length reg 1 val (by norm_num)] at h
  have h3 : (env.i2c_master_send w.hw (write_reg_buf reg 1 val)).1 = 3 := by
    rw [h]; rfl
  rw [write_reg_one]
  simp [h3]

theorem write_retry_ok {σ : Type} (env : Env σ) (hs : bus_always_succeeds env)
    (reg val : Nat) (w : World σ) :
    (isx031_write_reg_retry env reg 1 val w).1 = 0 ∧
      (isx031_write_reg_retry env reg 1 val w).2.log = w.log ++ [wr_event reg val 3] := by
  obtain ⟨h1, h2⟩ := write_reg_ok env hs reg val w
  simp [isx031_write_reg_retry, ISX031_WRITE_REG_RETRY_TIMEOUT, write_reg_retry_loop, h1, h2]

theorem write_list_ok {σ : Type} (env : Env σ) (hs : bus_always_succeeds env)
    (l : List isx031_reg) (is_retry : Bool) :
    ∀ w : World σ, (isx031_write_reg_list env l is_retry w).1 = 0 ∧
      (isx031_write_reg_list env l is_retry w).2.log = w.log ++ list_events l := by
  induction l with
  | nil => intro w; simp [isx031_write_reg_list, list_events]
  | cons reg rest ih =>
    intro w
    by_cases hd : reg.mode = ISX031_REG_LEN_DELAY
    · have := ih w
      simp only [isx031_write_reg_list, hd, if_true]
      simpa [list_events, hd] using this
    · obtain ⟨a1, a2⟩ := write_reg_ok env hs reg.address reg.val w
      obtain ⟨b1, b2⟩ := write_retry_ok env hs reg.address reg.val w
      cases is_retry
      · have := ih (isx031_write_reg env reg.address 1 reg.val w).2
        simp only [isx031_write_reg_list, hd, if_false, ISX031_REG_LEN_08BIT, a1,
          ne_eq, not_true_eq_false, Bool.false_eq_true]
        rw [this.2, a2]
        simp [list_events, hd, this.1]
      · have := ih (isx031_write_reg_retry env reg.address 1 reg.val w).2
        simp only [isx031_write_reg_list, hd, if_false, if_true, ISX031_REG_LEN_08BIT, b1,
          ne_eq, not_true_eq_false]
        rw [this.2, b2]
        simp [list_events, hd, this.1]

theorem write_retry_log {σ : Type} (env : Env σ) (reg val : Nat) (n : Nat) :
    ∀ (ret : Int) (w : World σ), ∃ ops,
      (write_reg_retry_loop env reg 1 val n ret w).2.log = w.log ++ ops ∧
      (∀ e ∈ ops, e.writes reg = true) := by
  induction n with
  | zero => intro ret w; exact ⟨[], by simp [write_reg_retry_loop]⟩
  | succ n ih =>
    intro ret w
    obtain ⟨r, hl, -⟩ := write_reg_one_shape env reg val w
    have hw : (wr_event reg val r).writes reg = true := by
      simp [wr_event, Event.writes, write_reg_buf_take]
    simp only [write_reg_retry_loop]
    split
    · exact ⟨[wr_event reg val r], hl, by simpa using hw⟩
    · obtain ⟨ops, h1, h2⟩ := ih (isx031_write_reg env reg 1 val w).1
        (isx031_write_reg env reg 1 val w).2
      refine ⟨wr_event reg val r :: ops, by rw [h1, hl]; simp, ?_⟩
      intro x hx
      rcases List.mem_cons.mp hx with rfl | hx
      · exact hw
      · exact h2 x hx

theorem write_list_log {σ : Type} (env : Env σ) (l : List isx031_reg) (is_retry : Bool) :
    ∀ w : World σ, ∃ ops, (isx031_write_reg_list env l is_retry w).2.log = w.log ++ ops ∧
      ∀ e ∈ ops, ∃ r ∈ l, e.writes r.address = true := by
  induction l with
  | nil => intro w; exact ⟨[], by simp [isx031_write_reg_list]⟩
  | cons reg rest ih =>
    intro w
    simp only [isx031_write_reg_list, ISX031_REG_LEN_08BIT]
    split
    · obtain ⟨ops, h1, h2⟩ := ih w
      refine ⟨ops, h1, fun e he => ?_⟩
      obtain ⟨r, hr, hw⟩ := h2 e he
      exact ⟨r, List.mem_cons_of_mem _ hr, hw⟩
    · have hstep : ∃ ops0, (if is_retry = true then
            isx031_write_reg_retry env reg.address 1 reg.val w
          else isx031_write_reg env reg.address 1 reg.val w).2.log = w.log ++ ops0 ∧
          ∀ e ∈ ops0, e.writes reg.address = true := by
        cases is_retry
        · obtain ⟨r, hl, -⟩ := write_reg_one_shape env reg.address reg.val w
          refine ⟨[wr_event reg.address reg.val r], by simpa using hl, ?_⟩
          simp [wr_event, Event.writes, write_reg_buf_take]
        · obtain ⟨ops, h1, h2⟩ := write_retry_log env reg.address reg.val
            ISX031_WRITE_REG_RETRY_TIMEOUT 0 w
          exact ⟨ops, by simpa [isx031_write_reg_retry] using h1, h2⟩
      obtain ⟨ops0, h0, hw0⟩ := hstep
      generalize (if is_retry = true then
            isx031_write_reg_retry env reg.address 1 reg.val w
          else isx031_write_reg env reg.address 1 reg.val w) = R at h0 ⊢
      split
      · exact ⟨ops0, h0, fun e he => ⟨reg, List.mem_cons_self _ _, hw0 e he⟩⟩
      · obtain ⟨ops, h1, h2⟩ := ih R.2
        refine ⟨ops0 ++ ops, by rw [h1, h0, List.append_assoc], fun e he => ?_⟩
        rcases List.mem_append.mp he with he | he
        · exact ⟨reg, List.mem_cons_self _ _, hw0 e he⟩
        · obtain ⟨r, hr, hw⟩ := h2 e he
          exact ⟨r, List.mem_cons_of_mem _ hr, hw⟩

theorem writes_same_addr (a b : Nat) (e : Event) (ha : e.writes a = true)
    (hb : e.writes b = true) : put_unaligned_be16 a = put_unaligned_be16 b := by
  cases e with
  | xfer _ _ _ _ => simp [Event.writes] at ha
  | host _ _ => simp [Event.writes] at ha
  | send buf r =>
    simp only [Event.writes, beq_iff_eq] at ha hb
    rw [← ha, ← hb]

theorem mode_transit_ok {σ : Type} (env : Env σ) (hs : bus_always_succeeds env)
    (s : isx031) (mode : Int) (w : World σ)
    (hm : 0 ≤ isx031_find_drive_mode (s.lanes : Int) ((mode_at s.cur_mode).fps : Int)) :
    ∃ d1 d2, (mode_transit_body env s mode w).1 = 0 ∧
      (mode_transit_body env s mode w).2.log = w.log ++
        [rd_event ISX031_REG_SENSOR_STATE d1,
         wr_event ISX031_REG_MODE_SELECT
          (isx031_find_drive_mode (s.lanes : Int) ((mode_at s.cur_mode).fps : Int)).toNat 3,
         unlock_ok,
         wr_event ISX031_REG_MODE_SET_F mode.toNat 3,
         rd_event ISX031_REG_SENSOR_STATE d2] := by
  unfold mode_transit_body
  simp only [isx031_read_reg_state, ISX031_READ_REG_RETRY_TIMEOUT]
  obtain ⟨d1, a1, a2⟩ := read_loop_ok env hs ISX031_REG_SENSOR_STATE 49 0 0 w
  generalize read_reg_otp_loop env ISX031_REG_SENSOR_STATE 50 0 0 w = R1 at a1 a2 ⊢
  have hm' : ¬ isx031_find_drive_mode (s.lanes : Int) ((mode_at s.cur_mode).fps : Int) < 0 := by
    omega
  obtain ⟨b1, b2⟩ := write_reg_ok env hs ISX031_REG_MODE_SELECT
    (isx031_find_drive_mode (s.lanes : Int) ((mode_at s.cur_mode).fps : Int)).toNat R1.2.2
  have hsd : isx031_set_drive_mode env s R1.2.2 = isx031_write_reg env ISX031_REG_MODE_SELECT 1
      (isx031_find_drive_mode (s.lanes : Int) ((mode_at s.cur_mode).fps : Int)).toNat R1.2.2 := by
    simp [isx031_set_drive_mode, hm']
  rw [hsd]
  generalize isx031_write_reg env ISX031_REG_MODE_SELECT 1
      (isx031_find_drive_mode (s.lanes : Int) ((mode_at s.cur_mode).fps : Int)).toNat R1.2.2 = R2
    at b1 b2 ⊢
  obtain ⟨c1, c2⟩ := write_reg_ok env hs ISX031_REG_MODE_SET_F_LOCK ISX031_MODE_UNLOCK R2.2
  generalize isx031_write_reg env ISX031_REG_MODE_SET_F_LOCK 1 ISX031_MODE_UNLOCK R2.2 = R3
    at c1 c2 ⊢
  obtain ⟨e1, e2⟩ := write_reg_ok env hs ISX031_REG_MODE_SET_F mode.toNat R3.2
  generalize isx031_write_reg env ISX031_REG_MODE_SET_F 1 mode.toNat R3.2 = R4 at e1 e2 ⊢
  obtain ⟨d2, f1, f2⟩ := read_loop_ok env hs ISX031_REG_SENSOR_STATE 49 0 R1.2.1 R4.2
  generalize read_reg_otp_loop env ISX031_REG_SENSOR_STATE 50 0 R1.2.1 R4.2 = R5 at f1 f2 ⊢
  refine ⟨d1, d2, ?_, ?_⟩
  · simp [a1, b1, c1, e1, f1]
  · simp [a1, b1, c1, e1, f1, f2, e2, c2, b2, a2, unlock_ok]

/-! ## Lemmas on `isx031_initialize_module` -/

theorem catalog_fps : ∀ i : Fin 3, (mode_at i).fps = 30 := by decide

theorem not_mode_set_of_list (l : List isx031_reg)
    (hl : ∀ r ∈ l, put_unaligned_be16 r.address ≠ put_unaligned_be16 ISX031_REG_MODE_SET_F)
    (ops : List Event) (h : ∀ e ∈ ops, ∃ r ∈ l, e.writes r.address = true) :
    ∀ e ∈ ops, e.writes ISX031_REG_MODE_SET_F = false := by
  intro e he
  obtain ⟨r, hr, hw⟩ := h e he
  by_contra hc
  have hc' : e.writes ISX031_REG_MODE_SET_F = true := by simpa using hc
  exact hl r hr (writes_same_addr _ _ e hw hc')

theorem init_reg_not_mode_set : ∀ r ∈ isx031_init_reg,
    put_unaligned_be16 r.address ≠ put_unaligned_be16 ISX031_REG_MODE_SET_F := by decide

theorem framesync_reg_not_mode_set : ∀ r ∈ isx031_framesync_reg,
    put_unaligned_be16 r.address ≠ put_unaligned_be16 ISX031_REG_MODE_SET_F := by decide

theorem initialize_no_mode_set {σ : Type} (env : Env σ) (s : isx031) (w : World σ)
    (hne : (isx031_read_reg_state env 0 w).2.1 ≠ ISX031_STATE_STREAMING) :
    ∃ ops, (isx031_initialize_module env s w).2.log = w.log ++ ops ∧
      ∀ e ∈ ops, e.writes ISX031_REG_MODE_SET_F = false := by
  obtain ⟨rd1, hrd1, -, hall1⟩ :=
    read_loop_log env ISX031_REG_SENSOR_STATE ISX031_READ_REG_RETRY_TIMEOUT 0 0 w
  have hrd : ∀ e ∈ rd1, e.writes ISX031_REG_MODE_SET_F = false := fun e he =>
    (reads_not_writes _ _ _ e (hall1 e he)).1
  unfold isx031_initialize_module
  simp only [isx031_read_reg_state] at hne ⊢
  generalize read_reg_otp_loop env ISX031_REG_SENSOR_STATE
    ISX031_READ_REG_RETRY_TIMEOUT 0 0 w = R1 at hrd1 hne ⊢
  by_cases h1 : R1.1 = 0
  swap
  · exact ⟨rd1, by simpa [h1] using hrd1, hrd⟩
  simp only [h1, ne_eq, not_true_eq_false, if_false, hne]
  obtain ⟨ops3, h3, hw3⟩ := write_list_log env isx031_init_reg true R1.2.2
  have hn3 := not_mode_set_of_list _ init_reg_not_mode_set ops3 hw3
  generalize isx031_write_reg_list env isx031_init_reg true R1.2.2 = R3 at h3 ⊢
  have hall3 : ∀ e ∈ rd1 ++ ops3, e.writes ISX031_REG_MODE_SET_F = false := by
    intro e he
    rcases List.mem_append.mp he with he | he
    · exact hrd e he
    · exact hn3 e he
  have hlog3 : R3.2.log = w.log ++ (rd1 ++ ops3) := by
    rw [h3, hrd1, List.append_assoc]
  by_cases h3z : R3.1 = 0
  swap
  · simp only [h3z, not_false_eq_true, if_true]
    exact ⟨_, hlog3, hall3⟩
  simp only [h3z, not_true_eq_false, if_false]
  obtain ⟨ops4, h4, hw4⟩ := write_list_log env isx031_framesync_reg false R3.2
  have hn4 := not_mode_set_of_list _ framesync_reg_not_mode_set ops4 hw4
  cases hp : s.platform_data with
  | none => exact ⟨_, hlog3, hall3⟩
  | some pd =>
    simp only []
    split
    · refine ⟨rd1 ++ ops3 ++ ops4, by rw [h4, hlog3]; simp, ?_⟩
      intro e he
      rcases List.mem_append.mp he with he | he
      · exact hall3 e he
      · exact hn4 e he
    · exact ⟨_, hlog3, hall3⟩

/-! ## Lemmas on starting the stream -/

theorem wr_event_writes (reg val : Nat) (r : Int) (addr : Nat) :
    (wr_event reg val r).writes addr = true ↔
      put_unaligned_be16 reg = put_unaligned_be16 addr := by
  simp [wr_event, Event.writes, write_reg_buf_take]

theorem mode_transit_no_write {σ : Type} (env : Env σ) (s : isx031) (state : Nat)
    (w : World σ) :
    ∃ ops, (isx031_mode_transit env s state w).2.log = w.log ++ ops ∧
      ∀ addr, not_transit_reg addr → ∀ e ∈ ops, e.writes addr = false := by
  have key : ∀ mode : Int, ∃ ops, (mode_transit_body env s mode w).2.log = w.log ++ ops ∧
      ∀ addr, not_transit_reg addr → ∀ e ∈ ops, e.writes addr = false := by
    intro mode
    obtain ⟨rd1, rest, hlog, hall1, hrest⟩ := mode_transit_body_shape env s mode w
    refine ⟨rd1 ++ rest, by rw [hlog, List.append_assoc], ?_⟩
    intro addr ⟨h1, h2, h3⟩ e he
    have hsel : ∀ c r, (wr_event ISX031_REG_MODE_SELECT c r).writes addr = false := by
      intro c r
      by_contra hc
      exact h1 (((wr_event_writes _ _ _ _).mp (by simpa using hc)).symm)
    have hlock : ∀ c r, (wr_event ISX031_REG_MODE_SET_F_LOCK c r).writes addr = false := by
      intro c r
      by_contra hc
      exact h2 (((wr_event_writes _ _ _ _).mp (by simpa using hc)).symm)
    have hset : ∀ c r, (wr_event ISX031_REG_MODE_SET_F c r).writes addr = false := by
      intro c r
      by_contra hc
      exact h3 (((wr_event_writes _ _ _ _).mp (by simpa using hc)).symm)
    rcases List.mem_append.mp he with he | he
    · exact (reads_not_writes _ _ _ e (hall1 e he)).1
    · rcases hrest with rfl | ⟨c, r, rfl⟩ | ⟨c, r, rfl⟩ | ⟨c, r, rd2, rfl, hall2⟩
      · simp at he
      · simp only [List.mem_singleton] at he
        rw [he]; exact hsel _ _
      · simp only [List.mem_cons, List.mem_singleton, List.not_mem_nil, or_false] at he
        rcases he with rfl | rfl
        · exact hsel _ _
        · exact hlock _ _
      · simp only [List.cons_append, List.nil_append, List.mem_cons] at he
        rcases he with rfl | rfl | rfl | he
        · exact hsel _ _
        · exact hlock _ _
        · exact hset _ _
        · exact (reads_not_writes _ _ _ e (hall2 e he)).1
  unfold isx031_mode_transit
  split
  · exact key _
  · split
    · exact key _
    · exact ⟨[], by simp, by intro addr _ e he; simp at he⟩

theorem do_host_log {σ : Type} (env : Env σ) (c : HostCall) (w : World σ) :
    (do_host env c w).2.log = w.log ++ [Event.host c (do_host env c w).1] := rfl

theorem start_streaming_ok {σ : Type} (env : Env σ) (hs : bus_always_succeeds env)
    (s : isx031) (w : World σ) :
    ∃ ops, (isx031_start_streaming env s w).2.2.log = w.log ++
        (if some s.cur_mode ≠ s.pre_mode then list_events (mode_at s.cur_mode).reg_list
          else []) ++ ops ∧
      (isx031_start_streaming env s w).2.1 =
        (if some s.cur_mode ≠ s.pre_mode then { s with pre_mode := some s.cur_mode }
          else s) ∧
      ∀ addr, not_transit_reg addr → ∀ e ∈ ops, e.writes addr = false := by
  unfold isx031_start_streaming
  obtain ⟨a1, a2⟩ := write_list_ok env hs (mode_at s.cur_mode).reg_list true w
  generalize isx031_write_reg_list env (mode_at s.cur_mode).reg_list true w = RL at a1 a2 ⊢
  -- the world and session after the optional list application
  have hstep : ∃ (s1 : isx031) (w1 : World σ),
      (if some s.cur_mode ≠ s.pre_mode then
          if RL.1 ≠ 0 then (RL.1, s, RL.2)
          else ((0 : Int), { s with pre_mode := some s.cur_mode }, RL.2)
        else (0, s, w)) = (0, s1, w1) ∧
      s1 = (if some s.cur_mode ≠ s.pre_mode then { s with pre_mode := some s.cur_mode }
          else s) ∧
      w1.log = w.log ++ (if some s.cur_mode ≠ s.pre_mode then
          list_events (mode_at s.cur_mode).reg_list else []) := by
    by_cases hc : some s.cur_mode ≠ s.pre_mode
    · exact ⟨{ s with pre_mode := some s.cur_mode }, RL.2, by simp [hc, a1], by simp [hc],
        by simp [hc, a2]⟩
    · exact ⟨s, w, by simp [hc], by simp [hc], by simp [hc]⟩
  obtain ⟨s1, w1, heq, hs1, hw1⟩ := hstep
  simp only [heq, ne_eq, not_true_eq_false, if_false]
  have hh := do_host_log env HostCall.v4l2_ctrl_handler_setup w1
  generalize do_host env HostCall.v4l2_ctrl_handler_setup w1 = RH at hh ⊢
  have hhost : ∀ addr, (Event.host HostCall.v4l2_ctrl_handler_setup RH.1).writes addr
      = false := fun _ => rfl
  by_cases h2 : RH.1 = 0
  swap
  · simp only [h2, not_false_eq_true, if_true]
    refine ⟨[Event.host HostCall.v4l2_ctrl_handler_setup RH.1], by rw [hh, hw1], hs1, ?_⟩
    intro addr _ e he
    simp only [List.mem_singleton] at he
    rw [he]; exact hhost addr
  simp only [h2, not_true_eq_false, if_false]
  obtain ⟨ops, h3, hn3⟩ := mode_transit_no_write env s1 ISX031_STATE_STREAMING RH.2
  generalize isx031_mode_transit env s1 ISX031_STATE_STREAMING RH.2 = RT at h3 ⊢
  refine ⟨Event.host HostCall.v4l2_ctrl_handler_setup RH.1 :: ops, ?_, ?_, ?_⟩
  · have : RT.2.log = w.log ++ (if some s.cur_mode ≠ s.pre_mode then
          list_events (mode_at s.cur_mode).reg_list else []) ++
          Event.host HostCall.v4l2_ctrl_handler_setup RH.1 :: ops := by
      rw [h3, hh, hw1]; simp
    split <;> exact this
  · split <;> exact hs1
  · intro addr ha e he
    rcases List.mem_cons.mp he with rfl | he
    · exact hhost addr
    · exact hn3 addr ha e he

/-! ## Lemmas on `isx031_set_stream` -/

theorem set_stream_on_ok {σ : Type} (env : Env σ) (hs : bus_always_succeeds env)
    (s : isx031) (w : World σ) :
    ∃ (wrote : Bool) (ops_a ops_b : List Event),
      (isx031_set_stream env s 1 w).2.2.log = w.log ++ ops_a ++
        (if wrote then list_events (mode_at s.cur_mode).reg_list else []) ++ ops_b ∧
      (∀ addr, not_transit_reg addr → ∀ e ∈ ops_a ++ ops_b, e.writes addr = false) ∧
      (isx031_set_stream env s 1 w).2.1.cur_mode = s.cur_mode ∧
      (wrote = true → s.pre_mode ≠ some s.cur_mode ∧
        (isx031_set_stream env s 1 w).2.1.pre_mode = some s.cur_mode) ∧
      (s.pre_mode = some s.cur_mode →
        (isx031_set_stream env s 1 w).2.1.pre_mode = some s.cur_mode) ∧
      ((isx031_set_stream env s 1 w).1 = 0 →
        (isx031_set_stream env s 1 w).2.1.streaming = true) := by
  unfold isx031_set_stream
  by_cases hst : s.streaming = true
  · refine ⟨false, [], [], ?_⟩
    simp [hst]
  have hst' : s.streaming = false := by simpa using hst
  have hcond : ¬ ((if s.streaming = true then (1 : Int) else 0) = 1) := by simp [hst']
  simp only [hcond, if_false, ne_eq, one_ne_zero, not_false_eq_true, if_true]
  have hh := do_host_log env HostCall.pm_runtime_resume_and_get w
  generalize do_host env HostCall.pm_runtime_resume_and_get w = RP at hh ⊢
  by_cases hp : RP.1 < 0
  · refine ⟨false, [Event.host HostCall.pm_runtime_resume_and_get RP.1], [], ?_⟩
    simp only [hp, if_true]
    refine ⟨by simp [hh], ?_, by first | rfl | trivial, by simp, fun h => h, fun h => by omega⟩
    intro addr _ e he
    simp only [List.append_nil, List.mem_singleton] at he
    rw [he]; rfl
  simp only [hp, if_false]
  obtain ⟨ops, h1, h2, h3⟩ := start_streaming_ok env hs s RP.2
  generalize isx031_start_streaming env s RP.2 = RS at h1 h2 h3 ⊢
  have hcur : RS.2.1.cur_mode = s.cur_mode := by
    rw [h2]; split <;> rfl
  have hpre1 : some s.cur_mode ≠ s.pre_mode → RS.2.1.pre_mode = some s.cur_mode := by
    intro hc; rw [h2]; simp [hc]
  have hpre2 : s.pre_mode = some s.cur_mode → RS.2.1.pre_mode = some s.cur_mode := by
    intro hc
    rw [h2]; simp [hc]
  have hwrote : (decide (some s.cur_mode ≠ s.pre_mode) = true) →
      s.pre_mode ≠ some s.cur_mode := by
    intro h; simp at h; exact fun hc => h hc.symm
  have hL : (if decide (some s.cur_mode ≠ s.pre_mode) = true then
        list_events (mode_at s.cur_mode).reg_list else []) =
      (if some s.cur_mode ≠ s.pre_mode then list_events (mode_at s.cur_mode).reg_list
        else []) := by
    by_cases hc : some s.cur_mode ≠ s.pre_mode <;> simp [hc]
  have hpm : ∀ addr (r : Int), (Event.host HostCall.pm_runtime_resume_and_get r).writes addr
      = false := fun _ _ => rfl
  by_cases hr : RS.1 = 0
  · simp only [hr, ne_eq, not_true_eq_false, if_false]
    refine ⟨decide (some s.cur_mode ≠ s.pre_mode),
      [Event.host HostCall.pm_runtime_resume_and_get RP.1], ops, ?_, ?_, hcur, ?_, hpre2,
      fun _ => trivial⟩
    · rw [hL, h1, hh]
    · intro addr ha e he
      rcases List.mem_append.mp he with he | he
      · simp only [List.mem_singleton] at he; rw [he]; exact hpm _ _
      · exact h3 addr ha e he
    · intro hw
      have hne := hwrote hw
      exact ⟨hne, hpre1 (fun hc => hne hc.symm)⟩
  · simp only [hr, ne_eq, not_false_eq_true, if_true]
    unfold isx031_stop_streaming
    obtain ⟨opsT, hT, hnT⟩ := mode_transit_no_write env RS.2.1 ISX031_STATE_STARTUP RS.2.2
    generalize isx031_mode_transit env RS.2.1 ISX031_STATE_STARTUP RS.2.2 = RT at hT ⊢
    have hq := do_host_log env HostCall.pm_runtime_put RT.2
    generalize do_host env HostCall.pm_runtime_put RT.2 = RQ at hq ⊢
    refine ⟨decide (some s.cur_mode ≠ s.pre_mode),
      [Event.host HostCall.pm_runtime_resume_and_get RP.1],
      ops ++ opsT ++ [Event.host HostCall.pm_runtime_put RQ.1], ?_, ?_, hcur, ?_, hpre2,
      by intro h; first | exact absurd h hr | exact h.elim⟩
    · rw [hL, hq, hT, h1, hh]; simp
    · intro addr ha e he
      simp only [List.mem_append, List.mem_singleton] at he
      rcases he with he | (he | he) | he
      · rw [he]; exact hpm _ _
      · exact h3 addr ha e he
      · exact hnT addr ha e he
      · rw [he]; rfl
    · intro hw
      have hne := hwrote hw
      exact ⟨hne, hpre1 (fun hc => hne hc.symm)⟩

theorem mode_list_regs :
    ∀ i : Fin 3, ∀ reg ∈ (mode_at i).reg_list, reg.mode ≠ ISX031_REG_LEN_DELAY →
      not_transit_reg reg.address ∧
      write_count reg.address (list_events (mode_at i).reg_list) = 1 := by
  decide

theorem write_count_zero (addr : Nat) (l : List Event)
    (h : ∀ e ∈ l, e.writes addr = false) : write_count addr l = 0 := by
  unfold write_count
  rw [List.countP_eq_zero]
  intro e he
  simp [h e he]

theorem write_count_sandwich (addr : Nat) (a l b : List Event)
    (h : ∀ e ∈ a ++ b, e.writes addr = false) :
    write_count addr (a ++ l ++ b) = write_count addr l := by
  have ha := write_count_zero addr a (fun e he => h e (List.mem_append_left _ he))
  have hb := write_count_zero addr b (fun e he => h e (List.mem_append_right _ he))
  unfold write_count at ha hb ⊢
  rw [List.countP_append, List.countP_append, ha, hb]
  omega

theorem drive_mode_resolves (lanes : Nat) (i : Fin 3) (hl : lanes = 2 ∨ lanes = 4) :
    0 ≤ isx031_find_drive_mode (lanes : Int) ((mode_at i).fps : Int) := by
  rw [catalog_fps i]
  rcases hl with h | h <;> rw [h] <;> decide

theorem start_streaming_returns_ok {σ : Type} (env : Env σ) (hs : bus_always_succeeds env)
    (hctrl : ∀ st, (env.host st HostCall.v4l2_ctrl_handler_setup).1 = 0)
    (s : isx031) (hl : s.lanes = 2 ∨ s.lanes = 4) (w : World σ) :
    (isx031_start_streaming env s w).1 = 0 := by
  unfold isx031_start_streaming
  obtain ⟨a1, -⟩ := write_list_ok env hs (mode_at s.cur_mode).reg_list true w
  generalize isx031_write_reg_list env (mode_at s.cur_mode).reg_list true w = RL at a1 ⊢
  have hstep : ∃ (s1 : isx031) (w1 : World σ),
      (if some s.cur_mode ≠ s.pre_mode then
          if RL.1 ≠ 0 then (RL.1, s, RL.2)
          else ((0 : Int), { s with pre_mode := some s.cur_mode }, RL.2)
        else (0, s, w)) = (0, s1, w1) ∧ s1.lanes = s.lanes ∧ s1.cur_mode = s.cur_mode := by
    by_cases hc : some s.cur_mode ≠ s.pre_mode
    · exact ⟨{ s with pre_mode := some s.cur_mode }, RL.2, by simp [hc, a1], rfl, rfl⟩
    · exact ⟨s, w, by simp [hc], rfl, rfl⟩
  obtain ⟨s1, w1, heq, hl1, hc1⟩ := hstep
  simp only [heq, ne_eq, not_true_eq_false, if_false]
  have h2 : (do_host env HostCall.v4l2_ctrl_handler_setup w1).1 = 0 := hctrl w1.hw
  simp only [h2, not_true_eq_false, if_false]
  have hm : 0 ≤ isx031_find_drive_mode (s1.lanes : Int) ((mode_at s1.cur_mode).fps : Int) :=
    drive_mode_resolves s1.lanes s1.cur_mode (by rw [hl1]; exact hl)
  obtain ⟨d1, d2, b1, -⟩ := mode_transit_ok env hs s1 ISX031_MODE_STREAMING
    (do_host env HostCall.v4l2_ctrl_handler_setup w1).2 hm
  have ht : isx031_mode_transit env s1 ISX031_STATE_STREAMING
      (do_host env HostCall.v4l2_ctrl_handler_setup w1).2 =
      mode_transit_body env s1 ISX031_MODE_STREAMING
        (do_host env HostCall.v4l2_ctrl_handler_setup w1).2 := by
    simp [isx031_mode_transit, ISX031_STATE_STREAMING, ISX031_STATE_STARTUP]
  rw [ht]
  simp [b1]

theorem set_stream_on_streams {σ : Type} (env : Env σ) (hs : bus_always_succeeds env)
    (hpm : ∀ st, 0 ≤ (env.host st HostCall.pm_runtime_resume_and_get).1)
    (hctrl : ∀ st, (env.host st HostCall.v4l2_ctrl_handler_setup).1 = 0)
    (s : isx031) (hl : s.lanes = 2 ∨ s.lanes = 4) (w : World σ) :
    (isx031_set_stream env s 1 w).1 = 0 ∧
      (isx031_set_stream env s 1 w).2.1.streaming = true := by
  unfold isx031_set_stream
  by_cases hst : s.streaming = true
  · simp [hst]
  have hst' : s.streaming = false := by simpa using hst
  have hcond : ¬ ((if s.streaming = true then (1 : Int) else 0) = 1) := by simp [hst']
  simp only [hcond, if_false, ne_eq, one_ne_zero, not_false_eq_true, if_true]
  have hp : ¬ (do_host env HostCall.pm_runtime_resume_and_get w).1 < 0 := by
    have := hpm w.hw
    simp only [do_host]
    omega
  simp only [hp, if_false]
  have := start_streaming_returns_ok env hs hctrl s hl
    (do_host env HostCall.pm_runtime_resume_and_get w).2
  simp [this]

theorem mock_env_succeeds : bus_always_succeeds mock_env :=
  ⟨fun _ _ _ => rfl, fun _ _ => rfl⟩

/-! ## Lemmas on initialization from the streaming state -/

theorem initialize_from_streaming_resolved {σ : Type} (env : Env σ) (s : isx031)
    (w : World σ) (hs : bus_always_succeeds env)
    (h5 : (isx031_read_reg_state env 0 w).2.1 = ISX031_STATE_STREAMING)
    (hm : 0 ≤ isx031_find_drive_mode (s.lanes : Int) ((mode_at s.cur_mode).fps : Int)) :
    ∃ d1 d2 d3, (isx031_initialize_module env s w).1 = 0 ∧
      (isx031_initialize_module env s w).2.log = w.log ++
        [rd_event ISX031_REG_SENSOR_STATE d1, rd_event ISX031_REG_SENSOR_STATE d2,
         wr_event ISX031_REG_MODE_SELECT
          (isx031_find_drive_mode (s.lanes : Int) ((mode_at s.cur_mode).fps : Int)).toNat 3,
         unlock_ok, wr_event ISX031_REG_MODE_SET_F 0x00 3,
         rd_event ISX031_REG_SENSOR_STATE d3] ++ list_events isx031_init_reg ++
        (match s.platform_data with
          | some pd =>
            if pd.irq_pin_flags = 0 then list_events isx031_framesync_reg else []
          | none => []) := by
  obtain ⟨d1, a1, a2⟩ := read_loop_ok env hs ISX031_REG_SENSOR_STATE 49 0 0 w
  unfold isx031_initialize_module
  simp only [isx031_read_reg_state, ISX031_READ_REG_RETRY_TIMEOUT] at h5 ⊢
  generalize read_reg_otp_loop env ISX031_REG_SENSOR_STATE 50 0 0 w = R1 at a1 a2 h5 ⊢
  obtain ⟨d2, d3, b1, b2⟩ := mode_transit_ok env hs s ISX031_MODE_STANDBY R1.2.2 hm
  have ht : isx031_mode_transit env s ISX031_STATE_STARTUP R1.2.2 =
      mode_transit_body env s ISX031_MODE_STANDBY R1.2.2 := by
    simp [isx031_mode_transit]
  simp only [a1, h5, ne_eq, not_true_eq_false, if_false, if_true, ht]
  generalize mode_transit_body env s ISX031_MODE_STANDBY R1.2.2 = R2 at b1 b2 ⊢
  obtain ⟨c1, c2⟩ := write_list_ok env hs isx031_init_reg true R2.2
  generalize isx031_write_reg_list env isx031_init_reg true R2.2 = R3 at c1 c2 ⊢
  obtain ⟨e1, e2⟩ := write_list_ok env hs isx031_framesync_reg false R3.2
  have hlog3 : R3.2.log = w.log ++
        [rd_event ISX031_REG_SENSOR_STATE d1, rd_event ISX031_REG_SENSOR_STATE d2,
         wr_event ISX031_REG_MODE_SELECT
          (isx031_find_drive_mode (s.lanes : Int) ((mode_at s.cur_mode).fps : Int)).toNat 3,
         unlock_ok, wr_event ISX031_REG_MODE_SET_F 0x00 3,
         rd_event ISX031_REG_SENSOR_STATE d3] ++ list_events isx031_init_reg := by
    rw [c2, b2, a2]
    simp [ISX031_MODE_STANDBY]
  refine ⟨d1, d2, d3, ?_⟩
  simp only [b1, c1, not_true_eq_false, if_false]
  cases hp : s.platform_data with
  | none => simp [hlog3]
  | some pd =>
    by_cases hq : pd.irq_pin_flags = 0
    · simp only [hq, if_true]
      refine ⟨e1, ?_⟩
      rw [e2, hlog3]
    · simp [hq, hlog3]

theorem initialize_from_streaming {σ : Type} (env : Env σ) (s : isx031) (w : World σ)
    (hs : bus_always_succeeds env)
    (h5 : (isx031_read_reg_state env 0 w).2.1 = ISX031_STATE_STREAMING)
    (hl : s.lanes = 2 ∨ s.lanes = 4) :
    ∃ d1 d2 d3, (isx031_initialize_module env s w).1 = 0 ∧
      (isx031_initialize_module env s w).2.log = w.log ++
        [rd_event ISX031_REG_SENSOR_STATE d1, rd_event ISX031_REG_SENSOR_STATE d2,
         wr_event ISX031_REG_MODE_SELECT (if s.lanes = 4 then 0x17 else 0x18) 3,
         unlock_ok, wr_event ISX031_REG_MODE_SET_F 0x00 3,
         rd_event ISX031_REG_SENSOR_STATE d3] ++ list_events isx031_init_reg ++
        (match s.platform_data with
          | some pd =>
            if pd.irq_pin_flags = 0 then list_events isx031_framesync_reg else []
          | none => []) := by
  have hcode : isx031_find_drive_mode (s.lanes : Int) ((mode_at s.cur_mode).fps : Int) =
      ((if s.lanes = 4 then 0x17 else 0x18 : Nat) : Int) := by
    rw [catalog_fps s.cur_mode]
    rcases hl with h | h <;> rw [h] <;> decide
  have hcode' : (isx031_find_drive_mode (s.lanes : Int)
      ((mode_at s.cur_mode).fps : Int)).toNat = (if s.lanes = 4 then 0x17 else 0x18) := by
    rw [hcode]; exact Int.toNat_ofNat _
  have h := initialize_from_streaming_resolved env s w hs h5
    (drive_mode_resolves s.lanes s.cur_mode hl)
  rw [hcode'] at h
  exact h

theorem initialize_from_streaming_unresolved {σ : Type} (env : Env σ) (s : isx031)
    (w : World σ) (hs : bus_always_succeeds env)
    (h5 : (isx031_read_reg_state env 0 w).2.1 = ISX031_STATE_STREAMING)
    (hm : isx031_find_drive_mode (s.lanes : Int) ((mode_at s.cur_mode).fps : Int) < 0) :
    ∃ d1 d2, (isx031_initialize_module env s w).1 =
        isx031_find_drive_mode (s.lanes : Int) ((mode_at s.cur_mode).fps : Int) ∧
      (isx031_initialize_module env s w).2.log = w.log ++
        [rd_event ISX031_REG_SENSOR_STATE d1, rd_event ISX031_REG_SENSOR_STATE d2] := by
  obtain ⟨d1, a1, a2⟩ := read_loop_ok env hs ISX031_REG_SENSOR_STATE 49 0 0 w
  unfold isx031_initialize_module
  simp only [isx031_read_reg_state, ISX031_READ_REG_RETRY_TIMEOUT] at h5 ⊢
  generalize read_reg_otp_loop env ISX031_REG_SENSOR_STATE 50 0 0 w = R1 at a1 a2 h5 ⊢
  obtain ⟨d2, f1, f2⟩ := read_loop_ok env hs ISX031_REG_SENSOR_STATE 49 0 0 R1.2.2
  have hne : isx031_find_drive_mode (s.lanes : Int) ((mode_at s.cur_mode).fps : Int) ≠ 0 := by
    omega
  have ht : isx031_mode_transit env s ISX031_STATE_STARTUP R1.2.2 =
      (isx031_find_drive_mode (s.lanes : Int) ((mode_at s.cur_mode).fps : Int),
        (read_reg_otp_loop env ISX031_REG_SENSOR_STATE 50 0 0 R1.2.2).2.2) := by
    simp [isx031_mode_transit, mode_transit_body, isx031_read_reg_state,
      ISX031_READ_REG_RETRY_TIMEOUT, f1, isx031_set_drive_mode, hm, hne]
  refine ⟨d1, d2, ?_, ?_⟩
  · simp [a1, h5, ht, hne]
  · simp [a1, h5, ht, hne, f2, a2]

theorem init_reg_not_transit : ∀ r ∈ isx031_init_reg, r.mode ≠ ISX031_REG_LEN_DELAY →
    not_transit_reg r.address := by decide

theorem rd_event_not_write (reg : Nat) (d : List Nat) (addr : Nat) :
    (rd_event reg d).writes addr = false := rfl

theorem initialize_init_after_transit {σ : Type} (env : Env σ) (s : isx031)
    (w : World σ) (hs : bus_always_succeeds env)
    (h5 : (isx031_read_reg_state env 0 w).2.1 = ISX031_STATE_STREAMING) :
    ∃ ops, (isx031_initialize_module env s w).2.log = w.log ++ ops ∧
      ∀ pre e post, ops = pre ++ e :: post →
        (∃ r ∈ isx031_init_reg, r.mode ≠ ISX031_REG_LEN_DELAY ∧ e.writes r.address = true) →
        ∃ d1 d2 d3 c pre', pre =
          [rd_event ISX031_REG_SENSOR_STATE d1, rd_event ISX031_REG_SENSOR_STATE d2,
           wr_event ISX031_REG_MODE_SELECT c 3, unlock_ok,
           wr_event ISX031_REG_MODE_SET_F 0x00 3,
           rd_event ISX031_REG_SENSOR_STATE d3] ++ pre' := by
  have hnot : ∀ (e : Event), (∃ r ∈ isx031_init_reg, r.mode ≠ ISX031_REG_LEN_DELAY ∧
      e.writes r.address = true) → ∀ d1 d2 d3 c, e ∈
        [rd_event ISX031_REG_SENSOR_STATE d1, rd_event ISX031_REG_SENSOR_STATE d2,
         wr_event ISX031_REG_MODE_SELECT c 3, unlock_ok,
         wr_event ISX031_REG_MODE_SET_F 0x00 3,
         rd_event ISX031_REG_SENSOR_STATE d3] → False := by
    intro e ⟨r, hr, hmode, hw⟩ d1 d2 d3 c he
    obtain ⟨n1, n2, n3⟩ := init_reg_not_transit r hr hmode
    simp only [List.mem_cons, List.mem_singleton, List.not_mem_nil, or_false] at he
    rcases he with rfl | rfl | rfl | rfl | rfl | rfl
    · simp [rd_event_not_write] at hw
    · simp [rd_event_not_write] at hw
    · exact n1 ((wr_event_writes _ _ _ _).mp hw).symm
    · exact n2 ((wr_event_writes _ _ _ _).mp hw).symm
    · exact n3 ((wr_event_writes _ _ _ _).mp hw).symm
    · simp [rd_event_not_write] at hw
  by_cases hm : isx031_find_drive_mode (s.lanes : Int) ((mode_at s.cur_mode).fps : Int) < 0
  · obtain ⟨d1, d2, -, hlog⟩ := initialize_from_streaming_unresolved env s w hs h5 hm
    refine ⟨_, hlog, ?_⟩
    intro pre e post hops ⟨r, hr, hmode, hw⟩
    have he : e ∈ [rd_event ISX031_REG_SENSOR_STATE d1, rd_event ISX031_REG_SENSOR_STATE d2] := by
      rw [hops]; simp
    simp only [List.mem_cons, List.mem_singleton, List.not_mem_nil, or_false] at he
    rcases he with rfl | rfl <;> simp [rd_event_not_write] at hw
  · obtain ⟨d1, d2, d3, -, hlog⟩ :=
      initialize_from_streaming_resolved env s w hs h5 (by omega)
    refine ⟨_, by rw [hlog, List.append_assoc, List.append_assoc], ?_⟩
    intro pre e post hops he
    rcases List.append_eq_append_iff.mp hops with ⟨a', hpre, -⟩ | ⟨c', hA, hc'⟩
    · exact ⟨d1, d2, d3, _, a', hpre⟩
    · cases c' with
      | nil => exact ⟨d1, d2, d3, _, [], by simpa using hA.symm⟩
      | cons x xs =>
        simp only [List.cons_append, List.cons.injEq] at hc'
        obtain ⟨rfl, -⟩ := hc'
        exact (hnot e he d1 d2 d3 _ (by rw [hA]; simp)).elim

/-! ## Register transport: round trip (C3) -/

/-- C3: on the echoing mock bus, for every address, every length in
{1,2,3,4} and every value below 2^(8*length), `isx031_write_reg` succeeds and
a following `isx031_read_reg` of the same address and length succeeds and
yields the value written. -/
theorem C3_write_read_roundtrip (addr len val : Nat) (st : MockStore)
    (log : List Event) (v0 : Nat) (hlen : 1 ≤ len ∧ len ≤ 4)
    (hval : val < 2 ^ (8 * len)) :
    (isx031_write_reg mock_env addr len val ⟨st, log⟩).1 = 0 ∧
    (isx031_read_reg mock_env addr len v0
      (isx031_write_reg mock_env addr len val ⟨st, log⟩).2).1 = 0 ∧
    (isx031_read_reg mock_env addr len v0
      (isx031_write_reg mock_env addr len val ⟨st, log⟩).2).2.1 = val := by
  obtain ⟨h1, h4⟩ := hlen
  have : len = 1 ∨ len = 2 ∨ len = 3 ∨ len = 4 := by omega
  rcases this with rfl | rfl | rfl | rfl
  all_goals
    simp [isx031_write_reg, isx031_read_reg, do_send, do_transfer, mock_env,
      write_reg_buf, put_unaligned_be16, put_unaligned_be32, get_unaligned_be32,
      fill_data_buf, mock_lookup, buf_addr, List.range, List.range.loop] at hval ⊢
  all_goals omega

theorem C3_write_read_roundtrip_witness :
    (1 ≤ 3 ∧ 3 ≤ 4) ∧ 0xABCDEF < 2 ^ (8 * 3) ∧
    (isx031_write_reg mock_env 0x8AAA 3 0xABCDEF ⟨[], []⟩).1 = 0 ∧
    (isx031_read_reg mock_env 0x8AAA 3 0
      (isx031_write_reg mock_env 0x8AAA 3 0xABCDEF ⟨[], []⟩).2).1 = 0 ∧
    (isx031_read_reg mock_env 0x8AAA 3 0
      (isx031_write_reg mock_env 0x8AAA 3 0xABCDEF ⟨[], []⟩).2).2.1 = 0xABCDEF :=
  ⟨by decide, by decide,
    C3_write_read_roundtrip 0x8AAA 3 0xABCDEF [] [] 0 (by decide) (by decide)⟩

/-! ## Drive-mode resolver (C4, C5) -/

/-- C4: `isx031_find_drive_mode` returns 0x01 for (4, 60), 0x17 for (4, 30),
0x18 for (2, 30) and `-EINVAL` for (2, 60). -/
theorem C4_find_drive_mode_table :
    isx031_find_drive_mode 4 60 = 0x01 ∧ isx031_find_drive_mode 4 30 = 0x17 ∧
    isx031_find_drive_mode 2 30 = 0x18 ∧ isx031_find_drive_mode 2 60 = -EINVAL := by
  decide

/-- The `{}` terminator of the table is an entry the loop compares like any
other, so the pair (0, 0) finds it and gets its `mode` field, 0.  No other
pair finds it. -/
theorem find_drive_mode_terminator : isx031_find_drive_mode 0 0 = 0 := by
  decide

/-- C6: when both identity reads succeed with byte values `low` (register
0x7E8A) and `high` (register 0x7E8B), `isx031_identify_module` returns 0
exactly when `((high & 0x0F) << 8) | low` equals 0x031 and `-ENODEV`
otherwise. -/
theorem C6_identify_compares_module_id {σ : Type} (env : Env σ) (w w1 w2 : World σ)
    (low high : Nat)
    (h1 : isx031_read_reg_otp env ISX031_OTP_TYPE_NAME_L 0 w = (0, low, w1))
    (h2 : isx031_read_reg_otp env ISX031_OTP_TYPE_NAME_H 0 w1 = (0, high, w2)) :
    isx031_identify_module env w =
      (if (((high &&& 0x0F) <<< 8) ||| low) = 0x031 then 0 else -ENODEV, w2) := by
  obtain ⟨hl, he⟩ := identify_module_eq env w w1 w2 low high h1 h2
  rw [he, module_id_eq low high hl]

theorem C6_identify_compares_module_id_witness :
    isx031_identify_module mock_env ⟨[(0x7E8A, [0x31]), (0x7E8B, [0x20])], []⟩ =
      (if (((0x20 &&& 0x0F) <<< 8) ||| 0x31) = 0x031 then 0 else -ENODEV,
        ⟨[(0x7E8A, [0x31]), (0x7E8B, [0x20])],
          [Event.xfer [0x7E, 0x8A] 1 2 [0x31], Event.xfer [0x7E, 0x8B] 1 2 [0x20]]⟩) :=
  C6_identify_compares_module_id mock_env _ ⟨[(0x7E8A, [0x31]), (0x7E8B, [0x20])],
    [Event.xfer [0x7E, 0x8A] 1 2 [0x31]]⟩ _ 0x31 0x20 rfl rfl

/-- C7 (as amended): when both identity reads succeed with byte values
`low` and `high`, `isx031_identify_module` returns 0 exactly when
`low = 0x31` and the low four bits of `high` are zero, and `-ENODEV` for
every other pair. -/
theorem C7_identify_accepts_low_0x31_high_nibble_zero {σ : Type} (env : Env σ)
    (w w1 w2 : World σ) (low high : Nat)
    (h1 : isx031_read_reg_otp env ISX031_OTP_TYPE_NAME_L 0 w = (0, low, w1))
    (h2 : isx031_read_reg_otp env ISX031_OTP_TYPE_NAME_H 0 w1 = (0, high, w2)) :
    ((isx031_identify_module env w).1 = 0 ↔ low = 0x31 ∧ high % 16 = 0) ∧
    ((isx031_identify_module env w).1 ≠ 0 →
      (isx031_identify_module env w).1 = -ENODEV) := by
  obtain ⟨hl, he⟩ := identify_module_eq env w w1 w2 low high h1 h2
  rw [he]
  by_cases hc : high % 16 * 256 + low = 49
  · simp [hc]; omega
  · simp [hc, ENODEV]; omega

theorem C7_identify_accepts_low_0x31_high_nibble_zero_witness :
    ((isx031_identify_module mock_env
        ⟨[(0x7E8A, [0x31]), (0x7E8B, [0x20])], []⟩).1 = 0 ↔
      0x31 = 0x31 ∧ 0x20 % 16 = 0) ∧
    ((isx031_identify_module mock_env
        ⟨[(0x7E8A, [0x31]), (0x7E8B, [0x20])], []⟩).1 ≠ 0 →
      (isx031_identify_module mock_env
        ⟨[(0x7E8A, [0x31]), (0x7E8B, [0x20])], []⟩).1 = -ENODEV) :=
  C7_identify_accepts_low_0x31_high_nibble_zero mock_env _
    ⟨[(0x7E8A, [0x31]), (0x7E8B, [0x20])], [Event.xfer [0x7E, 0x8A] 1 2 [0x31]]⟩
    ⟨[(0x7E8A, [0x31]), (0x7E8B, [0x20])],
      [Event.xfer [0x7E, 0x8A] 1 2 [0x31], Event.xfer [0x7E, 0x8B] 1 2 [0x20]]⟩
    0x31 0x20 rfl rfl

/-- C7, the claim as stated fails: with `name_l = 0x31` and `name_h = 0x0F`
the identification returns `-ENODEV`, and with `name_l = 0x31` and
`name_h = 0x00`, another pair, it succeeds. -/
theorem C7_identify_rejects_0x31_0x0F :
    (isx031_identify_module mock_env
      ⟨[(0x7E8A, [0x31]), (0x7E8B, [0x0F])], []⟩).1 = -ENODEV ∧
    (isx031_identify_module mock_env
      ⟨[(0x7E8A, [0x31]), (0x7E8B, [0x00])], []⟩).1 = 0 := by
  decide

/-! ## Retry exhaustion (C8) -/

/-- C8: on a bus on which every transfer fails, `isx031_read_reg_state` and
`isx031_read_reg_otp` make exactly 50 read attempts on their register and
`isx031_write_reg_retry` (for a length in 1..4) exactly 100 sends to its
register, and each returns `-EIO`. -/
theorem C8_retry_exhaustion {σ : Type} (env : Env σ) (hf : bus_always_fails env)
    (w : World σ) (reg len val v0 : Nat) (hlen : 1 ≤ len ∧ len ≤ 4) :
    (∃ ops, (isx031_read_reg_state env v0 w).2.2.log = w.log ++ ops ∧
      ops.length = 50 ∧ (∀ e ∈ ops, e.reads ISX031_REG_SENSOR_STATE 1 = true) ∧
      (isx031_read_reg_state env v0 w).1 = - EIO_errno) ∧
    (∃ ops, (isx031_read_reg_otp env reg v0 w).2.2.log = w.log ++ ops ∧
      ops.length = 50 ∧ (∀ e ∈ ops, e.reads reg 1 = true) ∧
      (isx031_read_reg_otp env reg v0 w).1 = - EIO_errno) ∧
    (∃ ops, (isx031_write_reg_retry env reg len val w).2.log = w.log ++ ops ∧
      ops.length = 100 ∧ (∀ e ∈ ops, e.writes reg = true) ∧
      (isx031_write_reg_retry env reg len val w).1 = - EIO_errno) := by
  refine ⟨?_, ?_, ?_⟩
  · obtain ⟨ops, h1, h2, h3, h4⟩ :=
      read_loop_fail env hf ISX031_REG_SENSOR_STATE 50 0 v0 w
    exact ⟨ops, h1, h2, h3, h4 (by norm_num)⟩
  · obtain ⟨ops, h1, h2, h3, h4⟩ := read_loop_fail env hf reg 50 0 v0 w
    exact ⟨ops, h1, h2, h3, h4 (by norm_num)⟩
  · obtain ⟨ops, h1, h2, h3, h4⟩ := write_retry_fail env hf reg len val hlen.2 100 0 w
    exact ⟨ops, h1, h2, h3, h4 (by norm_num)⟩

theorem C8_retry_exhaustion_witness :
    bus_always_fails dead_env ∧ (1 ≤ 1 ∧ 1 ≤ 4) ∧
    ((∃ ops, (isx031_read_reg_state dead_env 0 ⟨(), []⟩).2.2.log = [] ++ ops ∧
      ops.length = 50 ∧ (∀ e ∈ ops, e.reads ISX031_REG_SENSOR_STATE 1 = true) ∧
      (isx031_read_reg_state dead_env 0 ⟨(), []⟩).1 = - EIO_errno) ∧
    (∃ ops, (isx031_read_reg_otp dead_env 0x8AA8 0 ⟨(), []⟩).2.2.log = [] ++ ops ∧
      ops.length = 50 ∧ (∀ e ∈ ops, e.reads 0x8AA8 1 = true) ∧
      (isx031_read_reg_otp dead_env 0x8AA8 0 ⟨(), []⟩).1 = - EIO_errno) ∧
    (∃ ops, (isx031_write_reg_retry dead_env 0x8AA8 1 1 ⟨(), []⟩).2.log = [] ++ ops ∧
      ops.length = 100 ∧ (∀ e ∈ ops, e.writes 0x8AA8 = true) ∧
      (isx031_write_reg_retry dead_env 0x8AA8 1 1 ⟨(), []⟩).1 = - EIO_errno)) :=
  ⟨dead_env_fails, by decide,
    C8_retry_exhaustion dead_env dead_env_fails ⟨(), []⟩ 0x8AA8 1 1 0 (by decide)⟩

/-! ## The applied-mode invariant (C2) -/

/-- C2: the invariant does not hold in every reachable state.  On the mock
sensor, on which every transfer succeeds, device attach followed by
set_format(1920x1080), suspend, resume, set_format(1920x1536), each
returning 0, ends in a session with `pre_mode == cur_mode` (the 1920x1536
mode) whose registers do not hold what that mode's list writes:
`isx031_resume` has written the 1920x1080 list without recording it in
`pre_mode`, so register 0x8AAE holds 0x38 where the 1920x1536 list writes
0x00.  A following set_streaming(1) returns 0 and leaves the session
streaming with these registers. -/
theorem C2_resume_does_not_record_applied_mode :
    (∃ s w, attach_and_run mock_env mock_platform
        [Call.set_format fmt_1920_1080, Call.suspend, Call.resume,
          Call.set_format fmt_1920_1536] mock_world_startup = some ([0, 0, 0, 0], s, w) ∧
      s.pre_mode = some s.cur_mode ∧ (mode_at s.cur_mode).height = 1536 ∧
      mode_regs_applied s w.hw = false ∧ mock_reg w.hw 0x8AAE = 0x38) ∧
    (∃ s w, attach_and_run mock_env mock_platform
        [Call.set_format fmt_1920_1080, Call.suspend, Call.resume,
          Call.set_format fmt_1920_1536, Call.set_streaming 1] mock_world_startup =
          some ([0, 0, 0, 0, 0], s, w) ∧
      s.streaming = true ∧ s.pre_mode = some s.cur_mode ∧
      mode_regs_applied s w.hw = false) :=
  ⟨⟨_, _, rfl, by decide, by decide, by decide, by decide⟩,
    ⟨_, _, rfl, by decide, by decide, by decide⟩⟩

/-! ## Starting the stream twice (C9) -/

/-- C9: on a bus on which every transfer succeeds, for every session, over
two consecutive `isx031_set_stream(1)` calls every register of the current
mode's list is written at most once, and not at all when `pre_mode` already
equals `cur_mode`; when the first call leaves the session streaming (which it
does whenever it returns 0, and it returns 0 when runtime power and the
control setup succeed and the lane count is 2 or 4) the second call returns
0, logs nothing and leaves the session as it is. -/
theorem C9_set_stream_twice_applies_list_once {σ : Type} (env : Env σ)
    (hs : bus_always_succeeds env) (s : isx031) (w : World σ) :
    ∃ ops1 ops2,
      (isx031_set_stream env s 1 w).2.2.log = w.log ++ ops1 ∧
      (isx031_set_stream env (isx031_set_stream env s 1 w).2.1 1
        (isx031_set_stream env s 1 w).2.2).2.2.log = w.log ++ ops1 ++ ops2 ∧
      (∀ reg ∈ (mode_at s.cur_mode).reg_list, reg.mode ≠ ISX031_REG_LEN_DELAY →
        write_count reg.address (ops1 ++ ops2) ≤ 1 ∧
        (s.pre_mode = some s.cur_mode → write_count reg.address (ops1 ++ ops2) = 0)) ∧
      ((isx031_set_stream env s 1 w).2.1.streaming = true →
        isx031_set_stream env (isx031_set_stream env s 1 w).2.1 1
          (isx031_set_stream env s 1 w).2.2 =
          (0, (isx031_set_stream env s 1 w).2.1, (isx031_set_stream env s 1 w).2.2)) ∧
      ((isx031_set_stream env s 1 w).1 = 0 →
        (isx031_set_stream env s 1 w).2.1.streaming = true) ∧
      ((∀ st, 0 ≤ (env.host st HostCall.pm_runtime_resume_and_get).1) →
        (∀ st, (env.host st HostCall.v4l2_ctrl_handler_setup).1 = 0) →
        (s.lanes = 2 ∨ s.lanes = 4) →
        (isx031_set_stream env s 1 w).1 = 0 ∧
          (isx031_set_stream env s 1 w).2.1.streaming = true) := by
  obtain ⟨wr1, a1, b1, hlog1, hn1, hcur1, hw1, hp1, hz1⟩ := set_stream_on_ok env hs s w
  have hrun := fun hpm hctrl hl => set_stream_on_streams env hs hpm hctrl s hl w
  generalize isx031_set_stream env s 1 w = R1 at hlog1 hcur1 hw1 hp1 hz1 hrun ⊢
  obtain ⟨wr2, a2, b2, hlog2, hn2, -, hw2, -, -⟩ := set_stream_on_ok env hs R1.2.1 R1.2.2
  rw [hcur1] at hlog2 hw2
  refine ⟨a1 ++ (if wr1 = true then list_events (mode_at s.cur_mode).reg_list else []) ++ b1,
    a2 ++ (if wr2 = true then list_events (mode_at s.cur_mode).reg_list else []) ++ b2,
    ?_, ?_, ?_, ?_, hz1, hrun⟩
  · rw [hlog1]; simp
  · rw [hlog2, hlog1]; simp
  · intro reg hreg hmode
    obtain ⟨hnt, hone⟩ := mode_list_regs s.cur_mode reg hreg hmode
    have e1 := write_count_sandwich reg.address a1
      (if wr1 = true then list_events (mode_at s.cur_mode).reg_list else []) b1
      (hn1 _ hnt)
    have e2 := write_count_sandwich reg.address a2
      (if wr2 = true then list_events (mode_at s.cur_mode).reg_list else []) b2
      (hn2 _ hnt)
    have hsum : write_count reg.address
        ((a1 ++ (if wr1 = true then list_events (mode_at s.cur_mode).reg_list else []) ++ b1) ++
         (a2 ++ (if wr2 = true then list_events (mode_at s.cur_mode).reg_list else []) ++ b2))
        = (if wr1 = true then 1 else 0) + (if wr2 = true then 1 else 0) := by
      have : ∀ (b : Bool), write_count reg.address
          (if b = true then list_events (mode_at s.cur_mode).reg_list else []) =
          (if b = true then 1 else 0) := by
        intro b; cases b
        · simp [write_count]
        · simpa using hone
      unfold write_count at e1 e2 this ⊢
      rw [List.countP_append, e1, e2, this, this]
    rw [hsum]
    have hexcl : wr1 = true → wr2 = false := by
      intro h1
      by_contra h2
      have h2' : wr2 = true := by simpa using h2
      exact (hw2 h2').1 (hw1 h1).2
    constructor
    · cases wr1 <;> cases wr2 <;> simp_all
    · intro hpre
      have h1 : wr1 = false := by
        by_contra h
        exact (hw1 (by simpa using h)).1 hpre
      have h2 : wr2 = false := by
        by_contra h
        exact (hw2 (by simpa using h)).1 (hp1 hpre)
      simp [h1, h2]
  · intro hst
    simp [isx031_set_stream, hst]

theorem C9_set_stream_twice_applies_list_once_witness :
    bus_always_succeeds mock_env ∧ mock_first_start.2.1.streaming = true ∧
    (∃ ops1 ops2,
      mock_first_start.2.2.log = mock_world_startup.log ++ ops1 ∧
      (isx031_set_stream mock_env mock_first_start.2.1 1 mock_first_start.2.2).2.2.log =
        mock_world_startup.log ++ ops1 ++ ops2 ∧
      (∀ reg ∈ (mode_at mock_session.cur_mode).reg_list,
        reg.mode ≠ ISX031_REG_LEN_DELAY →
        write_count reg.address (ops1 ++ ops2) ≤ 1 ∧
        (mock_session.pre_mode = some mock_session.cur_mode →
          write_count reg.address (ops1 ++ ops2) = 0)) ∧
      (mock_first_start.2.1.streaming = true →
        isx031_set_stream mock_env mock_first_start.2.1 1 mock_first_start.2.2 =
          (0, mock_first_start.2.1, mock_first_start.2.2)) ∧
      (mock_first_start.1 = 0 → mock_first_start.2.1.streaming = true) ∧
      ((∀ st, 0 ≤ (mock_env.host st HostCall.pm_runtime_resume_and_get).1) →
        (∀ st, (mock_env.host st HostCall.v4l2_ctrl_handler_setup).1 = 0) →
        (mock_session.lanes = 2 ∨ mock_session.lanes = 4) →
        mock_first_start.1 = 0 ∧ mock_first_start.2.1.streaming = true)) :=
  ⟨mock_env_succeeds, by decide,
    C9_set_stream_twice_applies_list_once mock_env mock_env_succeeds mock_session
      mock_world_startup⟩

/-! ## Initialization from the streaming state (C10) -/

/-- C10: when every transfer succeeds and the first read of the state
register in `isx031_initialize_module` yields 0x05, every write of an Init
list register in the log has, before it, the state read and then the whole
transition to startup (state read, drive-mode-select write, unlock write,
mode-set write of 0x00, state read); with a lane count of 2 or 4 the log is
exactly that sequence followed by the Init list (and the frame-sync list
when the platform asks for it) and the result is 0; and for every behaviour
of the bus, when that first read yields anything other than 0x05, no send
to the mode-set register is logged. -/
theorem C10_initialize_transits_to_startup_first {σ : Type} (env : Env σ) (s : isx031)
    (w : World σ) :
    (bus_always_succeeds env →
      (isx031_read_reg_state env 0 w).2.1 = ISX031_STATE_STREAMING →
      (∃ ops, (isx031_initialize_module env s w).2.log = w.log ++ ops ∧
        ∀ pre e post, ops = pre ++ e :: post →
          (∃ r ∈ isx031_init_reg, r.mode ≠ ISX031_REG_LEN_DELAY ∧
            e.writes r.address = true) →
          ∃ d1 d2 d3 c pre', pre =
            [rd_event ISX031_REG_SENSOR_STATE d1, rd_event ISX031_REG_SENSOR_STATE d2,
             wr_event ISX031_REG_MODE_SELECT c 3, unlock_ok,
             wr_event ISX031_REG_MODE_SET_F 0x00 3,
             rd_event ISX031_REG_SENSOR_STATE d3] ++ pre') ∧
      ((s.lanes = 2 ∨ s.lanes = 4) →
        ∃ d1 d2 d3, (isx031_initialize_module env s w).1 = 0 ∧
          (isx031_initialize_module env s w).2.log = w.log ++
            [rd_event ISX031_REG_SENSOR_STATE d1, rd_event ISX031_REG_SENSOR_STATE d2,
             wr_event ISX031_REG_MODE_SELECT (if s.lanes = 4 then 0x17 else 0x18) 3,
             unlock_ok, wr_event ISX031_REG_MODE_SET_F 0x00 3,
             rd_event ISX031_REG_SENSOR_STATE d3] ++ list_events isx031_init_reg ++
            (match s.platform_data with
              | some pd =>
                if pd.irq_pin_flags = 0 then list_events isx031_framesync_reg else []
              | none => []))) ∧
    ((isx031_read_reg_state env 0 w).2.1 ≠ ISX031_STATE_STREAMING →
      ∃ ops, (isx031_initialize_module env s w).2.log = w.log ++ ops ∧
        ∀ e ∈ ops, e.writes ISX031_REG_MODE_SET_F = false) :=
  ⟨fun hs h5 => ⟨initialize_init_after_transit env s w hs h5,
      fun hl => initialize_from_streaming env s w hs h5 hl⟩,
    fun hne => initialize_no_mode_set env s w hne⟩

theorem C10_initialize_transits_to_startup_first_witness :
    (bus_always_succeeds mock_env ∧
      (isx031_read_reg_state mock_env 0 mock_world_streaming).2.1 = ISX031_STATE_STREAMING ∧
      (mock_session.lanes = 2 ∨ mock_session.lanes = 4) ∧
      ∃ d1 d2 d3, (isx031_initialize_module mock_env mock_session mock_world_streaming).1 = 0 ∧
        (isx031_initialize_module mock_env mock_session mock_world_streaming).2.log =
          mock_world_streaming.log ++
          [rd_event ISX031_REG_SENSOR_STATE d1, rd_event ISX031_REG_SENSOR_STATE d2,
           wr_event ISX031_REG_MODE_SELECT (if mock_session.lanes = 4 then 0x17 else 0x18) 3,
           unlock_ok, wr_event ISX031_REG_MODE_SET_F 0x00 3,
           rd_event ISX031_REG_SENSOR_STATE d3] ++ list_events isx031_init_reg ++
          (match mock_session.platform_data with
            | some pd =>
              if pd.irq_pin_flags = 0 then list_events isx031_framesync_reg else []
            | none => [])) ∧
    ((isx031_read_reg_state mock_env 0 mock_world_startup).2.1 ≠ ISX031_STATE_STREAMING ∧
      ∃ ops, (isx031_initialize_module mock_env mock_session mock_world_startup).2.log =
          mock_world_startup.log ++ ops ∧
        ∀ e ∈ ops, e.writes ISX031_REG_MODE_SET_F = false) :=
  ⟨⟨mock_env_succeeds, by decide, by decide,
      ((C10_initialize_transits_to_startup_first mock_env mock_session
        mock_world_streaming).1 mock_env_succeeds (by decide)).2 (by decide)⟩,
    ⟨by decide,
      (C10_initialize_transits_to_startup_first mock_env mock_session
        mock_world_startup).2 (by decide)⟩⟩

/-! ## Lemmas on byte layout, format search and the power-on loop -/

theorem write_reg_buf_low_bytes (reg len val : Nat) (hlen : 1 ≤ len ∧ len ≤ 4) :
    write_reg_buf reg len val = put_unaligned_be16 reg ++ low_bytes_be len val := by
  obtain ⟨h1, h4⟩ := hlen
  have : len = 1 ∨ len = 2 ∨ len = 3 ∨ len = 4 := by omega
  rcases this with rfl | rfl | rfl | rfl
  all_goals
    simp [write_reg_buf, put_unaligned_be16, put_unaligned_be32, low_bytes_be,
      List.range, List.range.loop]
  all_goals omega

theorem set_format_find_spec (code width height : Nat) :
    set_format_find code width height [0, 1, 2] =
      if code = MEDIA_BUS_FMT_UYVY8_1X16 ∧ width = 1920 ∧ height = 1536 then some 0
      else if code = MEDIA_BUS_FMT_UYVY8_1X16 ∧ width = 1920 ∧ height = 1080 then some 1
      else if code = MEDIA_BUS_FMT_UYVY8_1X16 ∧ width = 1280 ∧ height = 720 then some 2
      else none := by
  have e0 : mode_at 0 = ⟨1920, 1536, MEDIA_BUS_FMT_UYVY8_1X16, MIPI_CSI2_DT_YUV422_8B, 30,
      isx031_1920_1536_30fps_reg⟩ := rfl
  have e1 : mode_at 1 = ⟨1920, 1080, MEDIA_BUS_FMT_UYVY8_1X16, MIPI_CSI2_DT_YUV422_8B, 30,
      isx031_1920_1080_30fps_reg⟩ := rfl
  have e2 : mode_at 2 = ⟨1280, 720, MEDIA_BUS_FMT_UYVY8_1X16, MIPI_CSI2_DT_YUV422_8B, 30,
      isx031_1280_720_30fps_reg⟩ := rfl
  simp only [set_format_find, e0, e1, e2]
  simp only [eq_comm]

theorem resume_power_loop_spec {σ : Type} (env : Env σ) (n : Nat) :
    ∀ (ret : Int) (w : World σ),
      (∃ (fails : List (Int × Int)) (rs : Int), (∀ p ∈ fails, p.2 ≠ 0) ∧ fails.length < n ∧
        (resume_power_loop env n ret w).1 = 0 ∧
        (resume_power_loop env n ret w).2.log =
          w.log ++ fails.flatMap poll_events ++ poll_events (rs, 0)) ∨
      (∃ fails : List (Int × Int), (∀ p ∈ fails, p.2 ≠ 0) ∧ fails.length = n ∧
        (0 < n → (resume_power_loop env n ret w).1 ≠ 0) ∧
        (resume_power_loop env n ret w).2.log = w.log ++ fails.flatMap poll_events) := by
  induction n with
  | zero =>
    intro ret w
    right
    exact ⟨[], by simp, rfl, by simp, by simp [resume_power_loop]⟩
  | succ n ih =>
    intro ret w
    simp only [resume_power_loop]
    have h1 := do_host_log env (HostCall.gpiod_set_value_cansleep 0) w
    generalize do_host env (HostCall.gpiod_set_value_cansleep 0) w = R1 at h1 ⊢
    have h2 := do_host_log env HostCall.gpiod_get_value_cansleep R1.2
    generalize do_host env HostCall.gpiod_get_value_cansleep R1.2 = R2 at h2 ⊢
    have hlog : R2.2.log = w.log ++ poll_events (R1.1, R2.1) := by
      rw [h2, h1]; simp [poll_events]
    by_cases hz : R2.1 = 0
    · left
      refine ⟨[], R1.1, by simp, by simp, by simp [hz], ?_⟩
      simp only [hz, if_true]
      rw [hlog, hz]; simp
    · simp only [hz, if_false]
      rcases ih R2.1 R2.2 with ⟨fails, rs, ha, hl, hr, hlg⟩ | ⟨fails, ha, hl, hr, hlg⟩
      · left
        refine ⟨(R1.1, R2.1) :: fails, rs, ?_, by simp; omega, hr, ?_⟩
        · intro p hp
          rcases List.mem_cons.mp hp with rfl | hp
          · exact hz
          · exact ha p hp
        · rw [hlg, hlog]; simp
      · right
        refine ⟨(R1.1, R2.1) :: fails, ?_, by simp [hl], ?_, ?_⟩
        · intro p hp
          rcases List.mem_cons.mp hp with rfl | hp
          · exact hz
          · exact ha p hp
        · intro _
          rcases Nat.eq_zero_or_pos n with h0 | hpos
          · subst h0; simpa [resume_power_loop] using hz
          · exact hr hpos
        · rw [hlg, hlog]; simp

theorem poll_events_host (l : List (Int × Int)) :
    ∀ e ∈ l.flatMap poll_events, e.is_host = true := by
  intro e he
  simp only [List.mem_flatMap] at he
  obtain ⟨p, -, hp⟩ := he
  simp only [poll_events, List.mem_cons, List.mem_singleton, List.not_mem_nil, or_false] at hp
  rcases hp with rfl | rfl <;> rfl

/-! ## The run of a register list on any bus -/

theorem write_retry_run {σ : Type} (env : Env σ) (reg val : Nat) (n : Nat) :
    ∀ (ret : Int) (w : World σ),
      (∃ fails : List Int, (∀ x ∈ fails, x ≠ 3) ∧ fails.length < n ∧
        (write_reg_retry_loop env reg 1 val n ret w).1 = 0 ∧
        (write_reg_retry_loop env reg 1 val n ret w).2.log =
          w.log ++ (fails.map (wr_event reg val) ++ [wr_event reg val 3])) ∨
      (∃ fails : List Int, (∀ x ∈ fails, x ≠ 3) ∧ fails.length = n ∧
        (0 < n → (write_reg_retry_loop env reg 1 val n ret w).1 = - EIO_errno) ∧
        (write_reg_retry_loop env reg 1 val n ret w).2.log =
          w.log ++ fails.map (wr_event reg val)) := by
  induction n with
  | zero =>
    intro ret w
    right
    exact ⟨[], by simp, rfl, by simp, by simp [write_reg_retry_loop]⟩
  | succ n ih =>
    intro ret w
    simp only [write_reg_retry_loop]
    have h1 := write_reg_one env reg val w
    generalize (env.i2c_master_send w.hw (write_reg_buf reg 1 val)) = S at h1
    by_cases hz : S.1 = 3
    · left
      refine ⟨[], by simp, by simp, ?_, ?_⟩
      · simp [h1, hz]
      · simp [h1, hz]
    · have hne : (isx031_write_reg env reg 1 val w).1 ≠ 0 := by
        rw [h1]; simp [hz, EIO_errno]
      have hio : (isx031_write_reg env reg 1 val w).1 = - EIO_errno := by
        rw [h1]; simp [hz]
      have hlog : (isx031_write_reg env reg 1 val w).2.log = w.log ++ [wr_event reg val S.1] := by
        rw [h1]
      simp only [hne, if_false]
      rcases ih (isx031_write_reg env reg 1 val w).1 (isx031_write_reg env reg 1 val w).2 with
        ⟨fails, ha, hl, hr, hlg⟩ | ⟨fails, ha, hl, hr, hlg⟩
      · left
        refine ⟨S.1 :: fails, ?_, by simp; omega, hr, ?_⟩
        · intro x hx
          rcases List.mem_cons.mp hx with rfl | hx
          · exact hz
          · exact ha x hx
        · rw [hlg, hlog]; simp
      · right
        refine ⟨S.1 :: fails, ?_, by simp [hl], ?_, ?_⟩
        · intro x hx
          rcases List.mem_cons.mp hx with rfl | hx
          · exact hz
          · exact ha x hx
        · intro _
          rcases Nat.eq_zero_or_pos n with h0 | hpos
          · subst h0; simpa [write_reg_retry_loop] using hio
          · exact hr hpos
        · rw [hlg, hlog]; simp

theorem write_list_run {σ : Type} (env : Env σ) (l : List isx031_reg) (is_retry : Bool) :
    ∀ w : World σ, ∃ ops,
      (isx031_write_reg_list env l is_retry w).2.log = w.log ++ ops ∧
      ListRun (attempt_limit is_retry) l ops (isx031_write_reg_list env l is_retry w).1 := by
  induction l with
  | nil => intro w; exact ⟨[], by simp [isx031_write_reg_list], by
      simp only [isx031_write_reg_list]; exact ListRun.done⟩
  | cons reg rest ih =>
    intro w
    simp only [isx031_write_reg_list, ISX031_REG_LEN_08BIT]
    by_cases hd : reg.mode = ISX031_REG_LEN_DELAY
    · simp only [hd, if_true]
      obtain ⟨ops, h1, h2⟩ := ih w
      exact ⟨ops, h1, ListRun.delay reg rest ops _ hd h2⟩
    · simp only [hd, if_false]
      have hstep : (∃ fails : List Int, (∀ x ∈ fails, x ≠ 3) ∧
            fails.length < attempt_limit is_retry ∧
            (if is_retry = true then isx031_write_reg_retry env reg.address 1 reg.val w
              else isx031_write_reg env reg.address 1 reg.val w).1 = 0 ∧
            (if is_retry = true then isx031_write_reg_retry env reg.address 1 reg.val w
              else isx031_write_reg env reg.address 1 reg.val w).2.log =
              w.log ++ (fails.map (wr_event reg.address reg.val) ++
                [wr_event reg.address reg.val 3])) ∨
          (∃ fails : List Int, (∀ x ∈ fails, x ≠ 3) ∧
            fails.length = attempt_limit is_retry ∧
            (if is_retry = true then isx031_write_reg_retry env reg.address 1 reg.val w
              else isx031_write_reg env reg.address 1 reg.val w).1 = - EIO_errno ∧
            (if is_retry = true then isx031_write_reg_retry env reg.address 1 reg.val w
              else isx031_write_reg env reg.address 1 reg.val w).2.log =
              w.log ++ fails.map (wr_event reg.address reg.val)) := by
        cases is_retry
        · have h := write_retry_run env reg.address reg.val 1 0 w
          simp only [write_reg_retry_loop] at h
          have hsame : (if (isx031_write_reg env reg.address 1 reg.val w).1 = 0 then
              ((0 : Int), (isx031_write_reg env reg.address 1 reg.val w).2)
              else ((isx031_write_reg env reg.address 1 reg.val w).1,
                (isx031_write_reg env reg.address 1 reg.val w).2)) =
              isx031_write_reg env reg.address 1 reg.val w := by
            split
            · rename_i h0; exact Prod.ext h0.symm rfl
            · rfl
          rw [hsame] at h
          rcases h with ⟨fails, ha, hl, hr, hlg⟩ | ⟨fails, ha, hl, hr, hlg⟩
          · left; exact ⟨fails, ha, by simpa [attempt_limit] using hl, by simpa using hr,
              by simpa using hlg⟩
          · right; exact ⟨fails, ha, by simpa [attempt_limit] using hl,
              by simpa using hr (by norm_num), by simpa using hlg⟩
        · have h := write_retry_run env reg.address reg.val ISX031_WRITE_REG_RETRY_TIMEOUT 0 w
          rcases h with ⟨fails, ha, hl, hr, hlg⟩ | ⟨fails, ha, hl, hr, hlg⟩
          · left; exact ⟨fails, ha, by simpa [attempt_limit] using hl,
              by simpa [isx031_write_reg_retry] using hr,
              by simpa [isx031_write_reg_retry] using hlg⟩
          · right; exact ⟨fails, ha, by simpa [attempt_limit] using hl,
              by simpa [isx031_write_reg_retry] using
                hr (by norm_num [ISX031_WRITE_REG_RETRY_TIMEOUT]),
              by simpa [isx031_write_reg_retry] using hlg⟩
      generalize (if is_retry = true then isx031_write_reg_retry env reg.address 1 reg.val w
              else isx031_write_reg env reg.address 1 reg.val w) = R at hstep ⊢
      rcases hstep with ⟨fails, ha, hl, hr, hlg⟩ | ⟨fails, ha, hl, hr, hlg⟩
      · simp only [hr, ne_eq, not_true_eq_false, if_false]
        obtain ⟨ops, h1, h2⟩ := ih R.2
        refine ⟨fails.map (wr_event reg.address reg.val) ++ wr_event reg.address reg.val 3 :: ops,
          ?_, ListRun.write_ok reg rest fails ops _ hd ha hl h2⟩
        rw [h1, hlg]; simp
      · have hne : R.1 ≠ 0 := by rw [hr]; simp [EIO_errno]
        simp only [hne, ne_eq, not_false_eq_true, if_true]
        refine ⟨fails.map (wr_event reg.address reg.val), hlg, ?_⟩
        rw [hr]
        exact ListRun.write_fail reg rest fails hd ha hl

/-! ## The first event of a state transition, and the steps of enabling -/

theorem read_loop_first {σ : Type} (env : Env σ) (reg n : Nat) (ret : Int) (val : Nat)
    (w : World σ) :
    ∃ e rest, (read_reg_otp_loop env reg (n + 1) ret val w).2.2.log = w.log ++ e :: rest ∧
      e.reads reg 1 = true := by
  obtain ⟨e, he, hr, -, -⟩ := read_reg_log env reg val w
  simp only [read_reg_otp_loop, ISX031_REG_LEN_08BIT]
  split
  · exact ⟨e, [], he, hr⟩
  · obtain ⟨ops, h1, -, -⟩ := read_loop_log env reg n (isx031_read_reg env reg 1 val w).1
      (isx031_read_reg env reg 1 val w).2.1 (isx031_read_reg env reg 1 val w).2.2
    exact ⟨e, ops, by rw [h1, he]; simp, hr⟩

theorem mode_transit_body_after_read {σ : Type} (env : Env σ) (s : isx031) (mode : Int)
    (w : World σ) :
    ∃ more, (mode_transit_body env s mode w).2.log =
      (isx031_read_reg_state env 0 w).2.2.log ++ more := by
  unfold mode_transit_body
  generalize isx031_read_reg_state env 0 w = R1
  by_cases h1 : R1.1 = 0
  swap
  · exact ⟨[], by simp [h1]⟩
  simp only [h1, ne_eq, not_true_eq_false, if_false]
  have hsd : ∃ m2, (isx031_set_drive_mode env s R1.2.2).2.log = R1.2.2.log ++ m2 := by
    rcases set_drive_mode_shape env s R1.2.2 with ⟨-, hl⟩ | ⟨c, r, hl, -⟩
    · exact ⟨[], by simp [hl]⟩
    · exact ⟨_, hl⟩
  obtain ⟨m2, h2⟩ := hsd
  generalize isx031_set_drive_mode env s R1.2.2 = R2 at h2 ⊢
  by_cases h2z : R2.1 = 0
  swap
  · exact ⟨m2, by simp [h2z, h2]⟩
  simp only [h2z, not_true_eq_false, if_false]
  obtain ⟨r3, h3, -⟩ := write_reg_one_shape env ISX031_REG_MODE_SET_F_LOCK
    ISX031_MODE_UNLOCK R2.2
  generalize isx031_write_reg env ISX031_REG_MODE_SET_F_LOCK 1 ISX031_MODE_UNLOCK R2.2 = R3
    at h3 ⊢
  by_cases h3z : R3.1 = 0
  swap
  · exact ⟨m2 ++ [wr_event ISX031_REG_MODE_SET_F_LOCK ISX031_MODE_UNLOCK r3],
      by simp [h3z, h3, h2]⟩
  simp only [h3z, not_true_eq_false, if_false]
  obtain ⟨r4, h4, -⟩ := write_reg_one_shape env ISX031_REG_MODE_SET_F mode.toNat R3.2
  generalize isx031_write_reg env ISX031_REG_MODE_SET_F 1 mode.toNat R3.2 = R4 at h4 ⊢
  by_cases h4z : R4.1 = 0
  swap
  · exact ⟨m2 ++ [wr_event ISX031_REG_MODE_SET_F_LOCK ISX031_MODE_UNLOCK r3,
      wr_event ISX031_REG_MODE_SET_F mode.toNat r4], by simp [h4z, h4, h3, h2]⟩
  simp only [h4z, not_true_eq_false, if_false]
  obtain ⟨rd2, h5, -, -⟩ :=
    read_loop_log env ISX031_REG_SENSOR_STATE ISX031_READ_REG_RETRY_TIMEOUT 0 R1.2.1 R4.2
  have h5' : (isx031_read_reg_state env R1.2.1 R4.2).2.2.log = R4.2.log ++ rd2 := h5
  refine ⟨m2 ++ [wr_event ISX031_REG_MODE_SET_F_LOCK ISX031_MODE_UNLOCK r3,
      wr_event ISX031_REG_MODE_SET_F mode.toNat r4] ++ rd2, ?_⟩
  split <;> simp [h5', h4, h3, h2]

theorem mode_transit_attempt {σ : Type} (env : Env σ) (s : isx031) (state : Nat)
    (w : World σ) (hstate : state = ISX031_STATE_STARTUP ∨ state = ISX031_STATE_STREAMING) :
    ∃ e rest, (isx031_mode_transit env s state w).2.log = w.log ++ e :: rest ∧
      e.reads ISX031_REG_SENSOR_STATE 1 = true := by
  have key : ∀ mode : Int, ∃ e rest, (mode_transit_body env s mode w).2.log =
      w.log ++ e :: rest ∧ e.reads ISX031_REG_SENSOR_STATE 1 = true := by
    intro mode
    obtain ⟨more, hm⟩ := mode_transit_body_after_read env s mode w
    obtain ⟨e, rest, he, hr⟩ := read_loop_first env ISX031_REG_SENSOR_STATE 49 0 0 w
    have he' : (isx031_read_reg_state env 0 w).2.2.log = w.log ++ e :: rest := he
    exact ⟨e, rest ++ more, by rw [hm, he']; simp, hr⟩
  unfold isx031_mode_transit
  rcases hstate with h | h
  · simp only [h, if_true]; exact key _
  · have hne : ¬ (ISX031_STATE_STREAMING = ISX031_STATE_STARTUP) := by decide
    simp only [h, hne, if_false, if_true]; exact key _

theorem start_streaming_steps {σ : Type} (env : Env σ) (s : isx031) (w : World σ) :
    isx031_start_streaming env s (enable_power env w).2 =
      if (enable_list env s w).1 ≠ 0 then enable_list env s w
      else if (enable_ctrl env s w).1 ≠ 0 then
        ((enable_ctrl env s w).1, (enable_list env s w).2.1, (enable_ctrl env s w).2)
      else ((enable_transit env s w).1, (enable_list env s w).2.1,
        (enable_transit env s w).2) := by
  have hl : isx031_start_streaming env s (enable_power env w).2 =
      (if (enable_list env s w).1 ≠ 0 then enable_list env s w
      else if (do_host env HostCall.v4l2_ctrl_handler_setup (enable_list env s w).2.2).1 ≠ 0 then
        ((do_host env HostCall.v4l2_ctrl_handler_setup (enable_list env s w).2.2).1,
          (enable_list env s w).2.1,
          (do_host env HostCall.v4l2_ctrl_handler_setup (enable_list env s w).2.2).2)
      else if (isx031_mode_transit env (enable_list env s w).2.1 ISX031_STATE_STREAMING
          (do_host env HostCall.v4l2_ctrl_handler_setup (enable_list env s w).2.2).2).1 ≠ 0 then
        ((isx031_mode_transit env (enable_list env s w).2.1 ISX031_STATE_STREAMING
          (do_host env HostCall.v4l2_ctrl_handler_setup (enable_list env s w).2.2).2).1,
         (enable_list env s w).2.1,
         (isx031_mode_transit env (enable_list env s w).2.1 ISX031_STATE_STREAMING
          (do_host env HostCall.v4l2_ctrl_handler_setup (enable_list env s w).2.2).2).2)
      else (0, (enable_list env s w).2.1,
         (isx031_mode_transit env (enable_list env s w).2.1 ISX031_STATE_STREAMING
          (do_host env HostCall.v4l2_ctrl_handler_setup (enable_list env s w).2.2).2).2)) := rfl
  rw [hl]
  unfold enable_transit enable_ctrl
  generalize enable_list env s w = L
  by_cases h1 : L.1 = 0
  swap
  · simp [h1]
  simp only [h1, ne_eq, not_true_eq_false, if_false]
  generalize do_host env HostCall.v4l2_ctrl_handler_setup L.2.2 = C
  by_cases h2 : C.1 = 0
  swap
  · simp [h2]
  simp only [h2, not_true_eq_false, if_false]
  generalize isx031_mode_transit env L.2.1 ISX031_STATE_STREAMING C.2 = T
  by_cases h3 : T.1 = 0
  · simp [h3]
  · simp [h3]

theorem enable_list_streaming {σ : Type} (env : Env σ) (s : isx031) (w : World σ) :
    (enable_list env s w).2.1.streaming = s.streaming := by
  unfold enable_list
  by_cases h : some s.cur_mode = s.pre_mode
  · simp [h]
  · by_cases h2 : (isx031_write_reg_list env (mode_at s.cur_mode).reg_list true
        (enable_power env w).2).1 = 0
    · simp [h, h2]
    · simp [h, h2]

theorem start_streaming_flag {σ : Type} (env : Env σ) (s : isx031) (w : World σ) :
    (isx031_start_streaming env s (enable_power env w).2).2.1.streaming = s.streaming := by
  rw [start_streaming_steps]
  have h := enable_list_streaming env s w
  split
  · exact h
  · split <;> exact h

theorem set_stream_on_eq {σ : Type} (env : Env σ) (s : isx031) (w : World σ)
    (hns : s.streaming = false) :
    isx031_set_stream env s 1 w =
      if (enable_power env w).1 < 0 then ((enable_power env w).1, s, (enable_power env w).2)
      else if (isx031_start_streaming env s (enable_power env w).2).1 ≠ 0 then
        ((isx031_start_streaming env s (enable_power env w).2).1,
         (isx031_start_streaming env s (enable_power env w).2).2.1,
         (do_host env HostCall.pm_runtime_put
          (isx031_mode_transit env (isx031_start_streaming env s (enable_power env w).2).2.1
            ISX031_STATE_STARTUP
            (isx031_start_streaming env s (enable_power env w).2).2.2).2).2)
      else (0, { (isx031_start_streaming env s (enable_power env w).2).2.1 with
                  streaming := true },
            (isx031_start_streaming env s (enable_power env w).2).2.2) := by
  simp [isx031_set_stream, hns, enable_power, isx031_stop_streaming]

/-! ## C11: the power-on loop of resume -/

/-- C11: with a reset line present, `isx031_resume` starts with polls of the
line, each driving it to 0 and then reading it.  Either fewer than 10 polls
read a non-zero level and the next one reads 0, and resume goes on with the
stages after power-on from the world right after that poll; or exactly 10
polls were made, all read a non-zero level, and resume returns `-ETIMEDOUT`
with the session unchanged and a log extended by those polls only, none of
which is a bus operation.  On the scripted reset line: nine asserted
readings then a deasserted one give ten polls and then a resume that
returns 0; ten asserted readings give `-ETIMEDOUT` after exactly ten polls
and nothing else in the log. -/
theorem C11_resume_power_on_loop {σ : Type} (env : Env σ) (s : isx031) (w : World σ)
    (hg : s.reset_gpio = true) :
    ((∃ (fails : List (Int × Int)) (rs : Int) (w1 : World σ),
        (∀ p ∈ fails, p.2 ≠ 0) ∧ fails.length < 10 ∧
        w1.log = w.log ++ fails.flatMap poll_events ++ poll_events (rs, 0) ∧
        isx031_resume env s w = resume_after_power env s w1) ∨
      (∃ fails : List (Int × Int), (∀ p ∈ fails, p.2 ≠ 0) ∧ fails.length = 10 ∧
        (isx031_resume env s w).1 = -ETIMEDOUT ∧ (isx031_resume env s w).2.1 = s ∧
        (isx031_resume env s w).2.2.log = w.log ++ fails.flatMap poll_events ∧
        ∀ e ∈ fails.flatMap poll_events, e.is_host = true)) ∧
    ((isx031_resume gpio_script_env mock_session
        ⟨(mock_store_startup, reset_line_late), []⟩).1 = 0 ∧
      (isx031_resume gpio_script_env mock_session
        ⟨(mock_store_startup, reset_line_late), []⟩).2.2.log.take 20 =
        (List.replicate 9 ((0 : Int), (1 : Int))).flatMap poll_events ++ poll_events (0, 0) ∧
      ((isx031_resume gpio_script_env mock_session
        ⟨(mock_store_startup, reset_line_late), []⟩).2.2.log.drop 20).all
          (fun e => ! e.is_host) = true) ∧
    ((isx031_resume gpio_script_env mock_session
        ⟨(mock_store_startup, reset_line_stuck), []⟩).1 = -ETIMEDOUT ∧
      (isx031_resume gpio_script_env mock_session
        ⟨(mock_store_startup, reset_line_stuck), []⟩).2.2.log =
        (List.replicate 10 ((0 : Int), (1 : Int))).flatMap poll_events) := by
  refine ⟨?_, by decide, by decide⟩
  unfold isx031_resume
  simp only [hg, if_true, ISX031_PM_RETRY_TIMEOUT]
  rcases resume_power_loop_spec env 10 0 w with
    ⟨fails, rs, ha, hl, hr, hlg⟩ | ⟨fails, ha, hl, hr, hlg⟩
  · left
    refine ⟨fails, rs, (resume_power_loop env 10 0 w).2, ha, hl, hlg, ?_⟩
    simp [hr]
  · right
    have hne := hr (by norm_num)
    refine ⟨fails, ha, hl, ?_, ?_, ?_, poll_events_host fails⟩
    · simp [hne]
    · simp [hne]
    · simp [hne, hlg]

/-- The power-on loop on the scripted reset line that stays asserted: the
second alternative of C11 holds with ten polls. -/
theorem C11_resume_power_on_loop_witness :
    mock_session.reset_gpio = true ∧
    (isx031_resume gpio_script_env mock_session
      ⟨(mock_store_startup, reset_line_stuck), []⟩).1 = -ETIMEDOUT ∧
    ((∃ (fails : List (Int × Int)) (rs : Int) (w1 : World (MockStore × List Int)),
        (∀ p ∈ fails, p.2 ≠ 0) ∧ fails.length < 10 ∧
        w1.log = ([] : List Event) ++ fails.flatMap poll_events ++ poll_events (rs, 0) ∧
        isx031_resume gpio_script_env mock_session
          ⟨(mock_store_startup, reset_line_stuck), []⟩ =
          resume_after_power gpio_script_env mock_session w1) ∨
      (∃ fails : List (Int × Int), (∀ p ∈ fails, p.2 ≠ 0) ∧ fails.length = 10 ∧
        (isx031_resume gpio_script_env mock_session
          ⟨(mock_store_startup, reset_line_stuck), []⟩).1 = -ETIMEDOUT ∧
        (isx031_resume gpio_script_env mock_session
          ⟨(mock_store_startup, reset_line_stuck), []⟩).2.1 = mock_session ∧
        (isx031_resume gpio_script_env mock_session
          ⟨(mock_store_startup, reset_line_stuck), []⟩).2.2.log =
          ([] : List Event) ++ fails.flatMap poll_events ∧
        ∀ e ∈ fails.flatMap poll_events, e.is_host = true)) :=
  ⟨rfl, by decide,
    (C11_resume_power_on_loop gpio_script_env mock_session
      ⟨(mock_store_startup, reset_line_stuck), []⟩ rfl).1⟩

/-! ## C13: the bytes of a register write -/

/-- C13: for every address, every length from 1 to 4 and every value,
`isx031_write_reg` makes exactly one bus send, of `len + 2` bytes: the
address as two big-endian bytes, then the low `len` bytes of the value, most
significant first.  It returns 0 exactly when the adapter reports `len + 2`
bytes sent, and `-EIO` otherwise. -/
theorem C13_write_reg_wire_format {σ : Type} (env : Env σ) (reg len val : Nat)
    (w : World σ) (hlen : 1 ≤ len ∧ len ≤ 4) :
    (put_unaligned_be16 reg ++ low_bytes_be len val).length = len + 2 ∧
    (isx031_write_reg env reg len val w).2.log = w.log ++
      [Event.send (put_unaligned_be16 reg ++ low_bytes_be len val)
        (env.i2c_master_send w.hw (put_unaligned_be16 reg ++ low_bytes_be len val)).1] ∧
    ((isx031_write_reg env reg len val w).1 = 0 ↔
      (env.i2c_master_send w.hw (put_unaligned_be16 reg ++ low_bytes_be len val)).1 =
        ((len + 2 : Nat) : Int)) ∧
    ((isx031_write_reg env reg len val w).1 ≠ 0 →
      (isx031_write_reg env reg len val w).1 = - EIO_errno) := by
  have hb := write_reg_buf_low_bytes reg len val hlen
  have hl := write_reg_buf_length reg len val hlen.2
  rw [write_reg_eq env reg len val w hlen.2, hb]
  rw [hb] at hl
  refine ⟨hl, rfl, ?_, ?_⟩
  · by_cases hc : (env.i2c_master_send w.hw
        (put_unaligned_be16 reg ++ low_bytes_be len val)).1 = ((len + 2 : Nat) : Int)
    · simp [hc]
    · simp [hc, EIO_errno]
  · by_cases hc : (env.i2c_master_send w.hw
        (put_unaligned_be16 reg ++ low_bytes_be len val)).1 = ((len + 2 : Nat) : Int)
    · intro h; simp [hc] at h
    · intro _; simp only [hc, if_false]

/-- A three-byte write of 0x12345678 to 0x8A01: the bytes sent are
8A 01 34 56 78; it succeeds on the mock sensor and fails with `-EIO` on
the dead bus. -/
theorem C13_write_reg_wire_format_witness :
    put_unaligned_be16 0x8A01 ++ low_bytes_be 3 0x12345678 = [0x8A, 0x01, 0x34, 0x56, 0x78] ∧
    (isx031_write_reg mock_env 0x8A01 3 0x12345678 mock_world_startup).1 = 0 ∧
    (isx031_write_reg dead_env 0x8A01 3 0x12345678 ⟨(), []⟩).1 = - EIO_errno ∧
    (isx031_write_reg dead_env 0x8A01 3 0x12345678 ⟨(), []⟩).2.log =
      [Event.send [0x8A, 0x01, 0x34, 0x56, 0x78] (-121)] :=
  ⟨by decide, by decide,
    (C13_write_reg_wire_format dead_env 0x8A01 3 0x12345678 ⟨(), []⟩
      ⟨by decide, by decide⟩).2.2.2 (by decide),
    (C13_write_reg_wire_format dead_env 0x8A01 3 0x12345678 ⟨(), []⟩
      ⟨by decide, by decide⟩).2.1⟩

/-! ## C16: disabling the stream -/

/-- C16: for every streaming session and every environment,
`isx031_set_stream` with `enable = 0` returns 0 and leaves the streaming
flag false, whatever the transition to startup returned; `cur_mode` and
`pre_mode` (and every other field) are unchanged.  The world after it is
the one left by the transition to startup followed by the runtime-power
release. -/
theorem C16_disable_clears_streaming {σ : Type} (env : Env σ) (s : isx031) (w : World σ)
    (hst : s.streaming = true) :
    (isx031_set_stream env s 0 w).1 = 0 ∧
    (isx031_set_stream env s 0 w).2.1.streaming = false ∧
    (isx031_set_stream env s 0 w).2.1.cur_mode = s.cur_mode ∧
    (isx031_set_stream env s 0 w).2.1.pre_mode = s.pre_mode ∧
    (isx031_set_stream env s 0 w).2.1 = { s with streaming := false } ∧
    (isx031_set_stream env s 0 w).2.2 =
      (do_host env HostCall.pm_runtime_put
        (isx031_mode_transit env s ISX031_STATE_STARTUP w).2).2 := by
  simp [isx031_set_stream, hst, isx031_stop_streaming]

/-- On the dead bus the transition to startup fails, and disabling the
streaming session still clears the flag and keeps both modes. -/
theorem C16_disable_clears_streaming_witness :
    mock_session_streaming.streaming = true ∧
    (isx031_mode_transit dead_env mock_session_streaming ISX031_STATE_STARTUP
      ⟨(), []⟩).1 ≠ 0 ∧
    (isx031_set_stream dead_env mock_session_streaming 0 ⟨(), []⟩).2.1.streaming = false ∧
    (isx031_set_stream dead_env mock_session_streaming 0 ⟨(), []⟩).2.1.cur_mode =
      mock_session_streaming.cur_mode ∧
    (isx031_set_stream dead_env mock_session_streaming 0 ⟨(), []⟩).2.1.pre_mode =
      mock_session_streaming.pre_mode :=
  ⟨rfl, by decide,
    (C16_disable_clears_streaming dead_env mock_session_streaming ⟨(), []⟩ rfl).2.1,
    (C16_disable_clears_streaming dead_env mock_session_streaming ⟨(), []⟩ rfl).2.2.1,
    (C16_disable_clears_streaming dead_env mock_session_streaming ⟨(), []⟩ rfl).2.2.2.1⟩

/-! ## Consequences of a register-list run -/

theorem wr_event_send_ok (reg val : Nat) (x : Int) :
    (wr_event reg val x).send_ok = decide (x = 3) := by
  simp [wr_event, Event.send_ok, write_reg_buf_one]
  rfl

theorem filter_send_ok_fails (reg val : Nat) (fails : List Int) (h : ∀ x ∈ fails, x ≠ 3) :
    (fails.map (wr_event reg val)).filter Event.send_ok = [] := by
  rw [List.filter_eq_nil_iff]
  intro e he
  obtain ⟨x, hx, rfl⟩ := List.mem_map.mp he
  simp [wr_event_send_ok, h x hx]

theorem list_events_cons_delay (r : isx031_reg) (rest : List isx031_reg)
    (h : r.mode = ISX031_REG_LEN_DELAY) : list_events (r :: rest) = list_events rest := by
  simp [list_events, h]

theorem list_events_cons_write (r : isx031_reg) (rest : List isx031_reg)
    (h : r.mode ≠ ISX031_REG_LEN_DELAY) :
    list_events (r :: rest) = wr_event r.address r.val 3 :: list_events rest := by
  simp [list_events, h]

theorem list_run_ok {limit : Nat} {l : List isx031_reg} {ops : List Event} {ret : Int}
    (h : ListRun limit l ops ret) (h0 : ret = 0) :
    ops.filter Event.send_ok = list_events l := by
  induction h with
  | done => rfl
  | delay r rest ops ret hd _ ih => rw [list_events_cons_delay r rest hd]; exact ih h0
  | write_ok r rest fails ops ret hd hf _ _ ih =>
    rw [list_events_cons_write r rest hd, List.filter_append,
      filter_send_ok_fails _ _ fails hf, List.nil_append, List.filter_cons]
    simp [wr_event_send_ok, ih h0]
  | write_fail r rest fails hd hf hl => simp [EIO_errno] at h0

theorem list_run_fail {limit : Nat} {l : List isx031_reg} {ops : List Event} {ret : Int}
    (h : ListRun limit l ops ret) (hne : ret ≠ 0) :
    ret = - EIO_errno ∧
    ∃ (pre : List isx031_reg) (r : isx031_reg) (post : List isx031_reg)
      (fails : List Int) (ops_pre : List Event),
      l = pre ++ r :: post ∧ r.mode ≠ ISX031_REG_LEN_DELAY ∧
      (∀ x ∈ fails, x ≠ 3) ∧ fails.length = limit ∧
      ops = ops_pre ++ fails.map (wr_event r.address r.val) ∧
      ListRun limit pre ops_pre 0 ∧
      ops_pre.filter Event.send_ok = list_events pre := by
  induction h with
  | done => exact absurd rfl hne
  | delay r rest ops ret hd _ ih =>
    obtain ⟨he, pre, r1, post, fails, ops_pre, hl, hm, hf, hlen, hops, hrun, hfil⟩ := ih hne
    refine ⟨he, r :: pre, r1, post, fails, ops_pre, by simp [hl], hm, hf, hlen, hops,
      ListRun.delay r pre ops_pre 0 hd hrun, ?_⟩
    rw [list_events_cons_delay r pre hd]; exact hfil
  | write_ok r rest fails0 ops ret hd hf0 hl0 _ ih =>
    obtain ⟨he, pre, r1, post, fails, ops_pre, hl, hm, hf, hlen, hops, hrun, hfil⟩ := ih hne
    refine ⟨he, r :: pre, r1, post, fails,
      fails0.map (wr_event r.address r.val) ++ wr_event r.address r.val 3 :: ops_pre,
      by simp [hl], hm, hf, hlen, by simp [hops],
      ListRun.write_ok r pre fails0 ops_pre 0 hd hf0 hl0 hrun, ?_⟩
    rw [list_events_cons_write r pre hd, List.filter_append,
      filter_send_ok_fails _ _ fails0 hf0, List.nil_append, List.filter_cons]
    simp [wr_event_send_ok, hfil]
  | write_fail r rest fails hd hf hl =>
    exact ⟨rfl, [], r, rest, fails, [], rfl, hd, hf, hl, rfl, ListRun.done, rfl⟩

/-! ## C12: the application of a register list -/

/-- C12: for every register list, both values of `is_retry` and every
environment, the events `isx031_write_reg_list` adds to the log form a run
of the list (`ListRun`): entries are taken in list order, a delay entry logs
nothing, and a write entry logs sends of the three bytes address-high,
address-low, value (a one-byte write), repeated until one goes through, at
most 100 times with retry and once without.  If the result is 0, the sends
that went through are exactly the list's writes, one each, in list order.
If the result is not 0 it is `-EIO`, the error of a write entry `r` whose
every attempt failed: the entries before `r` were run to the end with each
of their writes sent through once in order, and after the failed attempts
on `r` nothing is logged for the entries behind it. -/
theorem C12_write_reg_list_in_order {σ : Type} (env : Env σ) (l : List isx031_reg)
    (is_retry : Bool) (w : World σ) :
    attempt_limit true = 100 ∧ attempt_limit false = 1 ∧
    (∀ (a v : Nat) (x : Int),
      wr_event a v x = Event.send [(a / 256) % 256, a % 256, v % 256] x) ∧
    ∃ ops, (isx031_write_reg_list env l is_retry w).2.log = w.log ++ ops ∧
      ListRun (attempt_limit is_retry) l ops (isx031_write_reg_list env l is_retry w).1 ∧
      ((isx031_write_reg_list env l is_retry w).1 = 0 →
        ops.filter Event.send_ok = list_events l) ∧
      ((isx031_write_reg_list env l is_retry w).1 ≠ 0 →
        (isx031_write_reg_list env l is_retry w).1 = - EIO_errno ∧
        ∃ (pre : List isx031_reg) (r : isx031_reg) (post : List isx031_reg)
          (fails : List Int) (ops_pre : List Event),
          l = pre ++ r :: post ∧ r.mode ≠ ISX031_REG_LEN_DELAY ∧
          (∀ x ∈ fails, x ≠ 3) ∧ fails.length = attempt_limit is_retry ∧
          ops = ops_pre ++ fails.map (wr_event r.address r.val) ∧
          ListRun (attempt_limit is_retry) pre ops_pre 0 ∧
          ops_pre.filter Event.send_ok = list_events pre) := by
  refine ⟨rfl, rfl, fun a v x => by simp [wr_event, write_reg_buf_one], ?_⟩
  obtain ⟨ops, hlog, hrun⟩ := write_list_run env l is_retry w
  exact ⟨ops, hlog, hrun, list_run_ok hrun, list_run_fail hrun⟩

set_option maxRecDepth 4000

/-- The 1920x1536 list on the mock sensor (all writes go through, result 0,
the log is the list's writes) and on the dead bus with retry (result `-EIO`
after 100 failed sends of the first write and nothing else). -/
theorem C12_write_reg_list_in_order_witness :
    (isx031_write_reg_list mock_env isx031_1920_1536_30fps_reg true mock_world_startup).1 = 0 ∧
    (isx031_write_reg_list mock_env isx031_1920_1536_30fps_reg true
      mock_world_startup).2.log = list_events isx031_1920_1536_30fps_reg ∧
    (isx031_write_reg_list dead_env isx031_1920_1536_30fps_reg true ⟨(), []⟩).1
      = - EIO_errno ∧
    (isx031_write_reg_list dead_env isx031_1920_1536_30fps_reg true ⟨(), []⟩).2.log =
      List.replicate 100 (Event.send [0x8A, 0xA8, 0x01] (-121)) ∧
    (isx031_write_reg_list dead_env isx031_1920_1536_30fps_reg false ⟨(), []⟩).2.log =
      [Event.send [0x8A, 0xA8, 0x01] (-121)] := by
  have h := C12_write_reg_list_in_order dead_env isx031_1920_1536_30fps_reg true ⟨(), []⟩
  obtain ⟨-, -, -, ops, -, -, -, hfail⟩ := h
  exact ⟨by decide, by decide, (hfail (by decide)).1, by decide, by decide⟩

/-! ## Failure of enabling -/

theorem start_streaming_session {σ : Type} (env : Env σ) (s : isx031) (w : World σ) :
    (isx031_start_streaming env s (enable_power env w).2).2.1 = (enable_list env s w).2.1 := by
  rw [start_streaming_steps]
  split
  · rfl
  · split <;> rfl

theorem start_streaming_status {σ : Type} (env : Env σ) (s : isx031) (w : World σ) :
    (isx031_start_streaming env s (enable_power env w).2).1 =
      if (enable_list env s w).1 ≠ 0 then (enable_list env s w).1
      else if (enable_ctrl env s w).1 ≠ 0 then (enable_ctrl env s w).1
      else (enable_transit env s w).1 := by
  rw [start_streaming_steps]
  split
  · rfl
  · split <;> rfl

theorem start_streaming_failed_step {σ : Type} (env : Env σ) (s : isx031) (w : World σ)
    (hfail : (isx031_start_streaming env s (enable_power env w).2).1 ≠ 0) :
    ((enable_list env s w).1 ≠ 0 ∧
      (isx031_start_streaming env s (enable_power env w).2).2.2 = (enable_list env s w).2.2) ∨
    ((enable_list env s w).1 = 0 ∧ (enable_ctrl env s w).1 ≠ 0 ∧
      (isx031_start_streaming env s (enable_power env w).2).2.2 = (enable_ctrl env s w).2) ∨
    ((enable_list env s w).1 = 0 ∧ (enable_ctrl env s w).1 = 0 ∧
      (enable_transit env s w).1 ≠ 0 ∧
      (isx031_start_streaming env s (enable_power env w).2).2.2 =
        (enable_transit env s w).2) := by
  rw [start_streaming_steps] at hfail ⊢
  by_cases h1 : (enable_list env s w).1 = 0
  · by_cases h2 : (enable_ctrl env s w).1 = 0
    · right; right
      simp only [h1, h2, ne_eq, not_true_eq_false, if_false] at hfail ⊢
      exact ⟨trivial, trivial, hfail, trivial⟩
    · right; left
      simp only [h1, h2, ne_eq, not_true_eq_false, not_false_eq_true, if_false, if_true]
      exact ⟨trivial, trivial, trivial⟩
  · left
    simp only [h1, ne_eq, not_false_eq_true, if_true]
    exact ⟨trivial, trivial⟩

/-! ## C14: the compensating transition when enabling fails -/

/-- C14 as stated fails for the runtime-power-acquire step: on the mock
sensor whose `pm_runtime_resume_and_get` fails with -13, enabling the stream
on a non-streaming session returns -13 and the only event logged is that
host call; no transition to startup (no bus operation at all) is
attempted. -/
theorem C14_power_failure_no_transition :
    mock_session.streaming = false ∧
    (isx031_set_stream (host_fail_env HostCall.pm_runtime_resume_and_get (-13))
      mock_session 1 mock_world_startup).1 = -13 ∧
    (isx031_set_stream (host_fail_env HostCall.pm_runtime_resume_and_get (-13))
      mock_session 1 mock_world_startup).2.2.log =
      [Event.host HostCall.pm_runtime_resume_and_get (-13)] := by
  decide

/-- C14 (amended): let `isx031_set_stream` with `enable = 1` run on a
non-streaming session.  If runtime-power acquire fails (negative status),
the call returns at once: the world is the one left by that host call and
its log gained that one event only, so no transition is attempted.  If
power acquire succeeds and the call fails, then the failing step is the
register-list application, the control push or the transition to streaming,
and from the world `wf` that step left the driver runs the transition to
startup and then the runtime-power release: the log continues after `wf`
with a read of the sensor-state register, the first operation of a
transition, and ends with the `pm_runtime_put` call. -/
theorem C14_enable_failure_compensation {σ : Type} (env : Env σ) (s : isx031)
    (w : World σ) (hns : s.streaming = false) :
    ((enable_power env w).1 < 0 →
      (isx031_set_stream env s 1 w).2.2 = (enable_power env w).2 ∧
      (isx031_set_stream env s 1 w).2.2.log =
        w.log ++ [Event.host HostCall.pm_runtime_resume_and_get (enable_power env w).1]) ∧
    (¬ (enable_power env w).1 < 0 → (isx031_set_stream env s 1 w).1 ≠ 0 →
      ∃ (wf : World σ) (e : Event) (rest : List Event) (r : Int),
        (((enable_list env s w).1 ≠ 0 ∧ wf = (enable_list env s w).2.2) ∨
         ((enable_list env s w).1 = 0 ∧ (enable_ctrl env s w).1 ≠ 0 ∧
            wf = (enable_ctrl env s w).2) ∨
         ((enable_list env s w).1 = 0 ∧ (enable_ctrl env s w).1 = 0 ∧
            (enable_transit env s w).1 ≠ 0 ∧ wf = (enable_transit env s w).2)) ∧
        (isx031_set_stream env s 1 w).2.2 =
          (do_host env HostCall.pm_runtime_put
            (isx031_mode_transit env (enable_list env s w).2.1
              ISX031_STATE_STARTUP wf).2).2 ∧
        (isx031_set_stream env s 1 w).2.2.log =
          wf.log ++ e :: rest ++ [Event.host HostCall.pm_runtime_put r] ∧
        e.reads ISX031_REG_SENSOR_STATE 1 = true) := by
  rw [set_stream_on_eq env s w hns]
  refine ⟨?_, ?_⟩
  · intro hp
    simp only [hp, if_true]
    exact ⟨trivial, rfl⟩
  · intro hp hfail
    simp only [hp, if_false] at hfail ⊢
    have hss : (isx031_start_streaming env s (enable_power env w).2).1 ≠ 0 := by
      intro h0
      simp [h0] at hfail
    simp only [hss, ne_eq, not_false_eq_true, if_true]
    have hstep := start_streaming_failed_step env s w hss
    rw [start_streaming_session]
    generalize (isx031_start_streaming env s (enable_power env w).2).2.2 = wf at hstep ⊢
    obtain ⟨e, rest, hlog, hr⟩ := mode_transit_attempt env (enable_list env s w).2.1
      ISX031_STATE_STARTUP wf (Or.inl rfl)
    refine ⟨wf, e, rest, (do_host env HostCall.pm_runtime_put
      (isx031_mode_transit env (enable_list env s w).2.1 ISX031_STATE_STARTUP wf).2).1,
      hstep, rfl, ?_, hr⟩
    rw [do_host_log, hlog]

/-- On the mock sensor whose control push fails with -12 the enable of
`mock_session` fails; the log after the failed control push goes on with the
read of the state register that opens the transition to startup and ends
with the power release. -/
theorem C14_enable_failure_compensation_witness :
    mock_session.streaming = false ∧
    (isx031_set_stream (host_fail_env HostCall.v4l2_ctrl_handler_setup (-12))
      mock_session 1 mock_world_startup).1 = -12 ∧
    ∃ (e : Event) (rest : List Event) (r : Int),
      (isx031_set_stream (host_fail_env HostCall.v4l2_ctrl_handler_setup (-12))
        mock_session 1 mock_world_startup).2.2.log =
        (enable_ctrl (host_fail_env HostCall.v4l2_ctrl_handler_setup (-12))
          mock_session mock_world_startup).2.log ++
          e :: rest ++ [Event.host HostCall.pm_runtime_put r] ∧
      e.reads ISX031_REG_SENSOR_STATE 1 = true := by
  obtain ⟨wf, e, rest, r, hstep, -, hlog, hr⟩ :=
    (C14_enable_failure_compensation (host_fail_env HostCall.v4l2_ctrl_handler_setup (-12))
      mock_session mock_world_startup rfl).2 (by decide) (by decide)
  have hwf : wf = (enable_ctrl (host_fail_env HostCall.v4l2_ctrl_handler_setup (-12))
      mock_session mock_world_startup).2 := by
    rcases hstep with ⟨h, -⟩ | ⟨-, -, h⟩ | ⟨-, h, -⟩
    · exact absurd (by decide) h
    · exact h
    · exact absurd h (by decide)
  rw [hwf] at hlog
  exact ⟨rfl, by decide, e, rest, r, hlog, hr⟩

/-! ## C15: the value returned when enabling fails -/

/-- C15: on a non-streaming session the status of `isx031_set_stream` with
`enable = 1` is determined by the enable steps alone: the status of the
power acquire if that is negative, else the status of the register-list
application if that is not 0, else that of the control push if not 0, else
that of the transition to streaming.  The status of the compensating
transition to startup does not enter.  Whenever the call fails, the
streaming flag of the session it leaves is still false. -/
theorem C15_enable_failure_returns_step_error {σ : Type} (env : Env σ) (s : isx031)
    (w : World σ) (hns : s.streaming = false) :
    (isx031_set_stream env s 1 w).1 =
      (if (enable_power env w).1 < 0 then (enable_power env w).1
       else if (enable_list env s w).1 ≠ 0 then (enable_list env s w).1
       else if (enable_ctrl env s w).1 ≠ 0 then (enable_ctrl env s w).1
       else (enable_transit env s w).1) ∧
    ((isx031_set_stream env s 1 w).1 ≠ 0 →
      (isx031_set_stream env s 1 w).2.1.streaming = false) := by
  rw [set_stream_on_eq env s w hns]
  by_cases hp : (enable_power env w).1 < 0
  · simp only [hp, if_true]
    exact ⟨trivial, fun _ => hns⟩
  · simp only [hp, if_false]
    have hst := start_streaming_status env s w
    have hfl := start_streaming_flag env s w
    by_cases hss : (isx031_start_streaming env s (enable_power env w).2).1 = 0
    · simp only [hss, ne_eq, not_true_eq_false, if_false]
      exact ⟨by rw [← hst, hss], fun h => h.elim⟩
    · simp only [hss, ne_eq, not_false_eq_true, if_true]
      exact ⟨hst, fun _ => by rw [hfl, hns]⟩

/-- The control push fails with -12 on two mock sensors: on the first the
compensating transition to startup succeeds, on the second (reads fail) it
fails.  Enabling returns -12 on both and leaves the flag false. -/
theorem C15_enable_failure_returns_step_error_witness :
    mock_session.streaming = false ∧
    (isx031_mode_transit (host_fail_env HostCall.v4l2_ctrl_handler_setup (-12))
      (enable_list (host_fail_env HostCall.v4l2_ctrl_handler_setup (-12))
        mock_session mock_world_startup).2.1 ISX031_STATE_STARTUP
      (enable_ctrl (host_fail_env HostCall.v4l2_ctrl_handler_setup (-12))
        mock_session mock_world_startup).2).1 = 0 ∧
    (isx031_set_stream (host_fail_env HostCall.v4l2_ctrl_handler_setup (-12))
      mock_session 1 mock_world_startup).1 = -12 ∧
    (isx031_mode_transit (deaf_host_fail_env HostCall.v4l2_ctrl_handler_setup (-12))
      (enable_list (deaf_host_fail_env HostCall.v4l2_ctrl_handler_setup (-12))
        mock_session mock_world_startup).2.1 ISX031_STATE_STARTUP
      (enable_ctrl (deaf_host_fail_env HostCall.v4l2_ctrl_handler_setup (-12))
        mock_session mock_world_startup).2).1 = - EIO_errno ∧
    (isx031_set_stream (deaf_host_fail_env HostCall.v4l2_ctrl_handler_setup (-12))
      mock_session 1 mock_world_startup).1 = -12 ∧
    (isx031_set_stream (deaf_host_fail_env HostCall.v4l2_ctrl_handler_setup (-12))
      mock_session 1 mock_world_startup).2.1.streaming = false :=
  ⟨rfl, by decide, by decide, by decide, by decide,
    (C15_enable_failure_returns_step_error
      (deaf_host_fail_env HostCall.v4l2_ctrl_handler_setup (-12))
      mock_session mock_world_startup rfl).2 (by decide)⟩

/-! ## C17: format selection -/

theorem mode_at_mem (i : Fin 3) : mode_at i ∈ supported_modes := by
  fin_cases i <;> simp [mode_at, supported_modes]

theorem set_format_find_sound (code width height : Nat) :
    (∀ i, set_format_find code width height [0, 1, 2] = some i →
      (mode_at i).code = code ∧ (mode_at i).width = width ∧ (mode_at i).height = height) ∧
    (∀ j : Fin 3, (mode_at j).code = code ∧ (mode_at j).width = width ∧
        (mode_at j).height = height →
      set_format_find code width height [0, 1, 2] = some j) ∧
    (set_format_find code width height [0, 1, 2] = none →
      ∀ j : Fin 3, ¬ ((mode_at j).code = code ∧ (mode_at j).width = width ∧
        (mode_at j).height = height)) := by
  have hall : ∀ j : Fin 3, (mode_at j).code = code ∧ (mode_at j).width = width ∧
        (mode_at j).height = height →
      set_format_find code width height [0, 1, 2] = some j := by
    intro j hj
    obtain ⟨hc, hw, hh⟩ := hj
    subst hc hw hh
    fin_cases j <;> decide
  refine ⟨?_, hall, ?_⟩
  · intro i h
    simp only [set_format_find] at h
    split_ifs at h with h0 h1 h2
    · cases h; exact h0
    · cases h; exact h1
    · cases h; exact h2
  · intro h j hj
    rw [hall j hj] at h
    cases h

/-- C17: for every session and every request, `isx031_set_format` returns 0
and selects an index `i` of `supported_modes`: if some catalog mode has the
requested code, width and height, `i` is that mode; if none has, `i` is 0,
the 1920x1536 mode.  The returned format carries the width, height and code
of mode `i` and keeps `which`.  A try request leaves the session as it was;
any other request sets `cur_mode` to `i` and changes nothing else, so
`pre_mode` and the streaming flag are unchanged and `cur_mode` is an entry
of `supported_modes`.  As a call of the session it leaves the world, bus
log included, as it was, in every environment. -/
theorem C17_set_format_selects_catalog_mode (s : isx031) (fmt : v4l2_subdev_format) :
    (isx031_set_format s fmt).1 = 0 ∧
    (∃ i : Fin 3,
      (∀ j : Fin 3, (mode_at j).code = fmt.code ∧ (mode_at j).width = fmt.width ∧
          (mode_at j).height = fmt.height → i = j) ∧
      ((∀ j : Fin 3, ¬ ((mode_at j).code = fmt.code ∧ (mode_at j).width = fmt.width ∧
          (mode_at j).height = fmt.height)) → i = 0) ∧
      (i = 0 ∨ ((mode_at i).code = fmt.code ∧ (mode_at i).width = fmt.width ∧
          (mode_at i).height = fmt.height)) ∧
      (isx031_set_format s fmt).2.1 =
        ⟨fmt.which, (mode_at i).code, (mode_at i).width, (mode_at i).height⟩ ∧
      (isx031_set_format s fmt).2.2 =
        (if fmt.which = V4L2_SUBDEV_FORMAT_TRY then s else { s with cur_mode := i })) ∧
    ((mode_at 0).width = 1920 ∧ (mode_at 0).height = 1536) ∧
    mode_at (isx031_set_format s fmt).2.2.cur_mode ∈ supported_modes ∧
    (isx031_set_format s fmt).2.2.pre_mode = s.pre_mode ∧
    (isx031_set_format s fmt).2.2.streaming = s.streaming ∧
    (∀ {σ : Type} (env : Env σ) (w : World σ),
      (run_call env (Call.set_format fmt) (s, w)).1 = 0 ∧
      (run_call env (Call.set_format fmt) (s, w)).2.2 = w) := by
  obtain ⟨hsome, hall, hnone⟩ := set_format_find_sound fmt.code fmt.width fmt.height
  have hret : (isx031_set_format s fmt).1 = 0 := by
    unfold isx031_set_format; split_ifs <;> rfl
  have hpre : (isx031_set_format s fmt).2.2.pre_mode = s.pre_mode := by
    unfold isx031_set_format; split_ifs <;> rfl
  have hstr : (isx031_set_format s fmt).2.2.streaming = s.streaming := by
    unfold isx031_set_format; split_ifs <;> rfl
  refine ⟨hret, ?_, ⟨rfl, rfl⟩, mode_at_mem _, hpre, hstr, fun env w => ⟨hret, rfl⟩⟩
  cases hf : set_format_find fmt.code fmt.width fmt.height [0, 1, 2] with
  | none =>
    refine ⟨0, fun j hj => absurd hj (hnone hf j), fun _ => rfl, Or.inl rfl, ?_, ?_⟩
    · unfold isx031_set_format isx031_update_pad_format
      simp only [hf]; split_ifs <;> rfl
    · unfold isx031_set_format
      simp only [hf]; split_ifs <;> rfl
  | some i =>
    refine ⟨i, fun j hj => ?_, fun h => absurd (hsome i hf) (h i), Or.inr (hsome i hf),
      ?_, ?_⟩
    · have := hall j hj
      rw [hf] at this
      exact Option.some.inj this
    · unfold isx031_set_format isx031_update_pad_format
      simp only [hf]; split_ifs <;> rfl
    · unfold isx031_set_format
      simp only [hf]; split_ifs <;> rfl

/-- An active 1920x1080 request selects catalog entry 1; an active 640x480
request, which matches no entry, selects entry 0; a try request leaves
`cur_mode` alone.  None of them touches `pre_mode`. -/
theorem C17_set_format_selects_catalog_mode_witness :
    (isx031_set_format mock_session_streaming fmt_1920_1080).1 = 0 ∧
    (isx031_set_format mock_session_streaming fmt_1920_1080).2.2.cur_mode = 1 ∧
    (isx031_set_format mock_session_streaming fmt_1920_1080).2.2.pre_mode = some 0 ∧
    (isx031_set_format mock_session_streaming fmt_1920_1080).2.2.streaming = true ∧
    (isx031_set_format { mock_session with cur_mode := 2 }
      ⟨V4L2_SUBDEV_FORMAT_ACTIVE, MEDIA_BUS_FMT_UYVY8_1X16, 640, 480⟩).2.2.cur_mode = 0 ∧
    (isx031_set_format { mock_session with cur_mode := 2 }
      ⟨V4L2_SUBDEV_FORMAT_ACTIVE, MEDIA_BUS_FMT_UYVY8_1X16, 640, 480⟩).2.1 =
      ⟨V4L2_SUBDEV_FORMAT_ACTIVE, MEDIA_BUS_FMT_UYVY8_1X16, 1920, 1536⟩ ∧
    (isx031_set_format { mock_session with cur_mode := 2 }
      ⟨V4L2_SUBDEV_FORMAT_TRY, MEDIA_BUS_FMT_UYVY8_1X16, 1920, 1080⟩).2.2.cur_mode = 2 :=
  ⟨(C17_set_format_selects_catalog_mode mock_session_streaming fmt_1920_1080).1,
    by decide,
    (C17_set_format_selects_catalog_mode mock_session_streaming fmt_1920_1080).2.2.2.2.1,
    (C17_set_format_selects_catalog_mode mock_session_streaming fmt_1920_1080).2.2.2.2.2.1,
    by decide, by decide, by decide⟩

/-! ## The stages of resume -/

theorem identify_first {σ : Type} (env : Env σ) (w : World σ) :
    ∃ e rest, (isx031_identify_module env w).2.log = w.log ++ e :: rest ∧
      e.reads ISX031_OTP_TYPE_NAME_L 1 = true := by
  obtain ⟨e, rest, he, hr⟩ := read_loop_first env ISX031_OTP_TYPE_NAME_L 49 0 0 w
  have he' : (isx031_read_reg_otp env ISX031_OTP_TYPE_NAME_L 0 w).2.2.log =
      w.log ++ e :: rest := he
  unfold isx031_identify_module
  generalize isx031_read_reg_otp env ISX031_OTP_TYPE_NAME_L 0 w = R1 at he' ⊢
  by_cases h1 : R1.1 = 0
  swap
  · exact ⟨e, rest, by simp [h1, he'], hr⟩
  simp only [h1, ne_eq, not_true_eq_false, if_false]
  obtain ⟨ops, h2, -, -⟩ :=
    read_loop_log env ISX031_OTP_TYPE_NAME_H ISX031_READ_REG_RETRY_TIMEOUT 0 0 R1.2.2
  have h2' : (isx031_read_reg_otp env ISX031_OTP_TYPE_NAME_H 0 R1.2.2).2.2.log =
      R1.2.2.log ++ ops := h2
  generalize isx031_read_reg_otp env ISX031_OTP_TYPE_NAME_H 0 R1.2.2 = R2 at h2' ⊢
  refine ⟨e, rest ++ ops, ?_, hr⟩
  by_cases h2z : R2.1 = 0
  · simp only [h2z, not_true_eq_false, if_false]
    split <;> simp [h2', he']
  · simp [h2z, h2', he']

theorem initialize_first {σ : Type} (env : Env σ) (s : isx031) (w : World σ) :
    ∃ e rest, (isx031_initialize_module env s w).2.log = w.log ++ e :: rest ∧
      e.reads ISX031_REG_SENSOR_STATE 1 = true := by
  obtain ⟨e, rest, he, hr⟩ := read_loop_first env ISX031_REG_SENSOR_STATE 49 0 0 w
  have he' : (isx031_read_reg_state env 0 w).2.2.log = w.log ++ e :: rest := he
  unfold isx031_initialize_module
  generalize isx031_read_reg_state env 0 w = R1 at he' ⊢
  by_cases h1 : R1.1 = 0
  swap
  · exact ⟨e, rest, by simp [h1, he'], hr⟩
  simp only [h1, ne_eq, not_true_eq_false, if_false]
  have h2 : ∃ ops2, (if R1.2.1 = ISX031_STATE_STREAMING then
        isx031_mode_transit env s ISX031_STATE_STARTUP R1.2.2
      else (0, R1.2.2)).2.log = R1.2.2.log ++ ops2 := by
    split
    · obtain ⟨ops, h, -⟩ := mode_transit_no_write env s ISX031_STATE_STARTUP R1.2.2
      exact ⟨ops, h⟩
    · exact ⟨[], by simp⟩
  obtain ⟨ops2, h2⟩ := h2
  generalize (if R1.2.1 = ISX031_STATE_STREAMING then
        isx031_mode_transit env s ISX031_STATE_STARTUP R1.2.2
      else (0, R1.2.2)) = R2 at h2 ⊢
  by_cases h2z : R2.1 = 0
  swap
  · exact ⟨e, rest ++ ops2, by simp [h2z, h2, he'], hr⟩
  simp only [h2z, not_true_eq_false, if_false]
  obtain ⟨ops3, h3, -⟩ := write_list_log env isx031_init_reg true R2.2
  generalize isx031_write_reg_list env isx031_init_reg true R2.2 = R3 at h3 ⊢
  by_cases h3z : R3.1 = 0
  swap
  · exact ⟨e, rest ++ ops2 ++ ops3, by simp [h3z, h3, h2, he'], hr⟩
  simp only [h3z, not_true_eq_false, if_false]
  obtain ⟨ops4, h4, -⟩ := write_list_log env isx031_framesync_reg false R3.2
  cases hpd : s.platform_data with
  | none => exact ⟨e, rest ++ ops2 ++ ops3, by simp [h3, h2, he'], hr⟩
  | some pd =>
    simp only
    split
    · exact ⟨e, rest ++ ops2 ++ ops3 ++ ops4, by simp [h4, h3, h2, he'], hr⟩
    · exact ⟨e, rest ++ ops2 ++ ops3, by simp [h3, h2, he'], hr⟩

theorem start_streaming_log {σ : Type} (env : Env σ) (s : isx031) (w : World σ) :
    ∃ ops, (isx031_start_streaming env s w).2.2.log = w.log ++ ops := by
  unfold isx031_start_streaming
  have h1 : ∃ ops1, (if some s.cur_mode ≠ s.pre_mode then
        if (isx031_write_reg_list env (mode_at s.cur_mode).reg_list true w).1 ≠ 0 then
          ((isx031_write_reg_list env (mode_at s.cur_mode).reg_list true w).1, s,
           (isx031_write_reg_list env (mode_at s.cur_mode).reg_list true w).2)
        else ((0 : Int), { s with pre_mode := some s.cur_mode },
          (isx031_write_reg_list env (mode_at s.cur_mode).reg_list true w).2)
      else (0, s, w)).2.2.log = w.log ++ ops1 := by
    obtain ⟨ops, h, -⟩ := write_list_log env (mode_at s.cur_mode).reg_list true w
    split
    · split
      · exact ⟨ops, h⟩
      · exact ⟨ops, h⟩
    · exact ⟨[], by simp⟩
  obtain ⟨ops1, h1⟩ := h1
  simp only []
  generalize (if some s.cur_mode ≠ s.pre_mode then
        if (isx031_write_reg_list env (mode_at s.cur_mode).reg_list true w).1 ≠ 0 then
          ((isx031_write_reg_list env (mode_at s.cur_mode).reg_list true w).1, s,
           (isx031_write_reg_list env (mode_at s.cur_mode).reg_list true w).2)
        else ((0 : Int), { s with pre_mode := some s.cur_mode },
          (isx031_write_reg_list env (mode_at s.cur_mode).reg_list true w).2)
      else (0, s, w)) = L at h1 ⊢
  by_cases hz1 : L.1 = 0
  swap
  · exact ⟨ops1, by simp [hz1, h1]⟩
  simp only [hz1, ne_eq, not_true_eq_false, if_false]
  have h2 := do_host_log env HostCall.v4l2_ctrl_handler_setup L.2.2
  generalize do_host env HostCall.v4l2_ctrl_handler_setup L.2.2 = C at h2 ⊢
  by_cases hz2 : C.1 = 0
  swap
  · exact ⟨ops1 ++ [Event.host HostCall.v4l2_ctrl_handler_setup C.1], by simp [hz2, h2, h1]⟩
  simp only [hz2, not_true_eq_false, if_false]
  obtain ⟨ops3, h3, -⟩ := mode_transit_no_write env L.2.1 ISX031_STATE_STREAMING C.2
  refine ⟨ops1 ++ [Event.host HostCall.v4l2_ctrl_handler_setup C.1] ++ ops3, ?_⟩
  split <;> simp [h3, h2, h1, hz2]

theorem resume_steps {σ : Type} (env : Env σ) (s : isx031) (w : World σ) :
    isx031_resume env s w =
      if (resume_power env s w).1 ≠ 0 then (-ETIMEDOUT, s, (resume_power env s w).2)
      else if (resume_identify env s w).1 ≠ 0 then
        ((resume_identify env s w).1, s, (resume_identify env s w).2)
      else if (resume_init env s w).1 ≠ 0 then
        ((resume_init env s w).1, s, (resume_init env s w).2)
      else if (resume_list env s w).1 ≠ 0 then
        ((resume_list env s w).1, s, (resume_list env s w).2)
      else if s.streaming then
        if (resume_restart env s w).1 ≠ 0 then
          ((resume_restart env s w).1,
           { (resume_restart env s w).2.1 with streaming := false },
           (isx031_mode_transit env { (resume_restart env s w).2.1 with streaming := false }
             ISX031_STATE_STARTUP (resume_restart env s w).2.2).2)
        else (0, (resume_restart env s w).2.1, (resume_restart env s w).2.2)
      else (0, s, (resume_list env s w).2) := by
  unfold isx031_resume resume_restart resume_list resume_init resume_identify
    resume_power
  by_cases hg : s.reset_gpio = true
  · simp only [hg, if_true]
    by_cases hp : (resume_power_loop env ISX031_PM_RETRY_TIMEOUT 0 w).1 = 0
    · simp only [hp, ne_eq, not_true_eq_false, if_false]
      rfl
    · simp only [hp, ne_eq, not_false_eq_true, if_true]
  · simp only [hg, Bool.false_eq_true, if_false, ne_eq, not_true_eq_false]
    rfl

/-! ## C18: the order of the stages of resume -/

/-- C18: `isx031_resume` runs its stages in the order power-on wait,
identification, initialization, application of the register list of
`cur_mode` with retry; each stage runs on the world the one before left.
The first stage with a non-zero status ends the call: resume returns
`-ETIMEDOUT` for the power-on wait and the stage's own status for the
others, the session is unchanged and the world is the one that stage left,
so no later stage has run.  If resume returns 0, all four stages returned 0;
the log after the power-on wait continues with the events of the
identification (first a read of the module-name register), then those of the
initialization (first a read of the sensor-state register), then a run of
the register list in which every write of the list went through once, in
list order; what follows belongs to the re-start of streaming. -/
theorem C18_resume_stage_order {σ : Type} (env : Env σ) (s : isx031) (w : World σ) :
    ((resume_power env s w).1 ≠ 0 →
      isx031_resume env s w = (-ETIMEDOUT, s, (resume_power env s w).2)) ∧
    ((resume_power env s w).1 = 0 → (resume_identify env s w).1 ≠ 0 →
      isx031_resume env s w =
        ((resume_identify env s w).1, s, (resume_identify env s w).2)) ∧
    ((resume_power env s w).1 = 0 → (resume_identify env s w).1 = 0 →
      (resume_init env s w).1 ≠ 0 →
      isx031_resume env s w =
        ((resume_init env s w).1, s, (resume_init env s w).2)) ∧
    ((resume_power env s w).1 = 0 → (resume_identify env s w).1 = 0 →
      (resume_init env s w).1 = 0 → (resume_list env s w).1 ≠ 0 →
      isx031_resume env s w = ((resume_list env s w).1, s, (resume_list env s w).2)) ∧
    ((isx031_resume env s w).1 = 0 →
      (resume_power env s w).1 = 0 ∧ (resume_identify env s w).1 = 0 ∧
      (resume_init env s w).1 = 0 ∧ (resume_list env s w).1 = 0 ∧
      ∃ (e_id : Event) (ops_id : List Event) (e_init : Event) (ops_init ops_list
          rest : List Event),
        (resume_identify env s w).2.log = (resume_power env s w).2.log ++ e_id :: ops_id ∧
        e_id.reads ISX031_OTP_TYPE_NAME_L 1 = true ∧
        (resume_init env s w).2.log =
          (resume_identify env s w).2.log ++ e_init :: ops_init ∧
        e_init.reads ISX031_REG_SENSOR_STATE 1 = true ∧
        (resume_list env s w).2.log = (resume_init env s w).2.log ++ ops_list ∧
        ListRun ISX031_WRITE_REG_RETRY_TIMEOUT (mode_at s.cur_mode).reg_list ops_list 0 ∧
        ops_list.filter Event.send_ok = list_events (mode_at s.cur_mode).reg_list ∧
        (isx031_resume env s w).2.2.log = (resume_list env s w).2.log ++ rest) := by
  have hsteps := resume_steps env s w
  refine ⟨?_, ?_, ?_, ?_, ?_⟩
  · intro hp
    rw [hsteps]; simp only [hp, ne_eq, not_false_eq_true, if_true]
  · intro hp hi
    rw [hsteps]; simp only [hp, hi, ne_eq, not_true_eq_false, not_false_eq_true, if_false, if_true]
  · intro hp hi hn
    rw [hsteps]
    simp only [hp, hi, hn, ne_eq, not_true_eq_false, not_false_eq_true, if_false, if_true]
  · intro hp hi hn hl
    rw [hsteps]
    simp only [hp, hi, hn, hl, ne_eq, not_true_eq_false, not_false_eq_true, if_false, if_true]
  · intro h0
    have hT : (-ETIMEDOUT : Int) ≠ 0 := by decide
    by_cases hp : (resume_power env s w).1 = 0
    swap
    · rw [hsteps] at h0; simp only [hp, ne_eq, not_false_eq_true, if_true] at h0
      exact absurd h0 hT
    by_cases hi : (resume_identify env s w).1 = 0
    swap
    · rw [hsteps] at h0
      simp only [hp, hi, ne_eq, not_true_eq_false, not_false_eq_true, if_false, if_true] at h0
    by_cases hn : (resume_init env s w).1 = 0
    swap
    · rw [hsteps] at h0
      simp only [hp, hi, hn, ne_eq, not_true_eq_false, not_false_eq_true, if_false,
        if_true] at h0
    by_cases hl : (resume_list env s w).1 = 0
    swap
    · rw [hsteps] at h0
      simp only [hp, hi, hn, hl, ne_eq, not_true_eq_false, not_false_eq_true, if_false,
        if_true] at h0
    refine ⟨hp, hi, hn, hl, ?_⟩
    obtain ⟨e_id, ops_id, hid, hrid⟩ := identify_first env (resume_power env s w).2
    obtain ⟨e_init, ops_init, hin, hrin⟩ :=
      initialize_first env s (resume_identify env s w).2
    obtain ⟨ops_list, hlog, hrun⟩ := write_list_run env (mode_at s.cur_mode).reg_list true
      (resume_init env s w).2
    have hl' : (isx031_write_reg_list env (mode_at s.cur_mode).reg_list true
        (resume_init env s w).2).1 = 0 := hl
    rw [hl'] at hrun
    have hrest : ∃ rest, (isx031_resume env s w).2.2.log =
        (resume_list env s w).2.log ++ rest := by
      rw [hsteps] at h0 ⊢
      simp only [hp, hi, hn, hl, ne_eq, not_true_eq_false, if_false] at h0 ⊢
      by_cases hst : s.streaming = true
      · simp only [hst, if_true] at h0 ⊢
        by_cases hr : (resume_restart env s w).1 = 0
        · simp only [hr, not_true_eq_false, if_false]
          exact start_streaming_log env s (resume_list env s w).2
        · simp only [hr, not_false_eq_true, if_true] at h0
      · simp only [hst, Bool.false_eq_true, if_false]
        exact ⟨[], by simp⟩
    obtain ⟨rest, hrest⟩ := hrest
    exact ⟨e_id, ops_id, e_init, ops_init, ops_list, rest, hid, hrid, hin, hrin, hlog, hrun,
      list_run_ok hrun rfl, hrest⟩

/-- On the mock sensor every stage of resume succeeds; on the mock sensor
with a wrong module name the identification fails with `-ENODEV` and the
log ends with its two reads: no initialization, no register list. -/
theorem C18_resume_stage_order_witness :
    (isx031_resume mock_env mock_session mock_world_startup).1 = 0 ∧
    (resume_list mock_env mock_session mock_world_startup).1 = 0 ∧
    (resume_power mock_env mock_session ⟨[(0x7E8A, [0x32])], []⟩).1 = 0 ∧
    isx031_resume mock_env mock_session ⟨[(0x7E8A, [0x32])], []⟩ =
      (-ENODEV, mock_session,
        (resume_identify mock_env mock_session ⟨[(0x7E8A, [0x32])], []⟩).2) ∧
    (isx031_resume mock_env mock_session ⟨[(0x7E8A, [0x32])], []⟩).2.2.log =
      poll_events (0, 0) ++
        [rd_event ISX031_OTP_TYPE_NAME_L [0x32], rd_event ISX031_OTP_TYPE_NAME_H []] :=
  ⟨by decide,
    ((C18_resume_stage_order mock_env mock_session mock_world_startup).2.2.2.2
      (by decide)).2.2.2.1,
    by decide,
    (C18_resume_stage_order mock_env mock_session ⟨[(0x7E8A, [0x32])], []⟩).2.1
      (by decide) (by decide),
    by decide⟩

/-! ## C19: resume when the re-start of streaming fails -/

/-- C19: when `isx031_resume` runs on a session with the streaming flag
set, the power-on wait, identification, initialization and register-list
application all return 0 and the re-start of streaming returns a non-zero
status, resume returns that status, the streaming flag of the session it
leaves is false, and after the failed re-start the driver runs the
transition to startup: the world is the one that transition left, whose log
continues after the re-start with a read of the sensor-state register. -/
theorem C19_resume_restart_failure {σ : Type} (env : Env σ) (s : isx031) (w : World σ)
    (hst : s.streaming = true)
    (hp : (resume_power env s w).1 = 0) (hi : (resume_identify env s w).1 = 0)
    (hn : (resume_init env s w).1 = 0) (hl : (resume_list env s w).1 = 0)
    (hr : (resume_restart env s w).1 ≠ 0) :
    (isx031_resume env s w).1 = (resume_restart env s w).1 ∧
    (isx031_resume env s w).2.1.streaming = false ∧
    (isx031_resume env s w).2.2 =
      (isx031_mode_transit env { (resume_restart env s w).2.1 with streaming := false }
        ISX031_STATE_STARTUP (resume_restart env s w).2.2).2 ∧
    ∃ (e : Event) (rest : List Event),
      (isx031_resume env s w).2.2.log = (resume_restart env s w).2.2.log ++ e :: rest ∧
      e.reads ISX031_REG_SENSOR_STATE 1 = true := by
  rw [resume_steps]
  simp only [hp, hi, hn, hl, hst, hr, ne_eq, not_true_eq_false, not_false_eq_true, if_false,
    if_true]
  refine ⟨trivial, trivial, trivial, ?_⟩
  exact mode_transit_attempt env _ ISX031_STATE_STARTUP _ (Or.inl rfl)

/-- On the mock sensor whose control push fails with -12, the resume of the
streaming session gets through the four stages, fails in the re-start with
-12 and leaves the flag false. -/
theorem C19_resume_restart_failure_witness :
    (isx031_resume (host_fail_env HostCall.v4l2_ctrl_handler_setup (-12))
      mock_session_streaming mock_world_startup).1 = -12 ∧
    (isx031_resume (host_fail_env HostCall.v4l2_ctrl_handler_setup (-12))
      mock_session_streaming mock_world_startup).2.1.streaming = false ∧
    (resume_restart (host_fail_env HostCall.v4l2_ctrl_handler_setup (-12))
      mock_session_streaming mock_world_startup).1 = -12 :=
  ⟨by decide,
    (C19_resume_restart_failure (host_fail_env HostCall.v4l2_ctrl_handler_setup (-12))
      mock_session_streaming mock_world_startup rfl (by decide) (by decide) (by decide)
      (by decide) (by decide)).2.1,
    by decide⟩

/-! ## C20: suspend -/

/-- C20 as stated fails in its last clause: on the mock sensor with a reset
line, `isx031_suspend` of the idle session logs exactly one event, the drive
of the reset line to 1, while the power-on loop of `isx031_resume` drives
the line to 0 and stops when it reads 0.  The level suspend drives is not
the level resume drives and accepts. -/
theorem C20_suspend_drives_reset_line_to_one :
    mock_session.reset_gpio = true ∧
    (isx031_suspend mock_env mock_session mock_world_startup).2.2.log =
      [Event.host (HostCall.gpiod_set_value_cansleep 1) 0] ∧
    (resume_power mock_env mock_session mock_world_startup).2.log =
      [Event.host (HostCall.gpiod_set_value_cansleep 0) 0,
       Event.host HostCall.gpiod_get_value_cansleep 0] ∧
    (resume_power mock_env mock_session mock_world_startup).1 = 0 ∧
    HostCall.gpiod_set_value_cansleep 1 ≠ HostCall.gpiod_set_value_cansleep 0 := by
  decide

/-- C20 (amended): for every session and every environment `isx031_suspend`
returns 0 and leaves the session, so `cur_mode`, `pre_mode` and the
streaming flag, unchanged.  With the streaming flag set it first runs the
transition to startup, whose status is dropped: the log continues with a
read of the sensor-state register.  With the flag clear it performs no
transition.  Then, when a reset line is present, it ends by driving that
line to 1 (one host call, the last event of the log); without a reset line
nothing more happens. -/
theorem C20_suspend_always_succeeds {σ : Type} (env : Env σ) (s : isx031) (w : World σ) :
    (isx031_suspend env s w).1 = 0 ∧
    (isx031_suspend env s w).2.1 = s ∧
    ∃ w1 : World σ,
      (s.streaming = true →
        w1 = (isx031_mode_transit env s ISX031_STATE_STARTUP w).2 ∧
        ∃ (e : Event) (rest : List Event), w1.log = w.log ++ e :: rest ∧
          e.reads ISX031_REG_SENSOR_STATE 1 = true) ∧
      (s.streaming = false → w1 = w) ∧
      (s.reset_gpio = true →
        (isx031_suspend env s w).2.2 =
          (do_host env (HostCall.gpiod_set_value_cansleep 1) w1).2 ∧
        ∃ r : Int, (isx031_suspend env s w).2.2.log =
          w1.log ++ [Event.host (HostCall.gpiod_set_value_cansleep 1) r]) ∧
      (s.reset_gpio = false → (isx031_suspend env s w).2.2 = w1) := by
  refine ⟨rfl, rfl, if s.streaming then isx031_stop_streaming env s w else w, ?_, ?_, ?_, ?_⟩
  · intro hst
    simp only [hst, if_true, isx031_stop_streaming]
    exact ⟨trivial, mode_transit_attempt env s ISX031_STATE_STARTUP w (Or.inl rfl)⟩
  · intro hst
    simp [hst]
  · intro hg
    refine ⟨by simp [isx031_suspend, hg], ?_⟩
    exact ⟨(do_host env (HostCall.gpiod_set_value_cansleep 1)
      (if s.streaming then isx031_stop_streaming env s w else w)).1,
      by simp [isx031_suspend, hg, do_host_log]⟩
  · intro hg
    simp [isx031_suspend, hg]

/-- On the dead bus the transition to startup fails, and the suspend of the
streaming session still returns 0, keeps the session and ends with the
drive of the reset line to 1. -/
theorem C20_suspend_always_succeeds_witness :
    (isx031_mode_transit dead_env mock_session_streaming ISX031_STATE_STARTUP
      ⟨(), []⟩).1 ≠ 0 ∧
    (isx031_suspend dead_env mock_session_streaming ⟨(), []⟩).1 = 0 ∧
    (isx031_suspend dead_env mock_session_streaming ⟨(), []⟩).2.1 = mock_session_streaming ∧
    (isx031_suspend dead_env mock_session_streaming ⟨(), []⟩).2.2.log.getLast? =
      some (Event.host (HostCall.gpiod_set_value_cansleep 1) 0) ∧
    (isx031_suspend dead_env mock_session_streaming ⟨(), []⟩).2.2.log.length = 51 :=
  ⟨by decide,
    (C20_suspend_always_succeeds dead_env mock_session_streaming ⟨(), []⟩).1,
    (C20_suspend_always_succeeds dead_env mock_session_streaming ⟨(), []⟩).2.1,
    by decide, by decide⟩

/-! ## The run of a read-retry loop on any bus -/

theorem read_reg_event {σ : Type} (env : Env σ) (reg val : Nat) (w : World σ) :
    ∃ e, (isx031_read_reg env reg 1 val w).2.2.log = w.log ++ [e] ∧
      e.reads reg 1 = true ∧
      ((isx031_read_reg env reg 1 val w).1 = 0 ∧ e.xfer_failed = false ∨
       (isx031_read_reg env reg 1 val w).1 = - EIO_errno ∧ e.xfer_failed = true) := by
  refine ⟨Event.xfer (put_unaligned_be16 reg) 1
    (env.i2c_transfer w.hw (put_unaligned_be16 reg) 1).1
    (env.i2c_transfer w.hw (put_unaligned_be16 reg) 1).2.1, ?_, ?_, ?_⟩
  · by_cases h : (env.i2c_transfer w.hw (put_unaligned_be16 reg) 1).1 = 2
    · simp [isx031_read_reg, do_transfer, h]
    · simp [isx031_read_reg, do_transfer, h]
  · simp [Event.reads]
  · by_cases h : (env.i2c_transfer w.hw (put_unaligned_be16 reg) 1).1 = 2
    · left; simp [isx031_read_reg, do_transfer, h, Event.xfer_failed]
    · right; simp [isx031_read_reg, do_transfer, h, Event.xfer_failed]

theorem read_loop_run_aux {σ : Type} (env : Env σ) (reg : Nat) (n : Nat) :
    ∀ (ret : Int) (val : Nat) (w : World σ),
      (∃ (fails : List Event) (e : Event),
        (∀ x ∈ fails, x.reads reg 1 = true ∧ x.xfer_failed = true) ∧ fails.length < n ∧
        e.reads reg 1 = true ∧ e.xfer_failed = false ∧
        (read_reg_otp_loop env reg n ret val w).1 = 0 ∧
        (read_reg_otp_loop env reg n ret val w).2.2.log = w.log ++ (fails ++ [e])) ∨
      (∃ fails : List Event,
        (∀ x ∈ fails, x.reads reg 1 = true ∧ x.xfer_failed = true) ∧ fails.length = n ∧
        (0 < n → (read_reg_otp_loop env reg n ret val w).1 = - EIO_errno) ∧
        (read_reg_otp_loop env reg n ret val w).2.2.log = w.log ++ fails) := by
  induction n with
  | zero =>
    intro ret val w
    right
    exact ⟨[], by simp, rfl, by simp, by simp [read_reg_otp_loop]⟩
  | succ n ih =>
    intro ret val w
    simp only [read_reg_otp_loop, ISX031_REG_LEN_08BIT]
    obtain ⟨e, hlog, hreads, hst⟩ := read_reg_event env reg val w
    generalize isx031_read_reg env reg 1 val w = R at hlog hst ⊢
    rcases hst with ⟨h0, hok⟩ | ⟨hio, hbad⟩
    · left
      refine ⟨[], e, by simp, by simp, hreads, hok, by simp [h0], ?_⟩
      simp [h0, hlog]
    · have hne : R.1 ≠ 0 := by rw [hio]; simp [EIO_errno]
      simp only [hne, if_false]
      rcases ih R.1 R.2.1 R.2.2 with
        ⟨fails, e2, ha, hl, hr2, hok2, hz, hlg⟩ | ⟨fails, ha, hl, hz, hlg⟩
      · left
        refine ⟨e :: fails, e2, ?_, by simp; omega, hr2, hok2, hz, ?_⟩
        · intro x hx
          rcases List.mem_cons.mp hx with rfl | hx
          · exact ⟨hreads, hbad⟩
          · exact ha x hx
        · rw [hlg, hlog]; simp
      · right
        refine ⟨e :: fails, ?_, by simp [hl], ?_, ?_⟩
        · intro x hx
          rcases List.mem_cons.mp hx with rfl | hx
          · exact ⟨hreads, hbad⟩
          · exact ha x hx
        · intro _
          rcases Nat.eq_zero_or_pos n with h0 | hpos
          · subst h0; simpa [read_reg_otp_loop] using hio
          · exact hz hpos
        · rw [hlg, hlog]; simp

theorem read_state_run {σ : Type} (env : Env σ) (val : Nat) (w : World σ) :
    ∃ ops, (isx031_read_reg_state env val w).2.2.log = w.log ++ ops ∧
      ReadRun ISX031_READ_REG_RETRY_TIMEOUT ISX031_REG_SENSOR_STATE ops
        (isx031_read_reg_state env val w).1 := by
  unfold isx031_read_reg_state
  rcases read_loop_run_aux env ISX031_REG_SENSOR_STATE ISX031_READ_REG_RETRY_TIMEOUT 0 val w
    with ⟨fails, e, ha, hl, hr, hok, hz, hlg⟩ | ⟨fails, ha, hl, hz, hlg⟩
  · refine ⟨fails ++ [e], hlg, ?_⟩
    rw [hz]
    exact ReadRun.ok fails e ha hl hr hok
  · refine ⟨fails, hlg, ?_⟩
    rw [hz (by decide)]
    exact ReadRun.exhausted fails ha hl

theorem read_run_status {limit reg : Nat} {ops : List Event} {ret : Int}
    (h : ReadRun limit reg ops ret) : ret = 0 ∨ ret = - EIO_errno := by
  cases h with
  | ok => exact Or.inl rfl
  | exhausted => exact Or.inr rfl

theorem read_run_failed {limit reg : Nat} {ops : List Event} {ret : Int}
    (h : ReadRun limit reg ops ret) (hne : ret ≠ 0) :
    ret = - EIO_errno ∧ ops.length = limit ∧
      ∀ x ∈ ops, x.reads reg 1 = true ∧ x.xfer_failed = true := by
  cases h with
  | ok => exact absurd rfl hne
  | exhausted fails ha hl => exact ⟨rfl, hl, ha⟩

/-! ## The steps of a state transition -/

theorem mode_transit_steps {σ : Type} (env : Env σ) (s : isx031) (state : Nat)
    (w : World σ) (hstate : state = ISX031_STATE_STARTUP ∨ state = ISX031_STATE_STREAMING) :
    isx031_mode_transit env s state w =
      if (transit_read env w).1 ≠ 0 then ((transit_read env w).1, (transit_read env w).2.2)
      else if (transit_select env s w).1 ≠ 0 then transit_select env s w
      else if (transit_lock env s w).1 ≠ 0 then transit_lock env s w
      else if (transit_set env s (transit_mode state) w).1 ≠ 0 then
        transit_set env s (transit_mode state) w
      else ((transit_confirm env s (transit_mode state) w).1,
        (transit_confirm env s (transit_mode state) w).2.2) := by
  have hbody : isx031_mode_transit env s state w =
      mode_transit_body env s (transit_mode state) w := by
    unfold isx031_mode_transit transit_mode
    rcases hstate with h | h
    · simp [h]
    · have hne : ¬ (ISX031_STATE_STREAMING = ISX031_STATE_STARTUP) := by decide
      simp [h, hne]
  rw [hbody]
  unfold mode_transit_body transit_confirm transit_set transit_lock transit_select
    transit_read
  generalize isx031_read_reg_state env 0 w = R1
  by_cases h1 : R1.1 = 0
  swap
  · simp [h1]
  simp only [h1, ne_eq, not_true_eq_false, if_false]
  generalize isx031_set_drive_mode env s R1.2.2 = R2
  by_cases h2 : R2.1 = 0
  swap
  · simp [h2]
  simp only [h2, not_true_eq_false, if_false]
  generalize isx031_write_reg env ISX031_REG_MODE_SET_F_LOCK 1 ISX031_MODE_UNLOCK R2.2 = R3
  by_cases h3 : R3.1 = 0
  swap
  · simp [h3]
  simp only [h3, not_true_eq_false, if_false]
  generalize isx031_write_reg env ISX031_REG_MODE_SET_F 1 (transit_mode state).toNat R3.2 = R4
  by_cases h4 : R4.1 = 0
  swap
  · simp [h4]
  simp only [h4, not_true_eq_false, if_false]
  generalize isx031_read_reg_state env R1.2.1 R4.2 = R5
  by_cases h5 : R5.1 = 0
  · simp [h5]
  · simp [h5]

theorem write_reg_status {σ : Type} (env : Env σ) (reg val : Nat) (w : World σ) :
    ∃ r : Int, (isx031_write_reg env reg 1 val w).2.log = w.log ++ [wr_event reg val r] ∧
      ((isx031_write_reg env reg 1 val w).1 = 0 ↔ r = 3) ∧
      ((isx031_write_reg env reg 1 val w).1 ≠ 0 →
        (isx031_write_reg env reg 1 val w).1 = - EIO_errno) := by
  rw [write_reg_one]
  refine ⟨(env.i2c_master_send w.hw (write_reg_buf reg 1 val)).1, rfl, ?_, ?_⟩
  · by_cases h : (env.i2c_master_send w.hw (write_reg_buf reg 1 val)).1 = 3
    · simp [h]
    · simp [h, EIO_errno]
  · by_cases h : (env.i2c_master_send w.hw (write_reg_buf reg 1 val)).1 = 3
    · simp [h]
    · simp [h]

/-! ## C21: the bus sequence of a state transition -/

theorem transit_events_bytes (c : Nat) (m : Nat) (d1 d2 : List Nat) :
    [rd_event ISX031_REG_SENSOR_STATE d1, wr_event ISX031_REG_MODE_SELECT c 3, unlock_ok,
      wr_event ISX031_REG_MODE_SET_F m 3, rd_event ISX031_REG_SENSOR_STATE d2] =
    [Event.xfer [0x60, 0x05] 1 2 d1, Event.send [0x8A, 0x00, c % 256] 3,
      Event.send [0xBE, 0xF0, 0x53] 3, Event.send [0x8A, 0x01, m % 256] 3,
      Event.xfer [0x60, 0x05] 1 2 d2] := by
  simp [rd_event, wr_event, unlock_ok, write_reg_buf_one, put_unaligned_be16,
    ISX031_REG_SENSOR_STATE, ISX031_REG_MODE_SELECT, ISX031_REG_MODE_SET_F,
    ISX031_REG_MODE_SET_F_LOCK, ISX031_MODE_UNLOCK]

/-- C21: on a bus where every transfer succeeds, for a target state of
startup or streaming: when the drive mode resolves from the lane count and
the frame rate of `cur_mode`, `isx031_mode_transit` returns 0 and adds to
the log exactly five operations, in this order: a one-byte read of 0x6005,
the send 8A 00 code, the send BE F0 53, the send 8A 01 00 (startup) or
8A 01 80 (streaming), each reported as 3 bytes sent, and a one-byte read of
0x6005.  When the drive mode does not resolve, the call returns the
resolver's negative result after the first read alone. -/
theorem C21_transit_bus_sequence {σ : Type} (env : Env σ) (hs : bus_always_succeeds env)
    (s : isx031) (state : Nat) (w : World σ)
    (hstate : state = ISX031_STATE_STARTUP ∨ state = ISX031_STATE_STREAMING) :
    (0 ≤ isx031_find_drive_mode (s.lanes : Int) ((mode_at s.cur_mode).fps : Int) →
      ∃ d1 d2 : List Nat,
        (isx031_mode_transit env s state w).1 = 0 ∧
        (isx031_mode_transit env s state w).2.log = w.log ++
          [Event.xfer [0x60, 0x05] 1 2 d1,
           Event.send [0x8A, 0x00,
            (isx031_find_drive_mode (s.lanes : Int)
              ((mode_at s.cur_mode).fps : Int)).toNat % 256] 3,
           Event.send [0xBE, 0xF0, 0x53] 3,
           Event.send [0x8A, 0x01, if state = ISX031_STATE_STARTUP then 0x00 else 0x80] 3,
           Event.xfer [0x60, 0x05] 1 2 d2]) ∧
    (isx031_find_drive_mode (s.lanes : Int) ((mode_at s.cur_mode).fps : Int) < 0 →
      ∃ d1 : List Nat,
        (isx031_mode_transit env s state w).1 =
          isx031_find_drive_mode (s.lanes : Int) ((mode_at s.cur_mode).fps : Int) ∧
        (isx031_mode_transit env s state w).2.log = w.log ++
          [Event.xfer [0x60, 0x05] 1 2 d1]) := by
  refine ⟨?_, ?_⟩
  · intro hm
    have hbody : isx031_mode_transit env s state w =
        mode_transit_body env s (transit_mode state) w := by
      unfold isx031_mode_transit transit_mode
      rcases hstate with h | h
      · simp [h]
      · have hne : ¬ (ISX031_STATE_STREAMING = ISX031_STATE_STARTUP) := by decide
        simp [h, hne]
    obtain ⟨d1, d2, h0, hlog⟩ := mode_transit_ok env hs s (transit_mode state) w hm
    refine ⟨d1, d2, by rw [hbody]; exact h0, ?_⟩
    rw [hbody, hlog, transit_events_bytes]
    rcases hstate with h | h
    · subst h; rfl
    · subst h; rfl
  · intro hm
    obtain ⟨d1, a1, a2⟩ := read_loop_ok env hs ISX031_REG_SENSOR_STATE 49 0 0 w
    have hr1 : (transit_read env w).1 = 0 := a1
    have hr2 : (transit_read env w).2.2.log = w.log ++ [rd_event ISX031_REG_SENSOR_STATE d1] :=
      a2
    have hsel : transit_select env s w =
        (isx031_find_drive_mode (s.lanes : Int) ((mode_at s.cur_mode).fps : Int),
          (transit_read env w).2.2) := by
      unfold transit_select isx031_set_drive_mode
      simp only [hm, if_true]
    have hne : isx031_find_drive_mode (s.lanes : Int) ((mode_at s.cur_mode).fps : Int) ≠ 0 := by
      omega
    refine ⟨d1, ?_, ?_⟩
    · rw [mode_transit_steps env s state w hstate]
      simp [hr1, hsel, hne]
    · rw [mode_transit_steps env s state w hstate]
      simp only [hr1, hsel, hne, ne_eq, not_true_eq_false, not_false_eq_true, if_false, if_true]
      rw [hr2]
      rfl

/-- On the mock sensor with four lanes the drive-mode code is 0x17: the
transition to streaming logs 60 05 read, 8A 00 17, BE F0 53, 8A 01 80,
60 05 read and returns 0; the transition to startup differs in 8A 01 00. -/
theorem C21_transit_bus_sequence_witness :
    (isx031_mode_transit mock_env mock_session ISX031_STATE_STREAMING
      mock_world_startup).1 = 0 ∧
    (isx031_mode_transit mock_env mock_session ISX031_STATE_STREAMING
      mock_world_startup).2.log =
      [Event.xfer [0x60, 0x05] 1 2 [0x02], Event.send [0x8A, 0x00, 0x17] 3,
       Event.send [0xBE, 0xF0, 0x53] 3, Event.send [0x8A, 0x01, 0x80] 3,
       Event.xfer [0x60, 0x05] 1 2 [0x02]] ∧
    (isx031_mode_transit mock_env mock_session ISX031_STATE_STARTUP
      mock_world_startup).2.log =
      [Event.xfer [0x60, 0x05] 1 2 [0x02], Event.send [0x8A, 0x00, 0x17] 3,
       Event.send [0xBE, 0xF0, 0x53] 3, Event.send [0x8A, 0x01, 0x00] 3,
       Event.xfer [0x60, 0x05] 1 2 [0x02]] ∧
    (isx031_mode_transit mock_env one_lane_session ISX031_STATE_STREAMING
      mock_world_startup).1 = -EINVAL := by
  have h := C21_transit_bus_sequence mock_env mock_env_succeeds mock_session
    ISX031_STATE_STREAMING mock_world_startup (Or.inr rfl)
  obtain ⟨d1, d2, h0, -⟩ := h.1 (by decide)
  exact ⟨h0, by decide, by decide, by decide⟩

/-! ## C22: failures inside a state transition -/

/-- C22: in `isx031_mode_transit` to startup or streaming, on any bus, the
steps are the initial state read, the drive-mode step, the unlock write, the
mode-set write and the final state read, each on the world the one before
left.  The drive-mode step logs nothing when the drive mode does not resolve
and otherwise exactly one send to the drive-mode-select register; the unlock
and mode-set steps log exactly one send each: no write is retried.  The
first step with a non-zero status ends the call with that status and with
the world that step left, so nothing is issued after it: `-EIO` after 50
failed reads for the initial read, the resolver's negative result with no
write logged for the drive-mode resolution, `-EIO` for a failed write.  When
the mode-set write succeeded and the final read fails, the call returns
that read's `-EIO`, after its 50 failed reads. -/
theorem C22_transit_step_failures {σ : Type} (env : Env σ) (s : isx031) (state : Nat)
    (w : World σ) (hstate : state = ISX031_STATE_STARTUP ∨ state = ISX031_STATE_STREAMING) :
    ((transit_read env w).1 ≠ 0 →
      isx031_mode_transit env s state w = (- EIO_errno, (transit_read env w).2.2) ∧
      ∃ fails : List Event, (transit_read env w).2.2.log = w.log ++ fails ∧
        fails.length = 50 ∧
        ∀ x ∈ fails, x.reads ISX031_REG_SENSOR_STATE 1 = true ∧ x.xfer_failed = true) ∧
    ((transit_read env w).1 = 0 →
      isx031_find_drive_mode (s.lanes : Int) ((mode_at s.cur_mode).fps : Int) < 0 →
      isx031_mode_transit env s state w =
        (isx031_find_drive_mode (s.lanes : Int) ((mode_at s.cur_mode).fps : Int),
          (transit_read env w).2.2)) ∧
    (0 ≤ isx031_find_drive_mode (s.lanes : Int) ((mode_at s.cur_mode).fps : Int) →
      ∃ r : Int, (transit_select env s w).2.log = (transit_read env w).2.2.log ++
        [wr_event ISX031_REG_MODE_SELECT
          (isx031_find_drive_mode (s.lanes : Int) ((mode_at s.cur_mode).fps : Int)).toNat r] ∧
        ((transit_select env s w).1 = 0 ↔ r = 3)) ∧
    (∃ r : Int, (transit_lock env s w).2.log = (transit_select env s w).2.log ++
        [wr_event ISX031_REG_MODE_SET_F_LOCK ISX031_MODE_UNLOCK r] ∧
        ((transit_lock env s w).1 = 0 ↔ r = 3)) ∧
    (∃ r : Int, (transit_set env s (transit_mode state) w).2.log =
        (transit_lock env s w).2.log ++
        [wr_event ISX031_REG_MODE_SET_F (transit_mode state).toNat r] ∧
        ((transit_set env s (transit_mode state) w).1 = 0 ↔ r = 3)) ∧
    ((transit_read env w).1 = 0 →
      0 ≤ isx031_find_drive_mode (s.lanes : Int) ((mode_at s.cur_mode).fps : Int) →
      (transit_select env s w).1 ≠ 0 →
      isx031_mode_transit env s state w = (- EIO_errno, (transit_select env s w).2)) ∧
    ((transit_read env w).1 = 0 → (transit_select env s w).1 = 0 →
      (transit_lock env s w).1 ≠ 0 →
      isx031_mode_transit env s state w = (- EIO_errno, (transit_lock env s w).2)) ∧
    ((transit_read env w).1 = 0 → (transit_select env s w).1 = 0 →
      (transit_lock env s w).1 = 0 → (transit_set env s (transit_mode state) w).1 ≠ 0 →
      isx031_mode_transit env s state w =
        (- EIO_errno, (transit_set env s (transit_mode state) w).2)) ∧
    ((transit_read env w).1 = 0 → (transit_select env s w).1 = 0 →
      (transit_lock env s w).1 = 0 → (transit_set env s (transit_mode state) w).1 = 0 →
      (transit_confirm env s (transit_mode state) w).1 ≠ 0 →
      isx031_mode_transit env s state w =
        (- EIO_errno, (transit_confirm env s (transit_mode state) w).2.2) ∧
      ∃ fails : List Event, (transit_confirm env s (transit_mode state) w).2.2.log =
          (transit_set env s (transit_mode state) w).2.log ++ fails ∧
        fails.length = 50 ∧
        ∀ x ∈ fails, x.reads ISX031_REG_SENSOR_STATE 1 = true ∧ x.xfer_failed = true) := by
  have hsteps := mode_transit_steps env s state w hstate
  obtain ⟨ops1, hlog1, hrun1⟩ := read_state_run env 0 w
  have hlog1' : (transit_read env w).2.2.log = w.log ++ ops1 := hlog1
  have hrun1' : ReadRun ISX031_READ_REG_RETRY_TIMEOUT ISX031_REG_SENSOR_STATE ops1
      (transit_read env w).1 := hrun1
  obtain ⟨ops5, hlog5, hrun5⟩ := read_state_run env (transit_read env w).2.1
    (transit_set env s (transit_mode state) w).2
  have hlog5' : (transit_confirm env s (transit_mode state) w).2.2.log =
      (transit_set env s (transit_mode state) w).2.log ++ ops5 := hlog5
  have hrun5' : ReadRun ISX031_READ_REG_RETRY_TIMEOUT ISX031_REG_SENSOR_STATE ops5
      (transit_confirm env s (transit_mode state) w).1 := hrun5
  obtain ⟨r3, hl3, hi3, he3⟩ := write_reg_status env ISX031_REG_MODE_SET_F_LOCK
    ISX031_MODE_UNLOCK (transit_select env s w).2
  obtain ⟨r4, hl4, hi4, he4⟩ := write_reg_status env ISX031_REG_MODE_SET_F
    (transit_mode state).toNat (transit_lock env s w).2
  have hsel : 0 ≤ isx031_find_drive_mode (s.lanes : Int) ((mode_at s.cur_mode).fps : Int) →
      transit_select env s w = isx031_write_reg env ISX031_REG_MODE_SELECT 1
        (isx031_find_drive_mode (s.lanes : Int) ((mode_at s.cur_mode).fps : Int)).toNat
        (transit_read env w).2.2 := by
    intro hm
    have hm' : ¬ isx031_find_drive_mode (s.lanes : Int)
        ((mode_at s.cur_mode).fps : Int) < 0 := by omega
    unfold transit_select isx031_set_drive_mode
    simp only [hm', if_false]
  refine ⟨?_, ?_, ?_, ⟨r3, hl3, hi3⟩, ⟨r4, hl4, hi4⟩, ?_, ?_, ?_, ?_⟩
  · intro h1
    obtain ⟨hio, hlen, hall⟩ := read_run_failed hrun1' h1
    refine ⟨?_, ops1, hlog1', hlen, hall⟩
    rw [hsteps]; simp only [h1, ne_eq, not_false_eq_true, if_true]; rw [hio]
  · intro h1 hm
    have hs2 : transit_select env s w =
        (isx031_find_drive_mode (s.lanes : Int) ((mode_at s.cur_mode).fps : Int),
          (transit_read env w).2.2) := by
      unfold transit_select isx031_set_drive_mode
      simp only [hm, if_true]
    have hne : isx031_find_drive_mode (s.lanes : Int) ((mode_at s.cur_mode).fps : Int) ≠ 0 := by
      omega
    rw [hsteps]; simp [h1, hs2, hne]
  · intro hm
    obtain ⟨r2, hl2, hi2, -⟩ := write_reg_status env ISX031_REG_MODE_SELECT
      (isx031_find_drive_mode (s.lanes : Int) ((mode_at s.cur_mode).fps : Int)).toNat
      (transit_read env w).2.2
    rw [hsel hm]
    exact ⟨r2, hl2, hi2⟩
  · intro h1 hm h2
    obtain ⟨r2, -, -, he2⟩ := write_reg_status env ISX031_REG_MODE_SELECT
      (isx031_find_drive_mode (s.lanes : Int) ((mode_at s.cur_mode).fps : Int)).toNat
      (transit_read env w).2.2
    rw [← hsel hm] at he2
    rw [hsteps]
    simp only [h1, h2, ne_eq, not_true_eq_false, not_false_eq_true, if_false, if_true]
    exact Prod.ext (he2 h2) rfl
  · intro h1 h2 h3
    rw [hsteps]
    simp only [h1, h2, h3, ne_eq, not_true_eq_false, not_false_eq_true, if_false, if_true]
    exact Prod.ext (he3 h3) rfl
  · intro h1 h2 h3 h4
    rw [hsteps]
    simp only [h1, h2, h3, h4, ne_eq, not_true_eq_false, not_false_eq_true, if_false, if_true]
    exact Prod.ext (he4 h4) rfl
  · intro h1 h2 h3 h4 h5
    obtain ⟨hio, hlen, hall⟩ := read_run_failed hrun5' h5
    refine ⟨?_, ops5, hlog5', hlen, hall⟩
    rw [hsteps]
    simp only [h1, h2, h3, h4, ne_eq, not_true_eq_false, if_false]
    rw [hio]

/-- On the bus whose sends fail while reads complete, the transition stops
at the drive-mode-select write: one read, one failed send, result `-EIO`.
On the dead bus it stops after the 50 failed initial reads. -/
theorem C22_transit_step_failures_witness :
    (isx031_mode_transit mute_env mock_session ISX031_STATE_STREAMING
      mock_world_startup).1 = - EIO_errno ∧
    (isx031_mode_transit mute_env mock_session ISX031_STATE_STREAMING
      mock_world_startup).2.log =
      [Event.xfer [0x60, 0x05] 1 2 [0x02], Event.send [0x8A, 0x00, 0x17] (-121)] ∧
    (isx031_mode_transit dead_env mock_session ISX031_STATE_STREAMING ⟨(), []⟩).1 =
      - EIO_errno ∧
    (isx031_mode_transit dead_env mock_session ISX031_STATE_STREAMING ⟨(), []⟩).2.log =
      List.replicate 50 (Event.xfer [0x60, 0x05] 1 (-121) []) := by
  have h := C22_transit_step_failures mute_env mock_session ISX031_STATE_STREAMING
    mock_world_startup (Or.inr rfl)
  have h6 := h.2.2.2.2.2.1 (by decide) (by decide) (by decide)
  have hd := (C22_transit_step_failures dead_env mock_session ISX031_STATE_STREAMING
    ⟨(), []⟩ (Or.inr rfl)).1 (by decide)
  exact ⟨by rw [h6], by decide, by rw [hd.1], by decide⟩

/-! ## C24: the value of the confirmation read -/

/-- C24: on any bus, for a target of startup or streaming, when the initial
state read, the drive-mode step, the unlock write, the mode-set write and
the final state read all return 0, `isx031_mode_transit` returns 0 and
leaves the world of the final read; the value that read delivered takes no
part in the result.  On the mock sensor whose state register holds `v`, for
every byte value `v`, the transition to streaming returns 0 and its final
read delivers `v`: also 0x02, the startup state. -/
theorem C24_confirmation_value_ignored {σ : Type} (env : Env σ) (s : isx031)
    (state : Nat) (w : World σ)
    (hstate : state = ISX031_STATE_STARTUP ∨ state = ISX031_STATE_STREAMING)
    (h1 : (transit_read env w).1 = 0) (h2 : (transit_select env s w).1 = 0)
    (h3 : (transit_lock env s w).1 = 0)
    (h4 : (transit_set env s (transit_mode state) w).1 = 0)
    (h5 : (transit_confirm env s (transit_mode state) w).1 = 0) :
    isx031_mode_transit env s state w =
      (0, (transit_confirm env s (transit_mode state) w).2.2) ∧
    ∀ v : Fin 256,
      (isx031_mode_transit mock_env mock_session ISX031_STATE_STREAMING
        (mock_world_state v.val)).1 = 0 ∧
      (transit_confirm mock_env mock_session (transit_mode ISX031_STATE_STREAMING)
        (mock_world_state v.val)).2.1 = v.val := by
  refine ⟨?_, by decide⟩
  rw [mode_transit_steps env s state w hstate]
  simp only [h1, h2, h3, h4, ne_eq, not_true_eq_false, if_false]
  exact Prod.ext h5 rfl

/-- On the mock sensor that keeps reporting the startup state 0x02, the
transition to streaming returns 0 although its final read delivers 0x02 and
not 0x05. -/
theorem C24_confirmation_value_ignored_witness :
    (isx031_mode_transit mock_env mock_session ISX031_STATE_STREAMING
      mock_world_startup).1 = 0 ∧
    (transit_confirm mock_env mock_session (transit_mode ISX031_STATE_STREAMING)
      mock_world_startup).2.1 = 0x02 ∧
    (0x02 : Nat) ≠ ISX031_STATE_STREAMING := by
  have h := (C24_confirmation_value_ignored mock_env mock_session ISX031_STATE_STREAMING
    mock_world_startup (Or.inr rfl) (by decide) (by decide) (by decide) (by decide)
    (by decide)).1
  exact ⟨by rw [h], by decide, by decide⟩

/-! ## The register list inside start-streaming -/

theorem start_streaming_eq {σ : Type} (env : Env σ) (s : isx031) (w : World σ) :
    isx031_start_streaming env s w =
      if some s.cur_mode ≠ s.pre_mode then
        if (isx031_write_reg_list env (mode_at s.cur_mode).reg_list true w).1 ≠ 0 then
          ((isx031_write_reg_list env (mode_at s.cur_mode).reg_list true w).1, s,
            (isx031_write_reg_list env (mode_at s.cur_mode).reg_list true w).2)
        else start_after_list env { s with pre_mode := some s.cur_mode }
          (isx031_write_reg_list env (mode_at s.cur_mode).reg_list true w).2
      else start_after_list env s w := by
  unfold isx031_start_streaming start_after_list
  by_cases hc : some s.cur_mode = s.pre_mode
  · simp [hc]
  · by_cases hl : (isx031_write_reg_list env (mode_at s.cur_mode).reg_list true w).1 = 0
    · simp [hc, hl]
    · simp [hc, hl]

theorem start_after_list_session {σ : Type} (env : Env σ) (s : isx031) (w : World σ) :
    (start_after_list env s w).2.1 = s := by
  unfold start_after_list
  simp only []
  split
  · rfl
  · split <;> rfl

theorem start_after_list_log {σ : Type} (env : Env σ) (s : isx031) (w : World σ) :
    ∃ rest, (start_after_list env s w).2.2.log = w.log ++ rest ∧
      ∀ addr, not_transit_reg addr → ∀ e ∈ rest, e.writes addr = false := by
  unfold start_after_list
  simp only []
  have h2 := do_host_log env HostCall.v4l2_ctrl_handler_setup w
  generalize do_host env HostCall.v4l2_ctrl_handler_setup w = C at h2 ⊢
  have hhost : ∀ addr, (Event.host HostCall.v4l2_ctrl_handler_setup C.1).writes addr = false :=
    fun _ => rfl
  by_cases hz : C.1 = 0
  swap
  · refine ⟨[Event.host HostCall.v4l2_ctrl_handler_setup C.1], by simp [hz, h2], ?_⟩
    intro addr _ e he
    rw [List.mem_singleton.mp he]; exact hhost addr
  simp only [hz, ne_eq, not_true_eq_false, if_false]
  obtain ⟨ops3, h3, hno⟩ := mode_transit_no_write env s ISX031_STATE_STREAMING C.2
  refine ⟨Event.host HostCall.v4l2_ctrl_handler_setup C.1 :: ops3, ?_, ?_⟩
  · split <;> simp [h3, h2]
  · intro addr ha e he
    rcases List.mem_cons.mp he with rfl | he
    · exact hhost addr
    · exact hno addr ha e he

theorem mode_list_not_transit :
    ∀ i : Fin 3, ∀ reg ∈ (mode_at i).reg_list, not_transit_reg reg.address := by
  decide

theorem not_transit_no_write (addr : Nat) (h : not_transit_reg addr) (e : Event)
    (he : e.writes addr = true) :
    e.writes ISX031_REG_MODE_SELECT = false ∧ e.writes ISX031_REG_MODE_SET_F_LOCK = false ∧
    e.writes ISX031_REG_MODE_SET_F = false := by
  obtain ⟨h1, h2, h3⟩ := h
  refine ⟨?_, ?_, ?_⟩
  · by_contra hc
    exact h1 (writes_same_addr _ _ e he (by simpa using hc))
  · by_contra hc
    exact h2 (writes_same_addr _ _ e he (by simpa using hc))
  · by_contra hc
    exact h3 (writes_same_addr _ _ e he (by simpa using hc))

/-! ## C23: the register list comes before the transition to streaming -/

/-- C23: in `isx031_start_streaming` on any bus.  When `cur_mode` differs
from `pre_mode`, the register list of `cur_mode` is run first, with retry.
If it fails, the call ends there with its error and the session unchanged,
`pre_mode` included.  If it succeeds, every write of the list went through
once in list order, `pre_mode` becomes `cur_mode`, and the control push and
the transition to streaming run from the world the list left: the log is
the list's events followed by the rest, no event of the list part is a
write to one of the three registers of a transition, and no event of the
rest is a write to a register of the list.  So `pre_mode` ends as
`cur_mode` exactly when the list returned 0.  When `cur_mode` equals
`pre_mode`, the call is the control push and the transition alone, the
session is unchanged and no event it logs is a write to a register of the
list. -/
theorem C23_list_before_streaming_transition {σ : Type} (env : Env σ) (s : isx031)
    (w : World σ) :
    (some s.cur_mode ≠ s.pre_mode →
      ((isx031_write_reg_list env (mode_at s.cur_mode).reg_list true w).1 ≠ 0 →
        isx031_start_streaming env s w =
          ((isx031_write_reg_list env (mode_at s.cur_mode).reg_list true w).1, s,
            (isx031_write_reg_list env (mode_at s.cur_mode).reg_list true w).2)) ∧
      ((isx031_write_reg_list env (mode_at s.cur_mode).reg_list true w).1 = 0 →
        isx031_start_streaming env s w =
          start_after_list env { s with pre_mode := some s.cur_mode }
            (isx031_write_reg_list env (mode_at s.cur_mode).reg_list true w).2) ∧
      ((isx031_start_streaming env s w).2.1.pre_mode = some s.cur_mode ↔
        (isx031_write_reg_list env (mode_at s.cur_mode).reg_list true w).1 = 0) ∧
      ∃ (ops_list rest : List Event),
        (isx031_write_reg_list env (mode_at s.cur_mode).reg_list true w).2.log =
          w.log ++ ops_list ∧
        ListRun ISX031_WRITE_REG_RETRY_TIMEOUT (mode_at s.cur_mode).reg_list ops_list
          (isx031_write_reg_list env (mode_at s.cur_mode).reg_list true w).1 ∧
        ((isx031_write_reg_list env (mode_at s.cur_mode).reg_list true w).1 = 0 →
          ops_list.filter Event.send_ok = list_events (mode_at s.cur_mode).reg_list) ∧
        (isx031_start_streaming env s w).2.2.log = w.log ++ ops_list ++ rest ∧
        (∀ e ∈ ops_list, e.writes ISX031_REG_MODE_SELECT = false ∧
          e.writes ISX031_REG_MODE_SET_F_LOCK = false ∧
          e.writes ISX031_REG_MODE_SET_F = false) ∧
        (∀ e ∈ rest, ∀ r ∈ (mode_at s.cur_mode).reg_list, e.writes r.address = false)) ∧
    (some s.cur_mode = s.pre_mode →
      isx031_start_streaming env s w = start_after_list env s w ∧
      (isx031_start_streaming env s w).2.1 = s ∧
      ∃ ops : List Event, (isx031_start_streaming env s w).2.2.log = w.log ++ ops ∧
        ∀ e ∈ ops, ∀ r ∈ (mode_at s.cur_mode).reg_list, e.writes r.address = false) := by
  have heq := start_streaming_eq env s w
  refine ⟨?_, ?_⟩
  · intro hc
    simp only [hc, ne_eq, not_false_eq_true, if_true] at heq
    obtain ⟨ops_list, hlog, hrun⟩ :=
      write_list_run env (mode_at s.cur_mode).reg_list true w
    obtain ⟨ops', hlog', hwr⟩ := write_list_log env (mode_at s.cur_mode).reg_list true w
    have hsame : ops' = ops_list := by
      have := hlog'.symm.trans hlog
      exact List.append_cancel_left this
    subst hsame
    have hlistpart : ∀ e ∈ ops', e.writes ISX031_REG_MODE_SELECT = false ∧
        e.writes ISX031_REG_MODE_SET_F_LOCK = false ∧
        e.writes ISX031_REG_MODE_SET_F = false := by
      intro e he
      obtain ⟨r, hr, hw⟩ := hwr e he
      exact not_transit_no_write r.address (mode_list_not_transit s.cur_mode r hr) e hw
    generalize isx031_write_reg_list env (mode_at s.cur_mode).reg_list true w = L
      at heq hlog hrun ⊢
    by_cases hl : L.1 = 0
    · simp only [hl, not_true_eq_false, if_false] at heq
      obtain ⟨rest, hrest, hno⟩ :=
        start_after_list_log env { s with pre_mode := some s.cur_mode } L.2
      refine ⟨fun h => absurd hl h, fun _ => heq, ?_, ops', rest, hlog, hrun,
        fun _ => list_run_ok hrun hl, ?_, hlistpart, ?_⟩
      · rw [heq, start_after_list_session]
        exact ⟨fun _ => hl, fun _ => rfl⟩
      · rw [heq, hrest, hlog]
      · intro e he r hr
        exact hno r.address (mode_list_not_transit s.cur_mode r hr) e he
    · simp only [hl, not_false_eq_true, if_true] at heq
      refine ⟨fun _ => heq, fun h => absurd h hl, ?_, ops', [], hlog, hrun,
        fun h => absurd h hl, ?_, hlistpart, ?_⟩
      · rw [heq]
        exact ⟨fun h => absurd h.symm hc, fun h => absurd h hl⟩
      · rw [heq]; simp [hlog]
      · intro e he; simp at he
  · intro hc
    simp only [hc, ne_eq, not_true_eq_false, if_false] at heq
    obtain ⟨rest, hrest, hno⟩ := start_after_list_log env s w
    refine ⟨heq, by rw [heq, start_after_list_session], rest, by rw [heq, hrest], ?_⟩
    intro e he r hr
    exact hno r.address (mode_list_not_transit s.cur_mode r hr) e he

/-- On the mock sensor: a first start applies the list and records the
mode; a start with the mode already applied logs the control push and the
five operations of the transition only; on the dead bus the list fails and
`pre_mode` stays unset. -/
theorem C23_list_before_streaming_transition_witness :
    (isx031_start_streaming mock_env mock_session mock_world_startup).2.1.pre_mode =
      some 0 ∧
    (isx031_start_streaming mock_env mock_session mock_world_startup).2.2.log.take 19 =
      list_events (mode_at 0).reg_list ∧
    (isx031_start_streaming mock_env { mock_session with pre_mode := some 0 }
      mock_world_startup).2.2.log.length = 6 ∧
    (isx031_start_streaming dead_env mock_session ⟨(), []⟩).1 = - EIO_errno ∧
    (isx031_start_streaming dead_env mock_session ⟨(), []⟩).2.1.pre_mode = none := by
  have h := (C23_list_before_streaming_transition mock_env mock_session
    mock_world_startup).1 (by decide)
  have hd := (C23_list_before_streaming_transition dead_env mock_session
    ⟨(), []⟩).1 (by decide)
  refine ⟨h.2.2.1.mpr (by decide), by decide, by decide, ?_, ?_⟩
  · rw [hd.1 (by decide)]; decide
  · rw [hd.1 (by decide)]; rfl

/-! ## C25: the drive mode of a catalog mode always resolves -/

theorem mode_transit_status {σ : Type} (env : Env σ) (s : isx031) (state : Nat)
    (w : World σ) (hstate : state = ISX031_STATE_STARTUP ∨ state = ISX031_STATE_STREAMING)
    (hm : 0 ≤ isx031_find_drive_mode (s.lanes : Int) ((mode_at s.cur_mode).fps : Int)) :
    (isx031_mode_transit env s state w).1 = 0 ∨
    (isx031_mode_transit env s state w).1 = - EIO_errno := by
  have hnot : ¬ isx031_find_drive_mode (s.lanes : Int)
      ((mode_at s.cur_mode).fps : Int) < 0 := by omega
  obtain ⟨ops1, -, hrun1⟩ := read_state_run env 0 w
  have hst1 : (transit_read env w).1 = 0 ∨ (transit_read env w).1 = - EIO_errno :=
    read_run_status hrun1
  obtain ⟨ops5, -, hrun5⟩ := read_state_run env (transit_read env w).2.1
    (transit_set env s (transit_mode state) w).2
  have hst5 : (transit_confirm env s (transit_mode state) w).1 = 0 ∨
      (transit_confirm env s (transit_mode state) w).1 = - EIO_errno :=
    read_run_status hrun5
  obtain ⟨r2, -, -, he2⟩ := write_reg_status env ISX031_REG_MODE_SELECT
    (isx031_find_drive_mode (s.lanes : Int) ((mode_at s.cur_mode).fps : Int)).toNat
    (transit_read env w).2.2
  have hsel : transit_select env s w = isx031_write_reg env ISX031_REG_MODE_SELECT 1
      (isx031_find_drive_mode (s.lanes : Int) ((mode_at s.cur_mode).fps : Int)).toNat
      (transit_read env w).2.2 := by
    unfold transit_select isx031_set_drive_mode
    simp only [hnot, if_false]
  rw [← hsel] at he2
  obtain ⟨r3, -, -, he3⟩ := write_reg_status env ISX031_REG_MODE_SET_F_LOCK
    ISX031_MODE_UNLOCK (transit_select env s w).2
  obtain ⟨r4, -, -, he4⟩ := write_reg_status env ISX031_REG_MODE_SET_F
    (transit_mode state).toNat (transit_lock env s w).2
  rw [mode_transit_steps env s state w hstate]
  by_cases h1 : (transit_read env w).1 = 0
  swap
  · simp only [h1, ne_eq, not_false_eq_true, if_true]
    exact Or.inr (hst1.resolve_left h1)
  by_cases h2 : (transit_select env s w).1 = 0
  swap
  · simp only [h1, h2, ne_eq, not_true_eq_false, not_false_eq_true, if_false, if_true]
    exact Or.inr (he2 h2)
  by_cases h3 : (transit_lock env s w).1 = 0
  swap
  · simp only [h1, h2, h3, ne_eq, not_true_eq_false, not_false_eq_true, if_false, if_true]
    exact Or.inr (he3 h3)
  by_cases h4 : (transit_set env s (transit_mode state) w).1 = 0
  swap
  · simp only [h1, h2, h3, h4, ne_eq, not_true_eq_false, not_false_eq_true, if_false, if_true]
    exact Or.inr (he4 h4)
  simp only [h1, h2, h3, h4, ne_eq, not_true_eq_false, if_false]
  exact hst5

/-- C25: every mode of `supported_modes` has a frame rate for which
`isx031_find_drive_mode` returns 0x17 with 4 lanes and 0x18 with 2 lanes.
So for every session with 2 or 4 lanes, on any bus, the resolver's result is
that code and not negative, `isx031_set_drive_mode` is the write of that
code to the drive-mode-select register (its error branch is not taken), and
neither it nor `isx031_mode_transit` to startup or streaming returns
`-EINVAL`: their status is 0 or `-EIO`. -/
theorem C25_drive_mode_resolves_for_catalog {σ : Type} (env : Env σ) (s : isx031)
    (w : World σ) (hl : s.lanes = 2 ∨ s.lanes = 4) :
    (∀ m ∈ supported_modes, isx031_find_drive_mode 4 (m.fps : Int) = 0x17 ∧
      isx031_find_drive_mode 2 (m.fps : Int) = 0x18) ∧
    mode_at s.cur_mode ∈ supported_modes ∧
    isx031_find_drive_mode (s.lanes : Int) ((mode_at s.cur_mode).fps : Int) =
      (if s.lanes = 4 then 0x17 else 0x18) ∧
    isx031_set_drive_mode env s w =
      isx031_write_reg env ISX031_REG_MODE_SELECT 1 (if s.lanes = 4 then 0x17 else 0x18) w ∧
    ((isx031_set_drive_mode env s w).1 = 0 ∨
      (isx031_set_drive_mode env s w).1 = - EIO_errno) ∧
    (∀ state : Nat, state = ISX031_STATE_STARTUP ∨ state = ISX031_STATE_STREAMING →
      (isx031_mode_transit env s state w).1 = 0 ∨
      (isx031_mode_transit env s state w).1 = - EIO_errno) ∧
    (0 : Int) ≠ -EINVAL ∧ - EIO_errno ≠ -EINVAL := by
  have hfind : isx031_find_drive_mode (s.lanes : Int) ((mode_at s.cur_mode).fps : Int) =
      (if s.lanes = 4 then 0x17 else 0x18) := by
    rw [catalog_fps s.cur_mode]
    rcases hl with h | h <;> rw [h] <;> decide
  have hm : 0 ≤ isx031_find_drive_mode (s.lanes : Int) ((mode_at s.cur_mode).fps : Int) :=
    drive_mode_resolves s.lanes s.cur_mode hl
  have hset : isx031_set_drive_mode env s w =
      isx031_write_reg env ISX031_REG_MODE_SELECT 1
        (if s.lanes = 4 then 0x17 else 0x18) w := by
    unfold isx031_set_drive_mode
    have hnot : ¬ isx031_find_drive_mode (s.lanes : Int)
        ((mode_at s.cur_mode).fps : Int) < 0 := by omega
    simp only [hnot, if_false]
    rw [hfind]
    rcases hl with h | h <;> simp [h]
  refine ⟨by decide, mode_at_mem _, hfind, hset, ?_,
    fun state hstate => mode_transit_status env s state w hstate hm, by decide, by decide⟩
  rw [hset]
  obtain ⟨r, -, -, he⟩ := write_reg_status env ISX031_REG_MODE_SELECT
    (if s.lanes = 4 then 0x17 else 0x18) w
  by_cases h0 : (isx031_write_reg env ISX031_REG_MODE_SELECT 1
      (if s.lanes = 4 then 0x17 else 0x18) w).1 = 0
  · exact Or.inl h0
  · exact Or.inr (he h0)

/-- A session on two lanes in the 1280x720 mode: the code is 0x18 and the
drive-mode step on the mock sensor is the send 8A 00 18. -/
theorem C25_drive_mode_resolves_for_catalog_witness :
    isx031_find_drive_mode 2 ((mode_at 2).fps : Int) = 0x18 ∧
    (isx031_set_drive_mode mock_env ⟨none, true, 2, none, 2, false⟩
      mock_world_startup).2.log = [Event.send [0x8A, 0x00, 0x18] 3] ∧
    (isx031_set_drive_mode mock_env one_lane_session mock_world_startup).1 = -EINVAL := by
  have h := C25_drive_mode_resolves_for_catalog mock_env ⟨none, true, 2, none, 2, false⟩
    mock_world_startup (Or.inl rfl)
  exact ⟨h.2.2.1, by decide, by decide⟩

/-! ## C26: the crop window a mode's register list programs -/

/-- C26: for every mode of `supported_modes`, its register list writes each
of the sixteen crop registers exactly once, and the 16-bit values it
programs (low byte at the lower address) are: the mode's width at
0x8AAA/0x8AAB, (1920 - width) / 2 at 0x8AAC/0x8AAD, the mode's height at
0x8AAE/0x8AAF, (1536 - height) / 2 at 0x8AB0/0x8AB1, and the same four
values in the same order at 0xBF06/07, 0xBF08/09, 0xBF0A/0B, 0xBF0C/0D.
After the list has been applied to the mock sensor, the sensor holds these
values in those registers. -/
theorem C26_mode_list_programs_centred_crop :
    ∀ m ∈ supported_modes,
      (∀ addr ∈ [0x8AAA, 0x8AAB, 0x8AAC, 0x8AAD, 0x8AAE, 0x8AAF, 0x8AB0, 0x8AB1,
          0xBF06, 0xBF07, 0xBF08, 0xBF09, 0xBF0A, 0xBF0B, 0xBF0C, 0xBF0D],
        list_writes_to m.reg_list addr = 1) ∧
      list_value16 m.reg_list 0x8AAA 0x8AAB = some m.width ∧
      list_value16 m.reg_list 0x8AAC 0x8AAD = some ((1920 - m.width) / 2) ∧
      list_value16 m.reg_list 0x8AAE 0x8AAF = some m.height ∧
      list_value16 m.reg_list 0x8AB0 0x8AB1 = some ((1536 - m.height) / 2) ∧
      list_value16 m.reg_list 0xBF06 0xBF07 = some m.width ∧
      list_value16 m.reg_list 0xBF08 0xBF09 = some ((1920 - m.width) / 2) ∧
      list_value16 m.reg_list 0xBF0A 0xBF0B = some m.height ∧
      list_value16 m.reg_list 0xBF0C 0xBF0D = some ((1536 - m.height) / 2) ∧
      m.width ≤ 1920 ∧ m.height ≤ 1536 ∧
      (isx031_write_reg_list mock_env m.reg_list true mock_world_startup).1 = 0 ∧
      mock_reg16 (isx031_write_reg_list mock_env m.reg_list true mock_world_startup).2.hw
        0x8AAA 0x8AAB = m.width ∧
      mock_reg16 (isx031_write_reg_list mock_env m.reg_list true mock_world_startup).2.hw
        0x8AAC 0x8AAD = (1920 - m.width) / 2 ∧
      mock_reg16 (isx031_write_reg_list mock_env m.reg_list true mock_world_startup).2.hw
        0x8AAE 0x8AAF = m.height ∧
      mock_reg16 (isx031_write_reg_list mock_env m.reg_list true mock_world_startup).2.hw
        0x8AB0 0x8AB1 = (1536 - m.height) / 2 := by
  decide

/-- The 1280x720 mode: width 1280 at 0x8AAA/0x8AAB, horizontal offset 320,
height 720, vertical offset 408. -/
theorem C26_mode_list_programs_centred_crop_witness :
    mode_at 2 ∈ supported_modes ∧
    list_value16 (mode_at 2).reg_list 0x8AAA 0x8AAB = some 1280 ∧
    list_value16 (mode_at 2).reg_list 0x8AAC 0x8AAD = some 320 ∧
    list_value16 (mode_at 2).reg_list 0x8AAE 0x8AAF = some 720 ∧
    list_value16 (mode_at 2).reg_list 0x8AB0 0x8AB1 = some 408 :=
  ⟨by decide,
    (C26_mode_list_programs_centred_crop (mode_at 2) (by decide)).2.1,
    (C26_mode_list_programs_centred_crop (mode_at 2) (by decide)).2.2.1,
    (C26_mode_list_programs_centred_crop (mode_at 2) (by decide)).2.2.2.1,
    (C26_mode_list_programs_centred_crop (mode_at 2) (by decide)).2.2.2.2.1⟩

end Isx031
